import Mathlib

/-!
# ans-spareparts-api: cache-aside repositories and the stock controller

A shallow embedding of the data-access layer of the repository
(`internal/features/{inventory,category,product,user}`, `internal/domain`,
`pkg/apperror`), of the services built on it (inventory, category, product,
auth), of the helpers of `pkg/utils` and of the token manager of
`internal/infra/jwtx`.

Conventions of the embedding.

* Go `uint` identifiers are `Nat`.  Go `int` values are `Int`; every arithmetic
  result the Go code computes on `int` is passed through `Golang.wrapInt`
  (two's complement, 64 bit).
* A Go result `(*T, error)` is a pair `Option T × Option Apperror.Error`
  (`none` is `nil`).
* Stateful collaborators are explicit state: a relational table
  (`Gorm.Table`), a key-value backend (`Redis.Client`).  A repository value
  is the pair of both, and every method returns the repository after the call.
* `context.Context`, logging and wall-clock time carry no data the functions
  branch on and are left out; so are the server-assigned `CreatedAt` /
  `UpdatedAt` columns.  `DeletedAt` is the Boolean "soft-deleted" marker.
* Entries of the key-value backend are the JSON documents `encoding/json`
  produces: one wire structure per entity holding exactly the fields that carry
  a JSON name (a field tagged `json:"-"` is not part of it).
* Raw SQL text that reaches the database server (`Where`, `Order`) is kept as
  text; what the server makes of it is a parameter (`Gorm.Server`).
* A signed token is kept by its decoded parts and a keyed hash by the key and
  the input it was computed from (`Jwt.Compact`, `Jwt.Signature`).
* `cmd/api/main.go` hands the same `*redis.Client` to the four repositories.
  Their key templates start with `category:`, `product:`, `inventory:` and
  `user:`, so no layer reads or deletes a key of another one; the backend is
  represented per layer, holding that layer's entries.
-/

namespace Golang

/-- Smallest value of the 64-bit Go `int`. -/
def MinInt : Int := -9223372036854775808

/-- Largest value of the 64-bit Go `int`. -/
def MaxInt : Int := 9223372036854775807

/-- Membership in the range of the 64-bit Go `int`. -/
def IsInt (x : Int) : Prop := MinInt ≤ x ∧ x ≤ MaxInt

instance (x : Int) : Decidable (IsInt x) := by
  unfold IsInt; infer_instance

/-- Two's-complement reduction of an exact integer to the 64-bit Go `int`:
what `+`, `-` and `*` on `int` return. -/
def wrapInt (x : Int) : Int :=
  (x + 9223372036854775808) % 18446744073709551616 - 9223372036854775808

/-- Rendering of the verb `%d` of `fmt.Sprintf` for an unsigned value. -/
def fmtD (n : Nat) : String := Nat.repr n

/-- A Go `float64`, given by its IEEE-754 bit pattern. -/
structure Float64 where
  bits : Nat
deriving DecidableEq, Repr

/-- Neither NaN nor an infinity: the exponent field is not all ones.  These are
the values `encoding/json` can encode, and it decodes them back exactly. -/
def Float64.IsFinite (f : Float64) : Bool := (f.bits / 4503599627370496) % 2048 != 2047

/-- Value of a decimal digit character. -/
def digitVal (c : Char) : Nat := c.toNat - 48

/-- Value of a decimal numeral, most significant digit first (the reading
direction of `strconv.ParseUint`). -/
def decodeDigits (l : List Char) : Nat := l.foldl (fun a c => 10 * a + digitVal c) 0

/-- Go `f < 0` on a `float64`: the sign bit is set and the value is neither a
zero nor a NaN (every comparison with a NaN is false). -/
def Float64.ltZero (f : Float64) : Bool :=
  f.bits % 18446744073709551616 > 9223372036854775808 &&
    !((f.bits / 4503599627370496) % 2048 == 2047 && f.bits % 4503599627370496 != 0)

/-- Go `unicode.IsSpace`: the code points with the Unicode White_Space
property. -/
def IsSpace (c : Char) : Bool :=
  (9 ≤ c.toNat && c.toNat ≤ 13) || c.toNat == 32 || c.toNat == 133 || c.toNat == 160 ||
    c.toNat == 5760 || (8192 ≤ c.toNat && c.toNat ≤ 8202) || c.toNat == 8232 ||
    c.toNat == 8233 || c.toNat == 8239 || c.toNat == 8287 || c.toNat == 12288

/-- Go `strings.TrimSpace`: the string without its leading and trailing white
space. -/
def TrimSpace (s : String) : String :=
  String.mk ((s.data.dropWhile IsSpace).reverse.dropWhile IsSpace).reverse

/-- The loop of Go `strings.Fields`: `cur` is the field being read, last
character first. -/
def splitFields : List Char → List Char → List String
  | cur, [] => if cur.isEmpty then [] else [String.mk cur.reverse]
  | cur, c :: cs =>
    if IsSpace c then
      if cur.isEmpty then splitFields [] cs else String.mk cur.reverse :: splitFields [] cs
    else splitFields (c :: cur) cs

/-- Go `strings.Fields`: the maximal runs of characters that are not white
space. -/
def Fields (s : String) : List String := splitFields [] s.data

/-- Go `strings.Join(elems, sep)`. -/
def Join (elems : List String) (sep : String) : String := sep.intercalate elems

/-- Go `unicode.ToUpper` on one character, exact wherever the result is an ASCII
character: the letters a-z, the dotless i (U+0131) and the long s (U+017F).
Every other character has an upper case outside ASCII and is represented by
itself. -/
def ToUpperRune (c : Char) : Char :=
  if 97 ≤ c.toNat ∧ c.toNat ≤ 122 then Char.ofNat (c.toNat - 32)
  else if c.toNat = 305 then 'I'
  else if c.toNat = 383 then 'S'
  else c

/-- Go `strings.ToUpper`. -/
def ToUpper (s : String) : String := String.mk (s.data.map ToUpperRune)

/-- Go `strconv.ParseUint(s, 10, 32)`: a non-empty string of decimal digits
whose value fits 32 bits; `none` is the syntax or range error. -/
def ParseUint32 (s : String) : Option Nat :=
  if s.data ≠ [] ∧ s.data.all (fun c => 48 ≤ c.toNat && c.toNat ≤ 57) ∧
      decodeDigits s.data < 4294967296 then
    some (decodeDigits s.data)
  else none

end Golang

namespace Apperror

/-- Error values produced by the relational store (gorm over pgx) and by the
request context, before classification. -/
inductive DBError where
  | RecordNotFound
  | Pg (code : String)
  | Canceled
  | DeadlineExceeded
  | Other (msg : String)
deriving DecidableEq, Repr

/-- Go `error` values seen above the repositories: the sentinels of
`pkg/apperror/error.go`, the wrapping `fmt.Errorf("%s: %w", op, inner)` and a
store error used as an error value. -/
inductive Error where
  | ErrNotFound
  | ErrInvalidInput
  | ErrUnauthorized
  | ErrUserForbidden
  | ErrConflict
  | ErrInternalServer
  | ErrInvalidToken
  | ErrTokenExpired
  | ErrInsufficientStock
  | ErrInvalidSKU
  | Wrapf (op : String) (inner : Error)
  | Store (e : DBError)
deriving DecidableEq, Repr

/-- Go `errors.Is(err, target)` for a sentinel target: follows the `%w` chain. -/
def Is : Error → Error → Bool
  | .Wrapf op inner, target => (Error.Wrapf op inner == target) || Is inner target
  | e, target => e == target

/-- Embedding of `MapDBError` (pkg/apperror/dberror.go). -/
def MapDBError (op : String) (err : Option DBError) : Option Error :=
  match err with
  | none => none
  | some e =>
    if e = .Canceled ∨ e = .DeadlineExceeded then some (.Wrapf op (.Store e))
    else if e = .RecordNotFound then some (.Wrapf op .ErrNotFound)
    else
      match e with
      | .Pg code =>
        if code = "23505" then some (.Wrapf op .ErrConflict)
        else if code = "23503" ∨ code = "23514" then some (.Wrapf op .ErrInvalidInput)
        else some (.Wrapf op .ErrInternalServer)
      | _ => some (.Wrapf op .ErrInternalServer)

/-- The Go test `err != nil && !errors.Is(err, target)`. -/
def failsOtherThan (err : Option Error) (target : Error) : Bool :=
  match err with
  | none => false
  | some e => !Is e target

end Apperror

namespace Utils

open Apperror Golang

/-- The set of the regular expression `^[A-Z0-9-]+$` of pkg/utils/sku.go. -/
def isSKUChar (c : Char) : Bool :=
  (65 ≤ c.toNat && c.toNat ≤ 90) || (48 ≤ c.toNat && c.toNat ≤ 57) || c.toNat == 45

/-- Go `SKUValidationRegex.MatchString`: a non-empty string made of the
characters of the set only (`$` is the end of the text). -/
def SKUValidationRegex (s : String) : Bool := !s.data.isEmpty && s.data.all isSKUChar

/-- Embedding of `ValidateAndNormalizeSKU` (pkg/utils/sku.go); `len` is the
length in bytes. -/
def ValidateAndNormalizeSKU (rawSKU : String) : String × Option Error :=
  if ToUpper (TrimSpace rawSKU) = "" then ("", some .ErrInvalidSKU)
  else if (ToUpper (TrimSpace rawSKU)).utf8ByteSize < 3 ∨
      (ToUpper (TrimSpace rawSKU)).utf8ByteSize > 50 then ("", some .ErrInvalidSKU)
  else if !SKUValidationRegex (ToUpper (TrimSpace rawSKU)) then ("", some .ErrInvalidSKU)
  else (ToUpper (TrimSpace rawSKU), none)

/-- Embedding of `SanitizeString` (pkg/utils/helpers.go). -/
def SanitizeString (s : String) : String := Join (Fields (TrimSpace s)) " "

end Utils

namespace Redis

/-- Errors of the key-value client: `redis.Nil` (key absent), a transport
failure, and a JSON decoding failure of the stored bytes. -/
inductive Error where
  | Nil
  | Transport
  | Codec
deriving DecidableEq, Repr

/-- The key-value backend behind a `*redis.Client`: reachable or not, and the
documents it holds (newest binding of a key first). -/
structure Client (β : Type) where
  up : Bool
  kv : List (String × β)
deriving DecidableEq, Repr

/-- Command `GET key`. -/
def Client.Get {β : Type} (c : Client β) (key : String) : Except Error β :=
  if c.up then
    match c.kv.lookup key with
    | some b => .ok b
    | none => .error .Nil
  else .error .Transport

/-- Command `SET key value` (with the TTL of the layer). -/
def Client.Set {β : Type} (c : Client β) (key : String) (b : β) : Option Error × Client β :=
  if c.up then (none, { c with kv := (key, b) :: c.kv.filter (fun e => e.1 != key) })
  else (some .Transport, c)

/-- Command `DEL key...`. -/
def Client.Del {β : Type} (c : Client β) (keys : List String) : Option Error × Client β :=
  if c.up then (none, { c with kv := c.kv.filter (fun e => !keys.contains e.1) })
  else (some .Transport, c)

/-- Expiry of one key when its TTL runs out (a step of the backend itself). -/
def Client.Expire {β : Type} (c : Client β) (key : String) : Client β :=
  { c with kv := c.kv.filter (fun e => e.1 != key) }

end Redis

namespace Gorm

open Apperror

/-- What the store needs to know about a row type: its primary key, the
soft-delete marker, the column defaults applied on insert and the unique
constraints besides the primary key. -/
class Model (α : Type) where
  ID : α → Nat
  setID : Nat → α → α
  Deleted : α → Bool
  setDeleted : Bool → α → α
  defaults : α → α
  uniqueClash : α → α → Bool

/-- One table of the relational store: its rows in insertion order, the last
value handed out by the primary-key sequence, and the connection state
(`some e`: every statement fails with `e`). -/
structure Table (α : Type) where
  rows : List α
  seq : Nat
  fault : Option DBError
deriving DecidableEq, Repr

/-- Statement `First(&dest, cond)`: the first row that is not soft-deleted and
satisfies the condition, `gorm.ErrRecordNotFound` when there is none. -/
def Table.First {α : Type} [Model α] (t : Table α) (cond : α → Bool) : Except DBError α :=
  match t.fault with
  | some e => .error e
  | none =>
    match t.rows.find? (fun r => !Model.Deleted r && cond r) with
    | some r => .ok r
    | none => .error .RecordNotFound

/-- What a repository read answers from the store alone: the row `First`
finds, or the error of `First` classified by `MapDBError` under the operation
name `op`. -/
def Table.Fetch {α : Type} [Model α] (t : Table α) (op : String) (cond : α → Bool) :
    Option α × Option Error :=
  match t.First cond with
  | .error err => (none, MapDBError op (some err))
  | .ok row => (some row, none)

/-- Row-wise application of an `UPDATE ... SET` expression to the rows selected
by the condition; the statement fails as a whole when the expression fails on
one of them. -/
def updateRows {α : Type} (sel : α → Bool) (f : α → Except DBError α) :
    List α → Except DBError (List α)
  | [] => .ok []
  | r :: rs =>
    match updateRows sel f rs with
    | .error e => .error e
    | .ok rs1 =>
      if sel r then
        match f r with
        | .error e => .error e
        | .ok r1 => .ok (r1 :: rs1)
      else .ok (r :: rs1)

/-- Statement `Model(..).Where(cond).Update(col, expr)` restricted to rows that
are not soft-deleted. -/
def Table.Update {α : Type} [Model α] (t : Table α) (cond : α → Bool)
    (f : α → Except DBError α) : Except DBError (Table α) :=
  match t.fault with
  | some e => .error e
  | none =>
    match updateRows (fun r => !Model.Deleted r && cond r) f t.rows with
    | .error e => .error e
    | .ok rows => .ok { t with rows := rows }

/-- The row an insert writes: column defaults replace zero values and a zero
primary key is drawn from the sequence.  The second component is the sequence
after the draw. -/
def Table.insertRow {α : Type} [Model α] (t : Table α) (v : α) : α × Nat :=
  if Model.ID (Model.defaults v) = 0 then (Model.setID (t.seq + 1) (Model.defaults v), t.seq + 1)
  else (Model.defaults v, t.seq)

/-- Statement `Create(value)`: the row of `insertRow` is appended unless it
clashes with an existing row on the primary key or on a unique column
(SQLSTATE 23505).  The returned row is the value as gorm writes it back. -/
def Table.Create {α : Type} [Model α] (t : Table α) (v : α) : Except DBError (α × Table α) :=
  match t.fault with
  | some e => .error e
  | none =>
    if t.rows.any (fun r => Model.ID r == Model.ID (t.insertRow v).1 ||
        Model.uniqueClash r (t.insertRow v).1) then
      .error (.Pg "23505")
    else .ok ((t.insertRow v).1, { t with rows := t.rows ++ [(t.insertRow v).1], seq := (t.insertRow v).2 })

/-- Statement `Save(value)`: an insert when the primary key is zero, otherwise
a full-row write of the row with that primary key (inserted when absent). -/
def Table.Save {α : Type} [Model α] (t : Table α) (v : α) : Except DBError (α × Table α) :=
  match t.fault with
  | some e => .error e
  | none =>
    if Model.ID v = 0 then t.Create v
    else if t.rows.any (fun r => Model.ID r != Model.ID v && Model.uniqueClash r v) then
      .error (.Pg "23505")
    else if t.rows.any (fun r => Model.ID r == Model.ID v) then
      .ok (v, { t with rows := t.rows.map (fun r => if Model.ID r == Model.ID v then v else r) })
    else .ok (v, { t with rows := t.rows ++ [v] })

/-- Statement `Where(cond).Delete(&T{})` on a soft-delete model: marks the
selected live rows as deleted. -/
def Table.Delete {α : Type} [Model α] (t : Table α) (cond : α → Bool) : Except DBError (Table α) :=
  match t.fault with
  | some e => .error e
  | none =>
    let mark : α → α := fun r => if !Model.Deleted r && cond r then Model.setDeleted true r else r
    .ok { t with rows := t.rows.map mark }

/-- Error `gorm.ErrInvalidValue`, seen as a store error. -/
def ErrInvalidValue : DBError := .Other "invalid value, should be pointer to struct or slice"

/-- Statement `Delete(T{}, conds)` with the model passed by value, on a
soft-delete model: gorm has to set the deletion time on the value, cannot
address it, records `ErrInvalidValue` and sends no SQL, whatever the table
holds and whatever the state of the connection. -/
def Table.DeleteByValue {α : Type} [Model α] (_t : Table α) (_cond : α → Bool) :
    Except DBError (Table α) :=
  .error ErrInvalidValue

end Gorm

namespace Domain

/-- Struct `Inventory` of internal/domain/inventory.go. -/
structure Inventory where
  ID : Nat
  ProductID : Nat
  Quantity : Int
  Deleted : Bool
deriving DecidableEq, Repr

instance : Gorm.Model Inventory where
  ID := Inventory.ID
  setID := fun n r => { r with ID := n }
  Deleted := Inventory.Deleted
  setDeleted := fun b r => { r with Deleted := b }
  defaults := fun r => r
  uniqueClash := fun a b => a.ProductID == b.ProductID

end Domain

namespace Inventory

open Apperror Golang

/-- JSON document of an `Inventory`: the fields `id`, `product_id`, `quantity`
(`DeletedAt` is tagged `json:"-"`). -/
structure InventoryJSON where
  id : Nat
  product_id : Nat
  quantity : Int
deriving DecidableEq, Repr

/-- Encoding `json.Marshal(inventory)`. -/
def Marshal (i : Domain.Inventory) : InventoryJSON :=
  { id := i.ID, product_id := i.ProductID, quantity := i.Quantity }

/-- Decoding `json.Unmarshal(b, &inventory)` into a zero `Inventory`. -/
def Unmarshal (b : InventoryJSON) : Domain.Inventory :=
  { ID := b.id, ProductID := b.product_id, Quantity := b.quantity, Deleted := false }

/-- The `*cacheLayer` of inventory/cache.go; `none` is the nil layer. -/
abbrev cacheLayer := Option (Redis.Client InventoryJSON)

/-- Embedding of `newCache`: no layer without a client or with a TTL `<= 0`. -/
def newCache (rdb : Option (Redis.Client InventoryJSON)) (ttl : Int) : cacheLayer :=
  match rdb with
  | none => none
  | some c => if ttl ≤ 0 then none else some c

/-- Embedding of `cacheLayer.keyProductID`. -/
def keyProductID (id : Nat) : String := "inventory:product_id:" ++ fmtD id

/-- Embedding of `cacheLayer.keyID` (the source uses the same template). -/
def keyID (id : Nat) : String := "inventory:product_id:" ++ fmtD id

/-- Embedding of `cacheLayer.getByKey` (inventory/cache.go). -/
def getByKey (c : cacheLayer) (key : String) :
    Option Domain.Inventory × Bool × Option Redis.Error :=
  match c with
  | none => (none, false, none)
  | some rdb =>
    match rdb.Get key with
    | .error err => (none, false, some err)
    | .ok b => (some (Unmarshal b), true, none)

/-- Embedding of `cacheLayer.set` (inventory/cache.go). -/
def set (c : cacheLayer) (key : String) (inventory : Domain.Inventory) :
    Option Redis.Error × cacheLayer :=
  match c with
  | none => (none, none)
  | some rdb =>
    let r := rdb.Set key (Marshal inventory)
    (r.1, some r.2)

/-- Embedding of `cacheLayer.del` (inventory/cache.go). -/
def del (c : cacheLayer) (key : String) : Option Redis.Error × cacheLayer :=
  match c with
  | none => (none, none)
  | some rdb =>
    let r := rdb.Del [key]
    (r.1, some r.2)

/-- The struct `repository` of inventory/repository.go. -/
structure repository where
  db : Gorm.Table Domain.Inventory
  cache : cacheLayer
deriving DecidableEq, Repr

/-- Embedding of `repository.GetByID`. -/
def repository.GetByID (r : repository) (invID : Nat) :
    (Option Domain.Inventory × Option Error) × repository :=
  match getByKey r.cache (keyID invID) with
  | (cache, true, none) => ((cache, none), r)
  | _ =>
    match r.db.First (fun i => i.ID == invID) with
    | .error err => ((none, MapDBError "repo.inventory.getbyid" (some err)), r)
    | .ok inventory =>
      ((some inventory, none), { r with cache := (set r.cache (keyID invID) inventory).2 })

/-- Embedding of `repository.GetByProductID`. -/
def repository.GetByProductID (r : repository) (pID : Nat) :
    (Option Domain.Inventory × Option Error) × repository :=
  match getByKey r.cache (keyProductID pID) with
  | (cache, true, none) => ((cache, none), r)
  | _ =>
    match r.db.First (fun i => i.ProductID == pID) with
    | .error err => ((none, MapDBError "repo.inventory.getByproductID" (some err)), r)
    | .ok inventory =>
      ((some inventory, none), { r with cache := (set r.cache (keyID pID) inventory).2 })

/-- The SQL expression `quantity + ?` on one row: a `bigint` result outside the
64-bit range is SQLSTATE 22003. -/
def addQuantity (delta : Int) (inv : Domain.Inventory) : Except DBError Domain.Inventory :=
  if IsInt (inv.Quantity + delta) then .ok { inv with Quantity := inv.Quantity + delta }
  else .error (.Pg "22003")

/-- Embedding of `repository.UpdateQuantity`: one transaction made of the
locking `First` by `product_id` and the `UPDATE` of that row; a failure of
either statement leaves the store as it was.  The cache is not touched. -/
def repository.UpdateQuantity (r : repository) (pID : Nat) (delta : Int) :
    Option Error × repository :=
  match r.db.First (fun i => i.ProductID == pID) with
  | .error err => (MapDBError "repo.inventory.updateQuantity" (some err), r)
  | .ok inventory =>
    match r.db.Update (fun i => i.ID == inventory.ID && i.ProductID == pID) (addQuantity delta) with
    | .error err => (MapDBError "repo.inventory.updatequantity" (some err), r)
    | .ok db1 => (none, { r with db := db1 })

/-- Embedding of `repository.Create`. -/
def repository.Create (r : repository) (inventory : Domain.Inventory) :
    (Option Domain.Inventory × Option Error) × repository :=
  match r.db.Create inventory with
  | .error err => ((none, MapDBError "repo.inventory.create" (some err)), r)
  | .ok (row, db1) =>
    ((some row, none), { db := db1, cache := (del r.cache (keyID row.ProductID)).2 })

/-- Embedding of `repository.Delete`. -/
def repository.Delete (r : repository) (pID : Nat) : Option Error × repository :=
  match r.db.Delete (fun i => i.ProductID == pID) with
  | .error err => (MapDBError "repo.inventory.delete" (some err), r)
  | .ok db1 => (none, { db := db1, cache := (del r.cache (keyID pID)).2 })

/-- The interface `Repository` of inventory/repository.go, as the methods the
service calls, over the state `σ` of an implementation. -/
structure Repository (σ : Type) where
  GetByID : Nat → σ → (Option Domain.Inventory × Option Error) × σ
  GetByProductID : Nat → σ → (Option Domain.Inventory × Option Error) × σ
  UpdateQuantity : Nat → Int → σ → Option Error × σ
  Create : Domain.Inventory → σ → (Option Domain.Inventory × Option Error) × σ
  Delete : Nat → σ → Option Error × σ

/-- The implementation returned by `NewRepository`. -/
def NewRepository : Repository repository where
  GetByID := fun id r => r.GetByID id
  GetByProductID := fun id r => r.GetByProductID id
  UpdateQuantity := fun pID delta r => r.UpdateQuantity pID delta
  Create := fun inventory r => r.Create inventory
  Delete := fun pID r => r.Delete pID

/-- Struct `UpdateQuantityInput` of inventory/dto.go. -/
structure UpdateQuantityInput where
  ProductID : Nat
  Quantity : Int
deriving DecidableEq, Repr

/-- Struct `Item` of inventory/dto.go. -/
structure Item where
  ID : Nat
  ProductID : Nat
  Quantity : Int
deriving DecidableEq, Repr

/-- Embedding of `service.UpdateQuantity` (inventory/service.go). -/
def UpdateQuantity {σ : Type} (i : Repository σ) (id : Nat) (input : UpdateQuantityInput)
    (s : σ) : (Option Item × Option Error) × σ :=
  match i.GetByID id s with
  | ((none, _), s1) => ((none, some .ErrNotFound), s1)
  | ((some _, some err), s1) => ((none, some err), s1)
  | ((some inventory, none), s1) =>
    if input.Quantity < 0 ∧ wrapInt (input.Quantity * -1) > inventory.Quantity then
      ((none, some .ErrInsufficientStock), s1)
    else
      match i.UpdateQuantity input.ProductID input.Quantity s1 with
      | (some err, s2) => ((none, some err), s2)
      | (none, s2) =>
        ((some { ID := inventory.ID, ProductID := inventory.ProductID,
                 Quantity := wrapInt (inventory.Quantity + input.Quantity) }, none), s2)

/-- A test double in the manner of internal/mock/inventory_repo_mock.go: it
answers `GetByID` and `UpdateQuantity` with fixed values and records the
arguments of every `UpdateQuantity` call. -/
structure MockState where
  updateCalls : List (Nat × Int)
deriving DecidableEq, Repr

/-- The mock repository returning `read` for every read and `upd` for every
update. -/
def MockRepository (read : Option Domain.Inventory × Option Error) (upd : Option Error) :
    Repository MockState where
  GetByID := fun _ s => (read, s)
  GetByProductID := fun _ s => (read, s)
  UpdateQuantity := fun pID delta s => (upd, { updateCalls := s.updateCalls ++ [(pID, delta)] })
  Create := fun inventory s => ((some inventory, none), s)
  Delete := fun _ s => (none, s)

/-- Sequential calls of the service's `UpdateQuantity` over the repository of
`NewRepository`, oldest first: the results in order and the repository after
the last call. -/
def UpdateQuantitySeq (r : repository) :
    List (Nat × UpdateQuantityInput) → List (Option Item × Option Error) × repository
  | [] => ([], r)
  | (id, input) :: rest =>
    ((UpdateQuantity NewRepository id input r).1 ::
        (UpdateQuantitySeq (UpdateQuantity NewRepository id input r).2 rest).1,
      (UpdateQuantitySeq (UpdateQuantity NewRepository id input r).2 rest).2)

end Inventory

namespace Domain

/-- Struct `Category` of internal/domain/category.go. -/
structure Category where
  ID : Nat
  Name : String
  Deleted : Bool
deriving DecidableEq, Repr

instance : Gorm.Model Category where
  ID := Category.ID
  setID := fun n r => { r with ID := n }
  Deleted := Category.Deleted
  setDeleted := fun b r => { r with Deleted := b }
  defaults := fun r => r
  uniqueClash := fun a b => a.Name == b.Name

/-- Struct `Product` of internal/domain/product.go.  The association fields
`Category` and `Inventory` are never loaded nor written by the product
repository and stay at their zero value; they are not represented. -/
structure Product where
  ID : Nat
  Name : String
  Description : String
  Price : Golang.Float64
  SKU : String
  CategoryID : Nat
  IsActive : Bool
  Deleted : Bool
deriving DecidableEq, Repr

instance : Gorm.Model Product where
  ID := Product.ID
  setID := fun n r => { r with ID := n }
  Deleted := Product.Deleted
  setDeleted := fun b r => { r with Deleted := b }
  defaults := fun r => if r.IsActive then r else { r with IsActive := true }
  uniqueClash := fun a b => a.SKU == b.SKU

/-- Struct `User` of internal/domain/user.go. -/
structure User where
  ID : Nat
  Email : String
  Username : String
  Password : String
  Role : String
  IsActive : Bool
  Deleted : Bool
deriving DecidableEq, Repr

instance : Gorm.Model User where
  ID := User.ID
  setID := fun n r => { r with ID := n }
  Deleted := User.Deleted
  setDeleted := fun b r => { r with Deleted := b }
  defaults := fun r =>
    { r with Role := if r.Role = "" then "cashier" else r.Role, IsActive := true }
  uniqueClash := fun a b => a.Email == b.Email

end Domain

namespace Category

open Apperror Golang

/-- JSON document of a `Category`: the fields `id` and `name`. -/
structure CategoryJSON where
  id : Nat
  name : String
deriving DecidableEq, Repr

/-- Encoding `json.Marshal(category)`. -/
def Marshal (c : Domain.Category) : CategoryJSON := { id := c.ID, name := c.Name }

/-- The `*cacheLayer` of category/cache.go; `none` is the nil layer. -/
abbrev cacheLayer := Option (Redis.Client CategoryJSON)

/-- Embedding of `newCache` (category/cache.go). -/
def newCache (rdb : Option (Redis.Client CategoryJSON)) (ttl : Int) : cacheLayer :=
  match rdb with
  | none => none
  | some c => if ttl ≤ 0 then none else some c

/-- Embedding of `cacheLayer.keyID`. -/
def keyID (id : Nat) : String := "category:id:" ++ fmtD id

/-- Embedding of `cacheLayer.keyName`. -/
def keyName (name : String) : String := "category:name:" ++ name

/-- Decoding `json.Unmarshal(b, &c)` as `getByKey` calls it: the destination
`c` is the receiver, a `*cacheLayer` whose fields `rdb` and `ttl` are not
exported, so no member of the document is stored anywhere and the call
succeeds leaving the layer as it was. -/
def UnmarshalIntoLayer (_b : CategoryJSON) (c : Redis.Client CategoryJSON) :
    Redis.Client CategoryJSON := c

/-- Embedding of `cacheLayer.getByKey` (category/cache.go): the local
`category` is declared at its zero value, the document is decoded into the
receiver, and the address of the local is returned. -/
def getByKey (c : cacheLayer) (key : String) :
    Option Domain.Category × Bool × Option Redis.Error :=
  match c with
  | none => (none, false, none)
  | some rdb =>
    match rdb.Get key with
    | .error .Nil => (none, false, none)
    | .error err => (none, false, some err)
    | .ok b =>
      let category : Domain.Category := { ID := 0, Name := "", Deleted := false }
      let _ := UnmarshalIntoLayer b rdb
      (some category, true, none)

/-- Embedding of `cacheLayer.set` (category/cache.go). -/
def set (c : cacheLayer) (key : String) (category : Domain.Category) :
    Option Redis.Error × cacheLayer :=
  match c with
  | none => (none, none)
  | some rdb =>
    let r := rdb.Set key (Marshal category)
    (r.1, some r.2)

/-- Embedding of `cacheLayer.del` (category/cache.go). -/
def del (c : cacheLayer) (key : List String) : Option Redis.Error × cacheLayer :=
  match c with
  | none => (none, none)
  | some rdb =>
    let r := rdb.Del key
    (r.1, some r.2)

/-- The struct `repository` of category/repository.go. -/
structure repository where
  db : Gorm.Table Domain.Category
  cache : cacheLayer
deriving DecidableEq, Repr

/-- Embedding of `repository.GetByID` (category/repository.go). -/
def repository.GetByID (r : repository) (id : Nat) :
    (Option Domain.Category × Option Error) × repository :=
  match getByKey r.cache (keyID id) with
  | (cache, true, none) => ((cache, none), r)
  | _ =>
    match r.db.First (fun c => c.ID == id) with
    | .error err => ((none, MapDBError "repo.category.getByID" (some err)), r)
    | .ok c => ((some c, none), { r with cache := (set r.cache (keyID c.ID) c).2 })

/-- Embedding of `repository.GetByName` (category/repository.go). -/
def repository.GetByName (r : repository) (name : String) :
    (Option Domain.Category × Option Error) × repository :=
  match getByKey r.cache (keyName name) with
  | (cache, true, none) => ((cache, none), r)
  | _ =>
    match r.db.First (fun c => c.Name == name) with
    | .error err => ((none, MapDBError "repo.category.getbyname" (some err)), r)
    | .ok c => ((some c, none), { r with cache := (set r.cache (keyName name) c).2 })

/-- Embedding of `repository.Create` (category/repository.go); the first
component is the caller's struct after the call. -/
def repository.Create (r : repository) (category : Domain.Category) :
    (Domain.Category × Option Error) × repository :=
  match r.db.Create category with
  | .error err => ((category, MapDBError "repo.category.create" (some err)), r)
  | .ok (row, db1) => ((row, none), { db := db1, cache := (del r.cache [keyID row.ID]).2 })

/-- Embedding of `repository.Update` (category/repository.go). -/
def repository.Update (r : repository) (category : Domain.Category) :
    (Domain.Category × Option Error) × repository :=
  match r.db.Save category with
  | .error err => ((category, MapDBError "repo.category.update" (some err)), r)
  | .ok (row, db1) => ((row, none), { db := db1, cache := (del r.cache [keyID row.ID]).2 })

/-- Embedding of `repository.Delete` (category/repository.go).  The statement
is `Delete(domain.Category{}, id)`: the model is passed by value, where the
other three repositories pass a pointer. -/
def repository.Delete (r : repository) (id : Nat) : Option Error × repository :=
  match r.db.DeleteByValue (fun c => c.ID == id) with
  | .error err => (MapDBError "repo.category.delete" (some err), r)
  | .ok db1 => (none, { db := db1, cache := (del r.cache [keyID id]).2 })

end Category

namespace Product

open Apperror Golang

/-- JSON document of a `Product`: every field but `DeletedAt`, which is tagged
`json:"-"`. -/
structure ProductJSON where
  id : Nat
  name : String
  description : String
  price : Float64
  sku : String
  category_id : Nat
  is_active : Bool
deriving DecidableEq, Repr

/-- Encoding `json.Marshal(p)`: fails on a price that is NaN or infinite. -/
def Marshal (p : Domain.Product) : Option ProductJSON :=
  if p.Price.IsFinite then
    some { id := p.ID, name := p.Name, description := p.Description, price := p.Price,
           sku := p.SKU, category_id := p.CategoryID, is_active := p.IsActive }
  else none

/-- Decoding `json.Unmarshal(b, &p)` into a zero `Product`. -/
def Unmarshal (b : ProductJSON) : Domain.Product :=
  { ID := b.id, Name := b.name, Description := b.description, Price := b.price,
    SKU := b.sku, CategoryID := b.category_id, IsActive := b.is_active, Deleted := false }

/-- The `*cacheLayer` of product/cashe.go; `none` is the nil layer. -/
abbrev cacheLayer := Option (Redis.Client ProductJSON)

/-- Embedding of `newCache` (product/cashe.go). -/
def newCache (rdb : Option (Redis.Client ProductJSON)) (ttl : Int) : cacheLayer :=
  match rdb with
  | none => none
  | some c => if ttl ≤ 0 then none else some c

/-- Embedding of `cacheLayer.keyByID`. -/
def keyByID (id : Nat) : String := "product:id:" ++ fmtD id

/-- Embedding of `cacheLayer.keyBySKU`. -/
def keyBySKU (sku : String) : String := "product:sku:" ++ sku

/-- Embedding of `cacheLayer.getByKey` (product/cashe.go). -/
def getByKey (c : cacheLayer) (key : String) :
    Option Domain.Product × Bool × Option Redis.Error :=
  match c with
  | none => (none, false, none)
  | some rdb =>
    match rdb.Get key with
    | .error .Nil => (none, false, none)
    | .error err => (none, false, some err)
    | .ok b => (some (Unmarshal b), true, none)

/-- Embedding of `cacheLayer.set` (product/cashe.go). -/
def set (c : cacheLayer) (key : String) (p : Domain.Product) :
    Option Redis.Error × cacheLayer :=
  match c with
  | none => (none, none)
  | some rdb =>
    match Marshal p with
    | none => (some .Codec, some rdb)
    | some b =>
      let r := rdb.Set key b
      (r.1, some r.2)

/-- Embedding of `cacheLayer.del` (product/cashe.go). -/
def del (c : cacheLayer) (key : List String) : Option Redis.Error × cacheLayer :=
  match c with
  | none => (none, none)
  | some rdb =>
    if key.length = 0 then (none, some rdb)
    else
      let r := rdb.Del key
      (r.1, some r.2)

/-- The struct `repository` of product/repository.go. -/
structure repository where
  db : Gorm.Table Domain.Product
  cache : cacheLayer
deriving DecidableEq, Repr

/-- Embedding of `repository.GetByID` (product/repository.go). -/
def repository.GetByID (r : repository) (id : Nat) :
    (Option Domain.Product × Option Error) × repository :=
  match getByKey r.cache (keyByID id) with
  | (cache, true, none) => ((cache, none), r)
  | _ =>
    match r.db.First (fun p => p.ID == id) with
    | .error err => ((none, MapDBError "repo.product.getByID" (some err)), r)
    | .ok p => ((some p, none), { r with cache := (set r.cache (keyByID id) p).2 })

/-- Embedding of `repository.GetBySKU` (product/repository.go). -/
def repository.GetBySKU (r : repository) (sku : String) :
    (Option Domain.Product × Option Error) × repository :=
  match getByKey r.cache (keyBySKU sku) with
  | (p, true, none) => ((p, none), r)
  | _ =>
    match r.db.First (fun p => p.SKU == sku) with
    | .error err => ((none, MapDBError "repo.product.getBySKU" (some err)), r)
    | .ok p =>
      let c1 := (set r.cache (keyByID p.ID) p).2
      let c2 := (set c1 (keyBySKU sku) p).2
      ((some p, none), { r with cache := c2 })

/-- Embedding of `repository.Create` (product/repository.go); the first
component is the caller's struct after the call. -/
def repository.Create (r : repository) (p : Domain.Product) :
    (Domain.Product × Option Error) × repository :=
  match r.db.Create p with
  | .error err => ((p, MapDBError "repo.product.create" (some err)), r)
  | .ok (row, db1) =>
    ((row, none), { db := db1, cache := (del r.cache [keyByID row.ID, keyBySKU row.SKU]).2 })

/-- Embedding of `repository.Update` (product/repository.go). -/
def repository.Update (r : repository) (p : Domain.Product) :
    (Domain.Product × Option Error) × repository :=
  match r.db.Save p with
  | .error err => ((p, MapDBError "repo.product.update" (some err)), r)
  | .ok (row, db1) =>
    ((row, none), { db := db1, cache := (del r.cache [keyByID row.ID, keyBySKU row.SKU]).2 })

/-- Embedding of `repository.Delete` (product/repository.go). -/
def repository.Delete (r : repository) (id : Nat) : Option Error × repository :=
  match r.db.First (fun p => p.ID == id) with
  | .error err => (MapDBError "repo.product.delete.getByID" (some err), r)
  | .ok p =>
    match r.db.Delete (fun q => q.ID == id) with
    | .error err => (MapDBError "repo.product.delete" (some err), r)
    | .ok db1 => (none, { db := db1, cache := (del r.cache [keyByID id, keyBySKU p.SKU]).2 })

/-- One step of a history of the product repository: a call of one of its
methods, the expiry of a cache key, or a change of the store connection. -/
inductive Call where
  | GetByID (id : Nat)
  | GetBySKU (sku : String)
  | Create (p : Domain.Product)
  | Update (p : Domain.Product)
  | Delete (id : Nat)
  | Expire (key : String)
  | Connection (fault : Option DBError)
deriving Repr

/-- The repository after one step. -/
def Call.run (r : repository) : Call → repository
  | .GetByID id => (r.GetByID id).2
  | .GetBySKU sku => (r.GetBySKU sku).2
  | .Create p => (r.Create p).2
  | .Update p => (r.Update p).2
  | .Delete id => (r.Delete id).2
  | .Expire key => { r with cache := r.cache.map (fun c => c.Expire key) }
  | .Connection fault => { r with db := { r.db with fault := fault } }

/-- The repository after a history, oldest step first. -/
def runCalls (r : repository) (calls : List Call) : repository :=
  calls.foldl Call.run r

/-- A repository over the given store whose cache backend is reachable and
empty. -/
def freshCache (db : Gorm.Table Domain.Product) : repository :=
  { db := db, cache := some { up := true, kv := [] } }

/-- The same store without a cache layer (`newCache` returned nil). -/
def repository.withoutCache (r : repository) : repository := { r with cache := none }

/-- The primary-key constraint of the table: no two rows share an id. -/
def PrimaryKey (t : Gorm.Table Domain.Product) : Prop := (t.rows.map (fun p => p.ID)).Nodup

instance (t : Gorm.Table Domain.Product) : Decidable (PrimaryKey t) := by
  unfold PrimaryKey; infer_instance

/-- Coherence of the by-id cache entries with the store: the primary-key
constraint holds, the backend is reachable, and every document stored under
a by-id key is the encoding of the live row the store returns for that id. -/
def Coherent (r : repository) : Prop :=
  PrimaryKey r.db ∧ ∃ c, r.cache = some c ∧ c.up = true ∧
    ∀ id w, c.kv.lookup (keyByID id) = some w →
      ∃ p, r.db.rows.find? (fun p => !p.Deleted && p.ID == id) = some p ∧ Marshal p = some w

end Product

namespace User

open Apperror Golang

/-- JSON document of a `User`: `Password` and `DeletedAt` are tagged
`json:"-"` and are not part of it. -/
structure UserJSON where
  id : Nat
  email : String
  username : String
  role : String
  is_active : Bool
deriving DecidableEq, Repr

/-- Encoding `json.Marshal(user)`. -/
def Marshal (u : Domain.User) : UserJSON :=
  { id := u.ID, email := u.Email, username := u.Username, role := u.Role,
    is_active := u.IsActive }

/-- Decoding `json.Unmarshal(b, &user)` into a zero `User`: the fields without
a JSON name keep their zero value. -/
def Unmarshal (b : UserJSON) : Domain.User :=
  { ID := b.id, Email := b.email, Username := b.username, Password := "", Role := b.role,
    IsActive := b.is_active, Deleted := false }

/-- The `*cacheLayer` of user/cache.go; `none` is the nil layer. -/
abbrev cacheLayer := Option (Redis.Client UserJSON)

/-- Embedding of `newCache` (user/cache.go). -/
def newCache (rdb : Option (Redis.Client UserJSON)) (ttl : Int) : cacheLayer :=
  match rdb with
  | none => none
  | some c => if ttl ≤ 0 then none else some c

/-- Embedding of `cacheLayer.keyByID`. -/
def keyByID (uID : Nat) : String := "user:id:" ++ fmtD uID

/-- Embedding of `cacheLayer.keyByUsername` (the template is `user:id:%s`). -/
def keyByUsername (username : String) : String := "user:id:" ++ username

/-- Embedding of `cacheLayer.keyByEmail` (the template is `user:id:%s`). -/
def keyByEmail (email : String) : String := "user:id:" ++ email

/-- Embedding of `cacheLayer.getByKey` (user/cache.go). -/
def getByKey (c : cacheLayer) (key : String) :
    Option Domain.User × Bool × Option Redis.Error :=
  match c with
  | none => (none, false, none)
  | some rdb =>
    match rdb.Get key with
    | .error err => (none, false, some err)
    | .ok b => (some (Unmarshal b), true, none)

/-- Embedding of `cacheLayer.set` (user/cache.go). -/
def set (c : cacheLayer) (key : String) (user : Domain.User) :
    Option Redis.Error × cacheLayer :=
  match c with
  | none => (none, none)
  | some rdb =>
    let r := rdb.Set key (Marshal user)
    (r.1, some r.2)

/-- Embedding of `cacheLayer.del` (user/cache.go). -/
def del (c : cacheLayer) (key : List String) : Option Redis.Error × cacheLayer :=
  match c with
  | none => (none, none)
  | some rdb =>
    if key.length = 0 then (none, some rdb)
    else
      let r := rdb.Del key
      (r.1, some r.2)

/-- The struct `repository` of user/repository.go. -/
structure repository where
  db : Gorm.Table Domain.User
  cache : cacheLayer
deriving DecidableEq, Repr

/-- Embedding of `repository.GetByID` (user/repository.go). -/
def repository.GetByID (r : repository) (id : Nat) :
    (Option Domain.User × Option Error) × repository :=
  match getByKey r.cache (keyByID id) with
  | (cache, true, none) => ((cache, none), r)
  | _ =>
    match r.db.First (fun u => u.ID == id) with
    | .error err => ((none, MapDBError "repo.user.getbyid" (some err)), r)
    | .ok user => ((some user, none), { r with cache := (set r.cache (keyByID id) user).2 })

/-- Embedding of `repository.GetByUsername` (user/repository.go). -/
def repository.GetByUsername (r : repository) (username : String) :
    (Option Domain.User × Option Error) × repository :=
  match getByKey r.cache (keyByUsername username) with
  | (cache, true, none) => ((cache, none), r)
  | _ =>
    match r.db.First (fun u => u.Username == username) with
    | .error err => ((none, MapDBError "repo.user.getbyusername" (some err)), r)
    | .ok user =>
      ((some user, none), { r with cache := (set r.cache (keyByUsername username) user).2 })

/-- Embedding of `repository.GetByEmail` (user/repository.go). -/
def repository.GetByEmail (r : repository) (email : String) :
    (Option Domain.User × Option Error) × repository :=
  match getByKey r.cache (keyByEmail email) with
  | (cache, true, none) => ((cache, none), r)
  | _ =>
    match r.db.First (fun u => u.Email == email) with
    | .error err => ((none, MapDBError "repo.user.getbyemail" (some err)), r)
    | .ok user =>
      ((some user, none), { r with cache := (set r.cache (keyByEmail email) user).2 })

/-- Embedding of `repository.Create` (user/repository.go); the first component
is the caller's struct after the call. -/
def repository.Create (r : repository) (user : Domain.User) :
    (Domain.User × Option Error) × repository :=
  match r.db.Create user with
  | .error err => ((user, MapDBError "repo.user.create" (some err)), r)
  | .ok (row, db1) => ((row, none), { db := db1, cache := (set r.cache (keyByID row.ID) row).2 })

/-- Embedding of `repository.Update` (user/repository.go). -/
def repository.Update (r : repository) (user : Domain.User) :
    (Domain.User × Option Error) × repository :=
  match r.db.Save user with
  | .error err => ((user, MapDBError "repo.user.update" (some err)), r)
  | .ok (row, db1) => ((row, none), { db := db1, cache := (del r.cache [keyByID row.ID]).2 })

/-- Embedding of `repository.Delete` (user/repository.go). -/
def repository.Delete (r : repository) (id : Nat) : Option Error × repository :=
  match r.db.Delete (fun u => u.ID == id) with
  | .error err => (MapDBError "repo.user.delte" (some err), r)
  | .ok db1 => (none, { db := db1, cache := (del r.cache [keyByID id]).2 })

end User

namespace Response

/-- Struct `ErrorBody` of pkg/response/response.go. -/
structure ErrorBody where
  Code : String
  Message : String
deriving DecidableEq, Repr

/-- What a handler sends through `c.Status(status).JSON(v)`: the HTTP status
and the body, an `ErrorBody` or the data of type `β`. -/
structure Sent (β : Type) where
  Status : Nat
  Body : Sum ErrorBody β
deriving DecidableEq, Repr

/-- Embedding of `response.Error`. -/
def Error {β : Type} (status : Nat) (code msg : String) : Sent β :=
  { Status := status, Body := .inl { Code := code, Message := msg } }

/-- Embedding of `response.OK` (`fiber.StatusOK` is 200). -/
def OK {β : Type} (data : β) : Sent β := { Status := 200, Body := .inr data }

end Response

namespace Inventory

open Apperror Golang

/-- Embedding of `service.GetInventoryByID` (inventory/service.go).  A nil
inventory with a nil error, which no repository of this code base returns,
makes the Go code panic on `inventory.ID`; the panic is represented by the
pair (nil, nil). -/
def GetInventoryByID {σ : Type} (i : Repository σ) (ivnID : Nat) (s : σ) :
    (Option Item × Option Error) × σ :=
  match i.GetByID ivnID s with
  | ((_, some err), s1) => ((none, some err), s1)
  | ((some inventory, none), s1) =>
    ((some { ID := inventory.ID, ProductID := inventory.ProductID,
             Quantity := inventory.Quantity }, none), s1)
  | ((none, none), s1) => ((none, none), s1)

/-- Embedding of `service.GetInventoryByProductID` (inventory/service.go), with
the same representation of the nil dereference. -/
def GetInventoryByProductID {σ : Type} (i : Repository σ) (productID : Nat) (s : σ) :
    (Option Item × Option Error) × σ :=
  match i.GetByProductID productID s with
  | ((_, some err), s1) => ((none, some err), s1)
  | ((some inventory, none), s1) =>
    ((some { ID := inventory.ID, ProductID := inventory.ProductID,
             Quantity := inventory.Quantity }, none), s1)
  | ((none, none), s1) => ((none, none), s1)

/-- The interface `Service` of inventory/service.go, as the methods the handler
calls. -/
structure Service (σ : Type) where
  GetInventoryByID : Nat → σ → (Option Item × Option Error) × σ
  GetInventoryByProductID : Nat → σ → (Option Item × Option Error) × σ
  UpdateQuantity : Nat → UpdateQuantityInput → σ → (Option Item × Option Error) × σ

/-- Embedding of `NewService` (inventory/service.go). -/
def NewService {σ : Type} (inventoryRepo : Repository σ) : Service σ where
  GetInventoryByID := GetInventoryByID inventoryRepo
  GetInventoryByProductID := GetInventoryByProductID inventoryRepo
  UpdateQuantity := UpdateQuantity inventoryRepo

/-- Struct `InventoryResponse` of inventory/dto.go. -/
structure InventoryResponse where
  ID : Nat
  ProductID : Nat
  Quantity : Int
deriving DecidableEq, Repr

/-- Embedding of `Handler.GetInventoryByID` (inventory/handler.go); `param` is
the route parameter `id`.  The statuses are `fiber.StatusBadRequest` 400,
`fiber.StatusNotFound` 404 and `fiber.StatusInternalServerError` 500; the
error of the service is compared with `==`.  A nil item with a nil error is a
nil dereference, which `middleware.Recover` answers with status 500. -/
def Handler.GetInventoryByID {σ : Type} (service : Service σ) (param : String) (s : σ) :
    Response.Sent InventoryResponse × σ :=
  match ParseUint32 param with
  | none => (Response.Error 400 "BAD_REQUEST" "invalid inventory id request", s)
  | some id =>
    match service.GetInventoryByID id s with
    | ((_, some err), s1) =>
      if err = .ErrNotFound then (Response.Error 404 "NOT_FOUND" "inventory not found", s1)
      else (Response.Error 500 "INTERNAL_ERROR" "internal server occured", s1)
    | ((some item, none), s1) =>
      (Response.OK { ID := item.ID, ProductID := item.ProductID, Quantity := item.Quantity }, s1)
    | ((none, none), s1) => (Response.Error 500 "" "Internal Server Error", s1)

end Inventory

namespace Category

open Apperror

/-- The interface `Repository` of category/repository.go over the state `σ` of
an implementation; `Create` and `Update` also return the caller's struct after
the call. -/
structure Repository (σ : Type) where
  Create : Domain.Category → σ → (Domain.Category × Option Error) × σ
  Update : Domain.Category → σ → (Domain.Category × Option Error) × σ
  Delete : Nat → σ → Option Error × σ
  GetByID : Nat → σ → (Option Domain.Category × Option Error) × σ
  GetByName : String → σ → (Option Domain.Category × Option Error) × σ

/-- The implementation returned by `NewRepository` (category/repository.go). -/
def NewRepository : Repository repository where
  Create := fun category r => r.Create category
  Update := fun category r => r.Update category
  Delete := fun id r => r.Delete id
  GetByID := fun id r => r.GetByID id
  GetByName := fun name r => r.GetByName name

/-- Struct `CategoryResponse` of category/dto.go. -/
structure CategoryResponse where
  ID : Nat
  Name : String
deriving DecidableEq, Repr

end Category

namespace Product

open Apperror Golang Utils

/-- The interface `Repository` of product/repository.go over the state `σ` of
an implementation; `Create` and `Update` also return the caller's struct after
the call. -/
structure Repository (σ : Type) where
  GetByID : Nat → σ → (Option Domain.Product × Option Error) × σ
  GetBySKU : String → σ → (Option Domain.Product × Option Error) × σ
  Create : Domain.Product → σ → (Domain.Product × Option Error) × σ
  Update : Domain.Product → σ → (Domain.Product × Option Error) × σ
  Delete : Nat → σ → Option Error × σ

/-- The implementation returned by `NewRepository` (product/repository.go). -/
def NewRepository : Repository repository where
  GetByID := fun id r => r.GetByID id
  GetBySKU := fun sku r => r.GetBySKU sku
  Create := fun p r => r.Create p
  Update := fun p r => r.Update p
  Delete := fun id r => r.Delete id

/-- Struct `CreateInput` of product/dto.go. -/
structure CreateInput where
  Name : String
  Description : String
  Price : Float64
  SKU : String
  CategoryID : Nat
deriving DecidableEq, Repr

/-- Struct `UpdateInput` of product/dto.go; `none` is a nil pointer. -/
structure UpdateInput where
  Name : Option String
  Description : Option String
  SKU : Option String
  Price : Option Float64
  CategoryID : Option Nat
deriving DecidableEq, Repr

/-- Struct `Item` of product/dto.go. -/
structure Item where
  ID : Nat
  Name : String
  Description : String
  SKU : String
  Price : Float64
  IsActive : Bool
  CategoryID : Nat
  Category : Category.CategoryResponse
  Inventory : Inventory.InventoryResponse
deriving DecidableEq, Repr

/-- Embedding of `sanitizeCreate` (product/service.go); on the unsigned
`CategoryID` the test `<= 0` is the test for zero. -/
def sanitizeCreate (inp : CreateInput) : Option Error :=
  if TrimSpace inp.Name = "" ∨ TrimSpace inp.SKU = "" then some .ErrInvalidInput
  else if inp.Price.ltZero = true ∨ inp.CategoryID ≤ 0 then some .ErrInvalidInput
  else none

/-- Embedding of `sanitizeUpdate` (product/service.go). -/
def sanitizeUpdate (inp : UpdateInput) : Option Error :=
  if (match inp.Price with | some price => price.ltZero | none => false) = true then
    some .ErrInvalidInput
  else if (match inp.CategoryID with | some id => decide (id ≤ 0) | none => false) = true then
    some .ErrInvalidInput
  else none

/-- Embedding of `toItem` (product/service.go): the fields `SKU` and
`CategoryID` of the item are not assigned and keep their zero value. -/
def toItem (p : Domain.Product) (c : Option Domain.Category) (inv : Option Domain.Inventory) :
    Item :=
  { ID := p.ID, Name := p.Name, Description := p.Description, SKU := "", Price := p.Price,
    IsActive := p.IsActive, CategoryID := 0,
    Category := match c with
      | some c => { ID := c.ID, Name := c.Name }
      | none => { ID := 0, Name := "" },
    Inventory := match inv with
      | some inv => { ID := inv.ID, ProductID := inv.ProductID, Quantity := inv.Quantity }
      | none => { ID := 0, ProductID := 0, Quantity := 0 } }

/-- The struct `service` of product/service.go: the three repositories it is
built from, each over the state of its implementation. -/
structure service (σp σc σi : Type) where
  productRepo : Repository σp
  categoryRepo : Category.Repository σc
  inventoryRepo : Inventory.Repository σi

/-- The states of the three repositories a service call works on. -/
structure Stores (σp σc σi : Type) where
  product : σp
  category : σc
  inventory : σi
deriving DecidableEq, Repr

/-- Embedding of `NewService` (product/service.go). -/
def NewService {σp σc σi : Type} (productRepo : Repository σp)
    (categoryRepo : Category.Repository σc) (inventoryRepo : Inventory.Repository σi) :
    service σp σc σi :=
  { productRepo := productRepo, categoryRepo := categoryRepo, inventoryRepo := inventoryRepo }

/-- Embedding of `service.CreateProduct` (product/service.go). -/
def service.CreateProduct {σp σc σi : Type} (i : service σp σc σi) (inp : CreateInput)
    (w : Stores σp σc σi) : (Option Item × Option Error) × Stores σp σc σi :=
  match sanitizeCreate inp with
  | some err => ((none, some err), w)
  | none =>
    match ValidateAndNormalizeSKU inp.SKU with
    | (_, some err) => ((none, some err), w)
    | (sku, none) =>
      match i.productRepo.GetBySKU inp.SKU w.product with
      | ((some _, _), p1) => ((none, some .ErrConflict), { w with product := p1 })
      | ((none, err), p1) =>
        if failsOtherThan err .ErrNotFound = true then ((none, err), { w with product := p1 })
        else
          match i.categoryRepo.GetByID inp.CategoryID w.category with
          | ((_, some err), c1) =>
            ((none, some err), { product := p1, category := c1, inventory := w.inventory })
          | ((category, none), c1) =>
            match i.productRepo.Create
                { ID := 0, Name := SanitizeString inp.Name,
                  Description := SanitizeString inp.Description, Price := inp.Price,
                  SKU := sku, CategoryID := inp.CategoryID, IsActive := true,
                  Deleted := false } p1 with
            | ((_, some err), p2) =>
              ((none, some err), { product := p2, category := c1, inventory := w.inventory })
            | ((product, none), p2) =>
              match i.inventoryRepo.Create
                  { ID := 0, ProductID := product.ID, Quantity := 0, Deleted := false }
                  w.inventory with
              | ((_, some err), i1) =>
                ((none, some err), { product := p2, category := c1, inventory := i1 })
              | ((inv, none), i1) =>
                ((some (toItem product category inv), none),
                  { product := p2, category := c1, inventory := i1 })

/-- Lines 231-241 of `service.UpdateProduct`: the write of the product, the
read of its inventory and the item.  `category` is the association field
`product.Category`, which the repository neither loads nor stores. -/
def service.saveUpdated {σp σc σi : Type} (i : service σp σc σi) (productID : Nat)
    (product : Domain.Product) (category : Domain.Category) (w : Stores σp σc σi) :
    (Option Item × Option Error) × Stores σp σc σi :=
  match i.productRepo.Update product w.product with
  | ((_, some err), p1) => ((none, some err), { w with product := p1 })
  | ((product1, none), p1) =>
    match i.inventoryRepo.GetByProductID productID w.inventory with
    | ((_, some err), i1) =>
      ((none, some err), { product := p1, category := w.category, inventory := i1 })
    | ((inventory, none), i1) =>
      ((some (toItem product1 (some category) inventory), none),
        { product := p1, category := w.category, inventory := i1 })

/-- Lines 214-241 of `service.UpdateProduct`: the price, the category (read
from the category repository before it is assigned) and the rest. -/
def service.applyPriceCategory {σp σc σi : Type} (i : service σp σc σi) (productID : Nat)
    (inp : UpdateInput) (product : Domain.Product) (w : Stores σp σc σi) :
    (Option Item × Option Error) × Stores σp σc σi :=
  match inp.CategoryID with
  | some categoryID =>
    match i.categoryRepo.GetByID categoryID w.category with
    | ((_, some err), c1) => ((none, some err), { w with category := c1 })
    | ((none, none), c1) => ((none, some .ErrNotFound), { w with category := c1 })
    | ((some category, none), c1) =>
      i.saveUpdated productID
        { product with
          Price := (match inp.Price with | some price => price | none => product.Price),
          CategoryID := categoryID }
        category { w with category := c1 }
  | none =>
    i.saveUpdated productID
      { product with
        Price := (match inp.Price with | some price => price | none => product.Price) }
      { ID := 0, Name := "", Deleted := false } w

/-- Embedding of `service.UpdateProduct` (product/service.go).  The tests
`in.X != &product.X` compare the address of the caller's value with the
address of a field of the product just read and are always true. -/
def service.UpdateProduct {σp σc σi : Type} (i : service σp σc σi) (productID : Nat)
    (inp : UpdateInput) (w : Stores σp σc σi) :
    (Option Item × Option Error) × Stores σp σc σi :=
  match i.productRepo.GetByID productID w.product with
  | ((none, _), p1) => ((none, some .ErrNotFound), { w with product := p1 })
  | ((some _, some err), p1) => ((none, some err), { w with product := p1 })
  | ((some product, none), p1) =>
    match sanitizeUpdate inp with
    | some err => ((none, some err), { w with product := p1 })
    | none =>
      match inp.SKU with
      | some rawSKU =>
        match ValidateAndNormalizeSKU rawSKU with
        | (_, some err) => ((none, some err), { w with product := p1 })
        | (sku, none) =>
          match i.productRepo.GetBySKU rawSKU p1 with
          | ((some _, _), p2) => ((none, some .ErrConflict), { w with product := p2 })
          | ((none, err), p2) =>
            if failsOtherThan err .ErrNotFound = true then
              ((none, err), { w with product := p2 })
            else
              i.applyPriceCategory productID inp
                { product with
                  Name := (match inp.Name with
                    | some name => SanitizeString name | none => product.Name),
                  Description := (match inp.Description with
                    | some d => SanitizeString d | none => product.Description),
                  SKU := sku }
                { w with product := p2 }
      | none =>
        i.applyPriceCategory productID inp
          { product with
            Name := (match inp.Name with
              | some name => SanitizeString name | none => product.Name),
            Description := (match inp.Description with
              | some d => SanitizeString d | none => product.Description) }
          { w with product := p1 }

end Product

namespace Golang

/-- The alphabet of Go `base64.URLEncoding`. -/
def encodeURL : List Char :=
  "ABCDEFGHIJKLMNOPQRSTUVWXYZabcdefghijklmnopqrstuvwxyz0123456789-_".data

/-- The character of the URL alphabet for a six-bit value. -/
def encodeURLChar (n : Nat) : Char := encodeURL.getD (n % 64) 'A'

/-- Go `base64.RawURLEncoding.EncodeToString` on a list of bytes (numbers below
256): three bytes give four characters, a rest of two bytes three and a rest of
one byte two; no padding is written. -/
def RawURLEncode : List Nat → List Char
  | a :: b :: c :: rest =>
    encodeURLChar (a / 4) :: encodeURLChar (a % 4 * 16 + b / 16) ::
      encodeURLChar (b % 16 * 4 + c / 64) :: encodeURLChar (c % 64) :: RawURLEncode rest
  | [a, b] => [encodeURLChar (a / 4), encodeURLChar (a % 4 * 16 + b / 16), encodeURLChar (b % 16 * 4)]
  | [a] => [encodeURLChar (a / 4), encodeURLChar (a % 4 * 16)]
  | [] => []

/-- Go `strings.TrimRight(s, cutset)`. -/
def TrimRight (s cutset : String) : String :=
  String.mk (s.data.reverse.dropWhile (fun c => cutset.data.contains c)).reverse

end Golang

namespace Utils

/-- Constant `defaultLimit` of pkg/utils/helpers.go. -/
def defaultLimit : Int := 10

/-- Constant `maxLimit` of pkg/utils/helpers.go. -/
def maxLimit : Int := 100

/-- Embedding of `NormalizePagination` (pkg/utils/helpers.go). -/
def NormalizePagination (limit offset : Int) : Int × Int :=
  let limit1 := if limit < 1 then defaultLimit else limit
  let limit2 := if limit1 > maxLimit then maxLimit else limit1
  let offset1 := if offset < 0 then 0 else offset
  (limit2, offset1)

end Utils

namespace Gorm

open Apperror

/-- The clauses a `*gorm.DB` chain has collected: the conditions of `Where`
(raw SQL text and its arguments), the texts of `Order`, and the values of
`Offset` and `Limit`. -/
structure Statement where
  conds : List (String × List String)
  orders : List String
  offset : Option Int
  limit : Option Int
deriving DecidableEq, Repr

/-- The chain right after `db.WithContext(ctx).Model(&T{})`. -/
def Statement.Model : Statement := { conds := [], orders := [], offset := none, limit := none }

/-- Chain method `Where(query, args...)` for a query text. -/
def Statement.Where (tx : Statement) (query : String) (args : List String) : Statement :=
  { tx with conds := tx.conds ++ [(query, args)] }

/-- Chain method `Order(value)` for a string: the empty string adds nothing. -/
def Statement.Order (tx : Statement) (value : String) : Statement :=
  if value ≠ "" then { tx with orders := tx.orders ++ [value] } else tx

/-- Chain method `Offset(offset)`. -/
def Statement.Offset (tx : Statement) (offset : Int) : Statement :=
  { tx with offset := some offset }

/-- Chain method `Limit(limit)`. -/
def Statement.Limit (tx : Statement) (limit : Int) : Statement :=
  { tx with limit := some limit }

/-- What the database server makes of the raw SQL a statement carries, on rows
of type `α`: a condition text with its arguments is a predicate on a row or is
rejected, an `ORDER BY` text is an arrangement of the selected rows or is
rejected.  The texts are not interpreted by the embedding; the server is a
parameter of every listing. -/
structure Server (α : Type) where
  Cond : String → List String → Except DBError (α → Bool)
  OrderBy : String → Except DBError (List α → List α)

/-- The conjunction of the conditions of a statement as the server reads them;
the first rejected text fails the statement. -/
def Server.Filter {α : Type} (srv : Server α) : List (String × List String) →
    Except DBError (α → Bool)
  | [] => .ok (fun _ => true)
  | (query, args) :: rest =>
    match srv.Cond query args with
    | .error e => .error e
    | .ok p =>
      match srv.Filter rest with
      | .error e => .error e
      | .ok q => .ok (fun r => p r && q r)

/-- The rows a statement selects: the rows that are not soft-deleted and
satisfy its conditions. -/
def Table.Select {α : Type} [Model α] (t : Table α) (srv : Server α) (tx : Statement) :
    Except DBError (List α) :=
  match t.fault with
  | some e => .error e
  | none =>
    match srv.Filter tx.conds with
    | .error e => .error e
    | .ok p => .ok (t.rows.filter (fun r => !Model.Deleted r && p r))

/-- Finisher `Count(&total)`: the number of rows the statement selects. -/
def Table.Count {α : Type} [Model α] (t : Table α) (srv : Server α) (tx : Statement) :
    Except DBError Int :=
  match t.Select srv tx with
  | .error e => .error e
  | .ok rows => .ok rows.length

/-- The page of a statement: the arranged rows without the first `Offset` ones
and cut to `Limit` rows.  The repositories call `Offset` and `Limit` with
values other than zero, and a negative value adds no clause. -/
def Statement.Page {α : Type} (tx : Statement) (rows : List α) : List α :=
  let rest := match tx.offset with
    | some n => if n > 0 then rows.drop n.toNat else rows
    | none => rows
  match tx.limit with
  | some n => if n > 0 then rest.take n.toNat else rest
  | none => rest

/-- The rows a statement selects in the order it asks for: arranged by the
server along the `ORDER BY` texts (joined with a comma) when there is one, and
otherwise as the table holds them (without `ORDER BY` the server is free in the
order; the table order stands for it). -/
def Table.Arrange {α : Type} [Model α] (t : Table α) (srv : Server α) (tx : Statement) :
    Except DBError (List α) :=
  match t.Select srv tx with
  | .error e => .error e
  | .ok rows =>
    if tx.orders = [] then .ok rows
    else
      match srv.OrderBy (",".intercalate tx.orders) with
      | .error e => .error e
      | .ok arrange => .ok (arrange rows)

/-- Finisher `Find(&rows)`: the page of the arranged rows. -/
def Table.Find {α : Type} [Model α] (t : Table α) (srv : Server α) (tx : Statement) :
    Except DBError (List α) :=
  match t.Arrange srv tx with
  | .error e => .error e
  | .ok rows => .ok (tx.Page rows)

end Gorm

namespace Category

open Apperror Golang Utils

/-- Struct `ListQuery` of category/dto.go. -/
structure ListQuery where
  Search : String
  Limit : Int
  Offset : Int
  «Sort» : String
deriving DecidableEq, Repr

/-- Struct `Item` of category/dto.go. -/
structure Item where
  ID : Nat
  Name : String
deriving DecidableEq, Repr

/-- Struct `ListOutput` of category/dto.go. -/
structure ListOutput where
  Items : List Item
  Total : Int
deriving DecidableEq, Repr

/-- Struct `CategoryRequest` of category/dto.go. -/
structure CategoryRequest where
  Name : String
deriving DecidableEq, Repr

/-- Embedding of `repository.List` (category/repository.go); `srv` is the
database server reading the SQL texts.  The condition is added when
`q.Search` is empty, `Order(q.«Sort»)` is called when `q.«Sort»` is empty, and
`created_at DESC` is the order otherwise.  A nil slice is the empty list. -/
def repository.List (r : repository) (srv : Gorm.Server Domain.Category) (q : ListQuery) :
    (List Domain.Category × Int × Option Error) × repository :=
  let tx0 := Gorm.Statement.Model
  let tx1 := if q.Search = "" then tx0.Where "name =  ILIKE  " ["%" ++ q.Search ++ "%"] else tx0
  match r.db.Count srv tx1 with
  | .error err => (([], 0, MapDBError "repo.category.list.count" (some err)), r)
  | .ok total =>
    let tx2 := if q.«Sort» = "" then tx1.Order q.«Sort» else tx1.Order "created_at DESC"
    let tx3 := if q.Offset ≠ 0 then tx2.Offset q.Offset else tx2
    let tx4 := if q.Limit ≠ 0 then tx3.Limit q.Limit else tx3
    match r.db.Find srv tx4 with
    | .error err => (([], 0, MapDBError "repo.category.list" (some err)), r)
    | .ok rows => ((rows, total, none), r)

/-- Embedding of `service.CreateCategory` (category/service.go). -/
def CreateCategory {σ : Type} (i : Repository σ) (req : CategoryRequest) (s : σ) :
    (Option Item × Option Error) × σ :=
  if req.Name = "" then ((none, some .ErrInvalidInput), s)
  else
    match i.GetByName req.Name s with
    | ((cat, err), s1) =>
      if failsOtherThan err .ErrNotFound = true then ((none, err), s1)
      else
        match cat with
        | some _ => ((none, some .ErrConflict), s1)
        | none =>
          match i.Create { ID := 0, Name := req.Name, Deleted := false } s1 with
          | ((_, some err1), s2) => ((none, some err1), s2)
          | ((category, none), s2) =>
            ((some { ID := category.ID, Name := category.Name }, none), s2)

/-- Embedding of `service.UpdateCategory` (category/service.go).  A nil
category with a nil error, which no repository of this code base returns, is a
nil dereference; it is represented by the pair (nil, nil). -/
def UpdateCategory {σ : Type} (i : Repository σ) (categoryID : Nat) (req : CategoryRequest)
    (s : σ) : (Option Item × Option Error) × σ :=
  if SanitizeString req.Name = "" then ((none, some .ErrInvalidInput), s)
  else
    match i.GetByName (SanitizeString req.Name) s with
    | ((cat, err), s1) =>
      if failsOtherThan err .ErrNotFound = true then ((none, err), s1)
      else
        match cat with
        | some _ => ((none, some .ErrConflict), s1)
        | none =>
          match i.GetByID categoryID s1 with
          | ((_, some err1), s2) => ((none, some err1), s2)
          | ((none, none), s2) => ((none, none), s2)
          | ((some category, none), s2) =>
            match i.Update { category with Name := SanitizeString req.Name } s2 with
            | ((_, some err2), s3) => ((none, some err2), s3)
            | ((category1, none), s3) =>
              ((some { ID := category1.ID, Name := category1.Name }, none), s3)

/-- Embedding of `service.List` (category/service.go); `list` is the method
`List` of the repository the service holds. -/
def service.List {σ : Type}
    (list : ListQuery → σ → (List Domain.Category × Int × Option Error) × σ)
    (q : ListQuery) (s : σ) : (Option ListOutput × Option Error) × σ :=
  match list { Search := q.Search, Limit := (NormalizePagination q.Limit q.Offset).1,
               Offset := (NormalizePagination q.Limit q.Offset).2, «Sort» := q.«Sort» } s with
  | ((_, _, some err), s1) => ((none, some err), s1)
  | ((rows, total, none), s1) =>
    ((some { Items := rows.map (fun category => { ID := category.ID, Name := category.Name }),
             Total := total }, none), s1)

end Category

namespace Inventory

open Apperror Golang Utils

/-- Struct `ListQuery` of inventory/dto.go. -/
structure ListQuery where
  Limit : Int
  Offset : Int
  «Sort» : String
deriving DecidableEq, Repr

/-- Struct `ListOutput` of inventory/dto.go. -/
structure ListOutput where
  Items : List Item
  Total : Int
deriving DecidableEq, Repr

/-- Embedding of `service.List` (inventory/service.go); `list` is the method
`List` of the repository the service holds. -/
def service.List {σ : Type}
    (list : ListQuery → σ → (List Domain.Inventory × Int × Option Error) × σ)
    (q : ListQuery) (s : σ) : (Option ListOutput × Option Error) × σ :=
  match list { Limit := (NormalizePagination q.Limit q.Offset).1,
               Offset := (NormalizePagination q.Limit q.Offset).2, «Sort» := q.«Sort» } s with
  | ((_, _, some err), s1) => ((none, some err), s1)
  | ((rows, total, none), s1) =>
    ((some { Items := rows.map (fun inv =>
               { ID := inv.ID, ProductID := inv.ProductID, Quantity := inv.Quantity }),
             Total := total }, none), s1)

end Inventory

namespace Product

open Apperror Golang Utils

/-- Embedding of `service.GetProductDetail` (product/service.go).  A nil
product with a nil error, which no repository of this code base returns, is a
nil dereference; it is represented by the pair (nil, nil). -/
def service.GetProductDetail {σp σc σi : Type} (i : service σp σc σi) (productID : Nat)
    (w : Stores σp σc σi) : (Option Item × Option Error) × Stores σp σc σi :=
  match i.productRepo.GetByID productID w.product with
  | ((_, some err), p1) => ((none, some err), { w with product := p1 })
  | ((none, none), p1) => ((none, none), { w with product := p1 })
  | ((some product, none), p1) =>
    match i.categoryRepo.GetByID product.CategoryID w.category with
    | ((_, some err), c1) =>
      ((none, some err), { product := p1, category := c1, inventory := w.inventory })
    | ((category, none), c1) =>
      match i.inventoryRepo.GetByProductID productID w.inventory with
      | ((_, some err), i1) =>
        ((none, some err), { product := p1, category := c1, inventory := i1 })
      | ((inventory, none), i1) =>
        ((some (toItem product category inventory), none),
          { product := p1, category := c1, inventory := i1 })

/-- The interface `Service` of product/service.go, as the methods the handler
calls, over the state `W` of an implementation. -/
structure Service (W : Type) where
  CreateProduct : CreateInput → W → (Option Item × Option Error) × W
  GetProductDetail : Nat → W → (Option Item × Option Error) × W
  UpdateProduct : Nat → UpdateInput → W → (Option Item × Option Error) × W

/-- The method set of `*service`: the value of `NewService` seen through the
interface `Service`. -/
def service.Service {σp σc σi : Type} (i : service σp σc σi) : Service (Stores σp σc σi) where
  CreateProduct := i.CreateProduct
  GetProductDetail := i.GetProductDetail
  UpdateProduct := i.UpdateProduct

/-- Struct `ProductDetailResponse` of product/dto.go. -/
structure ProductDetailResponse where
  ID : Nat
  Name : String
  Description : String
  SKU : String
  Price : Float64
  CategoryID : Nat
  Category : Category.CategoryResponse
  Inventory : Inventory.InventoryResponse
deriving DecidableEq, Repr

/-- Embedding of `Handler.GetProductDetail` (product/handler.go); `param` is
the route parameter `id`.  A nil item with a nil error is a nil dereference,
which `middleware.Recover` answers with status 500. -/
def Handler.GetProductDetail {W : Type} (service : Service W) (param : String) (s : W) :
    Response.Sent ProductDetailResponse × W :=
  match ParseUint32 param with
  | none => (Response.Error 400 "BAD_REQUEST" "invalid productID", s)
  | some productID =>
    match service.GetProductDetail productID s with
    | ((_, some err), s1) =>
      if err = .ErrNotFound then (Response.Error 404 "NOT_FOUND" "product not found", s1)
      else (Response.Error 500 "INTERNAL_ERROR" "internal server occured", s1)
    | ((some product, none), s1) =>
      (Response.OK { ID := product.ID, Name := product.Name,
                     Description := product.Description, SKU := product.SKU,
                     Price := product.Price, CategoryID := product.CategoryID,
                     Category := product.Category, Inventory := product.Inventory }, s1)
    | ((none, none), s1) => (Response.Error 500 "" "Internal Server Error", s1)

end Product

namespace Auth

open Apperror Golang

/-- The interface `AuthRepository` of auth/ports.go over the state `σ` of an
implementation; `Create` also returns the caller's struct after the call. -/
structure AuthRepository (σ : Type) where
  GetByUsername : String → σ → (Option Domain.User × Option Error) × σ
  GetByEmail : String → σ → (Option Domain.User × Option Error) × σ
  Create : Domain.User → σ → (Domain.User × Option Error) × σ

/-- The user repository of user/repository.go seen through `AuthRepository`,
as cmd/api/main.go hands it to `auth.NewService`. -/
def UserRepository : AuthRepository User.repository where
  GetByUsername := fun username r => r.GetByUsername username
  GetByEmail := fun email r => r.GetByEmail email
  Create := fun user r => r.Create user

/-- The interface `Hasher` of internal/infra/hash/bcrypt.go.  An error of the
hashing package is given by its message. -/
structure Hasher where
  HashPassword : String → String × Option String
  CompareHashAndPassword : String → String → Option String

/-- The interface `TokenIssuer` of auth/ports.go, as the method `Login` calls,
over the state `τ` of an implementation (its clock and its random source).  An
error of the issuer is given by its message. -/
structure TokenIssuer (τ : Type) where
  GenerateToken : Nat → String → String → τ → (String × String × Option String) × τ

/-- The struct `service` of auth/service.go. -/
structure service (σ τ : Type) where
  authRepo : AuthRepository σ
  hash : Hasher
  tokens : TokenIssuer τ
  DefaultRole : String

/-- Embedding of `NewService` (auth/service.go). -/
def NewService {σ τ : Type} (userRepo : AuthRepository σ) (tokens : TokenIssuer τ)
    (hash : Hasher) (defaultRole : String) : service σ τ :=
  { authRepo := userRepo, tokens := tokens, hash := hash,
    DefaultRole := if defaultRole = "" then "cashier" else defaultRole }

/-- Struct `LoginInput` of auth/dto.go. -/
structure LoginInput where
  Username : String
  Password : String
deriving DecidableEq, Repr

/-- Embedding of `sanitizeLogin` (auth/service.go). -/
def sanitizeLogin (inp : LoginInput) : Option Error :=
  if TrimSpace inp.Username = "" ∨ TrimSpace inp.Password = "" then some .ErrInvalidInput
  else none

/-- Embedding of `service.Login` (auth/service.go) over the states of the
repository and of the token issuer.  A nil user with a nil error, which no
repository of this code base returns, is a nil dereference; it is represented
by a nil user with a nil error. -/
def service.Login {σ τ : Type} (i : service σ τ) (inp : LoginInput) (s : σ × τ) :
    (Option Domain.User × String × Option Error) × (σ × τ) :=
  match sanitizeLogin inp with
  | some err => ((none, "", some err), s)
  | none =>
    match i.authRepo.GetByUsername (TrimSpace inp.Username) s.1 with
    | ((_, some err), s1) => ((none, "", some err), (s1, s.2))
    | ((none, none), s1) => ((none, "", none), (s1, s.2))
    | ((some user, none), s1) =>
      if !user.IsActive then ((none, "", some .ErrUserForbidden), (s1, s.2))
      else
        match i.hash.CompareHashAndPassword inp.Password user.Password with
        | some _ => ((none, "", some .ErrUnauthorized), (s1, s.2))
        | none =>
          match i.tokens.GenerateToken user.ID user.Username user.Role s.2 with
          | ((_, _, some _), t1) => ((none, "", some .ErrInternalServer), (s1, t1))
          | ((token, _, none), t1) =>
            ((some { user with Password := "" }, token, none), (s1, t1))

end Auth

namespace Jwt

/-- Struct `jwt.RegisteredClaims` of github.com/golang-jwt/jwt/v5; a numeric
date is a number of seconds since the Unix epoch, `none` an absent claim. -/
structure RegisteredClaims where
  Issuer : String
  Subject : String
  Audience : List String
  ExpiresAt : Option Int
  NotBefore : Option Int
  IssuedAt : Option Int
  ID : String
deriving DecidableEq, Repr

/-- Library function `jwt.NewNumericDate`: the time, given in nanoseconds since
the Unix epoch, truncated to the second. -/
def NewNumericDate (t : Int) : Option Int := some (t / 1000000000)

/-- The error values of the library that a parse can return. -/
inductive Error where
  | ErrInvalidKeyType
  | ErrSignatureInvalid
  | NoneSignatureTypeDisallowedError
  | ErrTokenMalformed
  | ErrTokenUnverifiable
  | ErrTokenSignatureInvalid
  | ErrTokenRequiredClaimMissing
  | ErrTokenInvalidAudience
  | ErrTokenExpired
  | ErrTokenInvalidIssuer
  | ErrTokenNotValidYet
  | ErrTokenInvalidClaims
deriving DecidableEq, Repr

/-- The signature segment of a compact serialization.  `HMAC alg key claims`
stands for the bytes the HMAC of method `alg` computes under `key` over the
signing input made of the header naming `alg` and of the claims (two such
values are the same bytes only for the same method, key and input); `Bytes` is
any other byte string and `Undecodable` a segment that is not base64url. -/
inductive Signature (γ : Type) where
  | HMAC (alg : String) (key : String) (claims : γ)
  | Bytes (b : String)
  | Undecodable
deriving DecidableEq, Repr

/-- A token string as the parser reads it: `Signed alg claims signature` is a
string of three segments whose first two decode to a header naming the method
`alg` and to a claims document; `Text s` is any other string `s`. -/
inductive Compact (γ : Type) where
  | Text (s : String)
  | Signed (alg : String) (claims : γ) (signature : Signature γ)
deriving DecidableEq, Repr

/-- The names of the signing methods the library registers. -/
def signingMethods : List String :=
  ["HS256", "HS384", "HS512", "RS256", "RS384", "RS512", "ES256", "ES384", "ES512",
   "PS256", "PS384", "PS512", "EdDSA", "none"]

/-- Method `Token.SignedString(key)` for a token of method HS256 and a key of
type `[]byte`; it does not fail. -/
def SignedStringHS256 {γ : Type} (claims : γ) (key : String) : Compact γ :=
  .Signed "HS256" claims (.HMAC "HS256" key claims)

/-- Method `SigningMethod.Verify` of the method named `alg` for a key of type
`[]byte`, the only key type this code base hands to the library: the HMAC
methods compare the signature with the one they compute, the method `none`
wants its marker key, and every other method wants a public key. -/
def Verify {γ : Type} [DecidableEq γ] (alg : String) (key : String) (claims : γ)
    (signature : Signature γ) : Option Error :=
  if alg = "HS256" ∨ alg = "HS384" ∨ alg = "HS512" then
    if signature = .HMAC alg key claims then none else some .ErrSignatureInvalid
  else if alg = "none" then some .NoneSignatureTypeDisallowedError
  else some .ErrInvalidKeyType

/-- The parser options this code base sets: `WithValidMethods` (`none` when
it is not given), `WithLeeway` in nanoseconds, `WithIssuer` and `WithAudience`
(the empty string when not given). -/
structure Parser where
  validMethods : Option (List String)
  leeway : Int
  expectedIss : String
  expectedAud : String
deriving DecidableEq, Repr

/-- Method `Validator.Validate` on the registered claims at the time `now`
(nanoseconds): expiry and not-before with the leeway, then audience and issuer
when one is expected.  The result is the list of the failures. -/
def Parser.Validate (p : Parser) (c : RegisteredClaims) (now : Int) : List Error :=
  (match c.ExpiresAt with
    | some exp => if now < exp * 1000000000 + p.leeway then [] else [.ErrTokenExpired]
    | none => []) ++
  (match c.NotBefore with
    | some nbf => if now < nbf * 1000000000 - p.leeway then [.ErrTokenNotValidYet] else []
    | none => []) ++
  (if p.expectedAud ≠ "" then
      if c.Audience.all (fun a => a = "") then [.ErrTokenRequiredClaimMissing]
      else if c.Audience.contains p.expectedAud then [] else [.ErrTokenInvalidAudience]
    else []) ++
  (if p.expectedIss ≠ "" then
      if c.Issuer = "" then [.ErrTokenRequiredClaimMissing]
      else if c.Issuer = p.expectedIss then [] else [.ErrTokenInvalidIssuer]
    else [])

/-- Struct `jwt.Token` after a parse. -/
structure Token (γ : Type) where
  Method : String
  Claims : γ
  Signature : Signature γ
  Valid : Bool
deriving DecidableEq, Repr

/-- Library function `jwt.ParseWithClaims` with a `Keyfunc` that returns `key`
for every token, at the time `now`; `reg` reads the registered claims of a
claims document.  The steps are those of the library: the segments are decoded
and the method looked up, the method is tested against the valid methods, the
signature is decoded and verified, and the claims are validated.  An error is
the list of the error values it matches under `errors.Is`. -/
def Parser.ParseWithClaims {γ : Type} [DecidableEq γ] (p : Parser)
    (reg : γ → RegisteredClaims) (tokenString : Compact γ) (key : String) (now : Int) :
    Except (List Error) (Token γ) :=
  match tokenString with
  | .Text _ => .error [.ErrTokenMalformed]
  | .Signed alg claims signature =>
    if !signingMethods.contains alg then .error [.ErrTokenUnverifiable]
    else if (match p.validMethods with
        | some methods => !methods.contains alg
        | none => false) = true then .error [.ErrTokenSignatureInvalid]
    else if signature = .Undecodable then .error [.ErrTokenMalformed]
    else
      match Verify alg key claims signature with
      | some e => .error [.ErrTokenSignatureInvalid, e]
      | none =>
        match p.Validate (reg claims) now with
        | [] => .ok { Method := alg, Claims := claims, Signature := signature, Valid := true }
        | e :: es => .error (.ErrTokenInvalidClaims :: e :: es)

end Jwt

namespace Jwtx

open Golang

/-- The errors of internal/infra/jwtx/jwt.go, and the error of `rand.Read`. -/
inductive Error where
  | ErrInvalidToken
  | ErrExpiredToken
  | ErrRevokeToken
  | Rand
deriving DecidableEq, Repr

/-- Struct `Claims` of internal/infra/jwtx/jwt.go. -/
structure Claims where
  UserID : Nat
  Username : String
  Role : String
  RegisteredClaims : Jwt.RegisteredClaims
deriving DecidableEq, Repr

/-- Struct `Options` of internal/infra/jwtx/jwt.go; durations are in
nanoseconds.  The Redis key space of the blacklist is not represented. -/
structure Options where
  Secret : String
  Issuer : String
  Audience : String
  Expiry : Int
  Leeway : Int
deriving DecidableEq, Repr

/-- The struct `jwtManager` of internal/infra/jwtx/jwt.go, without the fields
of the blacklist. -/
structure jwtManager where
  sectectKey : String
  iss : String
  aud : String
  exp : Int
  leeway : Int
deriving DecidableEq, Repr

/-- Embedding of `NewJWTManager`. -/
def NewJWTManager (opt : Options) : jwtManager :=
  { sectectKey := opt.Secret, iss := opt.Issuer, aud := opt.Audience, exp := opt.Expiry,
    leeway := opt.Leeway }

/-- Embedding of `randomJTI`; `entropy` is what `rand.Read` delivers for the
buffer of `n` bytes, `none` when it fails. -/
def randomJTI (n : Nat) (entropy : Option (List Nat)) : String × Option Error :=
  match entropy with
  | none => ("", some .Rand)
  | some b => (TrimRight (String.mk (RawURLEncode (b.take n))) "=", none)

/-- Embedding of `jwtManager.GenerateToken` at the time `now` (nanoseconds
since the Unix epoch) with the random bytes `entropy`. -/
def jwtManager.GenerateToken (j : jwtManager) (userID : Nat) (username role : String)
    (now : Int) (entropy : Option (List Nat)) : Jwt.Compact Claims × String × Option Error :=
  match randomJTI 16 entropy with
  | (_, some err) => (.Text "", "", some err)
  | (jwtID, none) =>
    (Jwt.SignedStringHS256
        { UserID := userID, Username := username, Role := role,
          RegisteredClaims :=
            { ID := jwtID, Issuer := j.iss, Subject := "",
              IssuedAt := Jwt.NewNumericDate now,
              NotBefore := Jwt.NewNumericDate (now - j.leeway),
              ExpiresAt := Jwt.NewNumericDate (now + j.exp),
              Audience := if j.aud ≠ "" then [j.aud] else [] } }
        j.sectectKey,
      jwtID, none)

/-- The parser `ValidateToken` builds: valid methods `ES256` only, the leeway,
and the issuer and audience of the manager when they are set. -/
def jwtManager.opts (j : jwtManager) : Jwt.Parser :=
  { validMethods := some ["ES256"], leeway := j.leeway, expectedIss := j.iss,
    expectedAud := j.aud }

/-- Embedding of `jwtManager.ValidateToken` at the time `now`.  The claims the
function returns are the local `claims`, declared empty and not handed to the
parser, which fills a second empty struct. -/
def jwtManager.ValidateToken (j : jwtManager) (token : Jwt.Compact Claims) (now : Int) :
    Option Claims × Option Error :=
  if (match token with
      | .Text s => decide (TrimSpace s = "")
      | .Signed _ _ _ => false) = true then (none, some .ErrInvalidToken)
  else
    let claims : Claims :=
      { UserID := 0, Username := "", Role := "",
        RegisteredClaims := { Issuer := "", Subject := "", Audience := [], ExpiresAt := none,
                              NotBefore := none, IssuedAt := none, ID := "" } }
    match j.opts.ParseWithClaims (fun c => c.RegisteredClaims) token j.sectectKey now with
    | .error err =>
      if err.contains .ErrTokenExpired then (none, some .ErrExpiredToken)
      else (none, some .ErrInvalidToken)
    | .ok parsed =>
      if !parsed.Valid then (none, some .ErrInvalidToken) else (some claims, none)

end Jwtx

/-! # Theorems -/

/-! ## Decimal rendering of identifiers and cache keys -/

namespace Golang

/-- A digit character carries the value of its digit. -/
theorem digitVal_digitChar (k : Nat) (h : k < 10) : digitVal (Nat.digitChar k) = k := by
  interval_cases k <;> rfl

/-- Reading one more digit multiplies by ten and adds the digit. -/
theorem decodeDigits_snoc (l : List Char) (c : Char) :
    decodeDigits (l ++ [c]) = 10 * decodeDigits l + digitVal c := by
  simp [decodeDigits, List.foldl_append]

/-- With enough fuel the digit loop of `Nat.repr` puts a numeral of value `n`
in front of the accumulator. -/
theorem toDigitsCore_decode : ∀ (fuel n : Nat) (ds : List Char), n < fuel →
    ∃ pre, Nat.toDigitsCore 10 fuel n ds = pre ++ ds ∧ decodeDigits pre = n := by
  intro fuel
  induction fuel with
  | zero => intro n ds h; omega
  | succ fuel ih =>
    intro n ds h
    unfold Nat.toDigitsCore
    by_cases h0 : n / 10 = 0
    · refine ⟨[Nat.digitChar (n % 10)], ?_, ?_⟩
      · simp [h0]
      · have : decodeDigits [Nat.digitChar (n % 10)] = digitVal (Nat.digitChar (n % 10)) := by
          simp [decodeDigits]
        rw [this, digitVal_digitChar _ (Nat.mod_lt _ (by decide))]
        omega
    · obtain ⟨pre, hpre, hdec⟩ := ih (n / 10) (Nat.digitChar (n % 10) :: ds) (by omega)
      refine ⟨pre ++ [Nat.digitChar (n % 10)], ?_, ?_⟩
      · simp [h0, hpre]
      · rw [decodeDigits_snoc, hdec, digitVal_digitChar _ (Nat.mod_lt _ (by decide))]
        omega

/-- The verb `%d` renders different identifiers differently. -/
theorem fmtD_injective (a b : Nat) (h : fmtD a = fmtD b) : a = b := by
  unfold fmtD Nat.repr Nat.toDigits at h
  obtain ⟨pa, hpa, hda⟩ := toDigitsCore_decode (a + 1) a [] (by omega)
  obtain ⟨pb, hpb, hdb⟩ := toDigitsCore_decode (b + 1) b [] (by omega)
  rw [hpa, hpb] at h
  have h2 : pa = pb := by
    have := congrArg String.data h
    simpa [List.asString] using this
  rw [← hda, ← hdb, h2]

/-- A key template determines its argument: equal keys with the same literal
prefix have equal arguments. -/
theorem append_left_cancel (p a b : String) (h : p ++ a = p ++ b) : a = b := by
  have := congrArg String.data h
  rw [String.data_append, String.data_append] at this
  exact String.ext (List.append_cancel_left this)

end Golang

/-! ## The key-value backend, the relational table, and the product cache -/

namespace Redis

/-- Lookup in a backend from which the keys failing `q` were removed. -/
theorem lookup_filter_key {β : Type} (q : String → Bool) (k : String) :
    ∀ l : List (String × β),
      (l.filter (fun e => q e.1)).lookup k = if q k then l.lookup k else none := by
  intro l
  induction l with
  | nil => simp
  | cons e l ih =>
    obtain ⟨k1, v⟩ := e
    by_cases hq : q k1 = true
    · rw [List.filter_cons_of_pos (by simpa using hq)]
      by_cases hk : k = k1
      · subst hk; simp [List.lookup_cons, hq]
      · have : (k == k1) = false := by simpa using hk
        simp only [List.lookup_cons, this, ih]
    · rw [List.filter_cons_of_neg (by simpa using hq)]
      by_cases hk : k = k1
      · subst hk
        have hq2 : q k = false := by simpa using hq
        simp [ih, hq2]
      · have : (k == k1) = false := by simpa using hk
        simp only [List.lookup_cons, this, ih]

/-- After `SET key b` on a reachable backend, `key` holds `b` and every other
key holds what it held. -/
theorem lookup_Set {β : Type} (c : Client β) (hup : c.up = true) (key k : String) (b : β) :
    (c.Set key b).2.kv.lookup k = if k = key then some b else c.kv.lookup k := by
  unfold Client.Set
  rw [if_pos hup]
  by_cases hk : k = key
  · subst hk; simp [List.lookup_cons]
  · have h1 : (k == key) = false := by simpa using hk
    have h2 := lookup_filter_key (fun s => s != key) k c.kv
    simp only [List.lookup_cons, h1, if_neg hk]
    rw [h2]
    simp [hk]

/-- After `DEL keys` on a reachable backend the deleted keys are absent and
every other key holds what it held. -/
theorem lookup_Del {β : Type} (c : Client β) (hup : c.up = true) (keys : List String)
    (k : String) :
    (c.Del keys).2.kv.lookup k = if k ∈ keys then none else c.kv.lookup k := by
  unfold Client.Del
  rw [if_pos hup]
  have h2 := lookup_filter_key (fun s => !keys.contains s) k c.kv
  simp only [h2]
  by_cases hk : k ∈ keys <;> simp [hk]

/-- After the expiry of `key` that key is absent and every other key holds
what it held. -/
theorem lookup_Expire {β : Type} (c : Client β) (key k : String) :
    (c.Expire key).kv.lookup k = if k = key then none else c.kv.lookup k := by
  unfold Client.Expire
  have h2 := lookup_filter_key (fun s => s != key) k c.kv
  simp only [h2]
  by_cases hk : k = key <;> simp [hk]

/-- The command `SET` does not change reachability. -/
theorem up_Set {β : Type} (c : Client β) (key : String) (b : β) : (c.Set key b).2.up = c.up := by
  unfold Client.Set; split <;> rfl

/-- The command `DEL` does not change reachability. -/
theorem up_Del {β : Type} (c : Client β) (keys : List String) : (c.Del keys).2.up = c.up := by
  unfold Client.Del; split <;> rfl

end Redis

namespace Gorm

open Apperror

/-- A successful `Create` appends the returned row, whose primary key no
existing row carries, and leaves the connection state alone. -/
theorem Create_rows {α : Type} [Model α] (t t1 : Table α) (v row : α)
    (h : t.Create v = .ok (row, t1)) :
    t1.rows = t.rows ++ [row] ∧ t1.fault = t.fault ∧ ∀ r ∈ t.rows, Model.ID r ≠ Model.ID row := by
  unfold Table.Create at h
  split at h
  · cases h
  · split at h
    · cases h
    · rename_i hf hany
      simp only [Except.ok.injEq, Prod.mk.injEq] at h
      obtain ⟨hrow, ht⟩ := h
      subst ht
      refine ⟨by rw [hrow], rfl, ?_⟩
      intro r hr heq
      apply hany
      rw [List.any_eq_true]
      exact ⟨r, hr, by rw [hrow]; simp [heq]⟩

/-- A successful `Save` either appends the returned row under a primary key no
existing row carries, or overwrites the rows carrying its primary key. -/
theorem Save_rows {α : Type} [Model α] (t t1 : Table α) (v row : α)
    (h : t.Save v = .ok (row, t1)) :
    t1.fault = t.fault ∧
    ((t1.rows = t.rows ++ [row] ∧ ∀ r ∈ t.rows, Model.ID r ≠ Model.ID row) ∨
     t1.rows = t.rows.map (fun r => if Model.ID r == Model.ID row then row else r)) := by
  unfold Table.Save at h
  split at h
  · cases h
  · split at h
    · obtain ⟨h1, h2, h3⟩ := Create_rows t t1 v row h
      exact ⟨h2, Or.inl ⟨h1, h3⟩⟩
    · split at h
      · cases h
      · split at h
        · simp only [Except.ok.injEq, Prod.mk.injEq] at h
          obtain ⟨hrow, ht⟩ := h
          subst ht; subst hrow
          exact ⟨rfl, Or.inr rfl⟩
        · rename_i hnone
          simp only [Except.ok.injEq, Prod.mk.injEq] at h
          obtain ⟨hrow, ht⟩ := h
          subst ht; subst hrow
          refine ⟨rfl, Or.inl ⟨rfl, ?_⟩⟩
          intro r hr heq
          apply hnone
          rw [List.any_eq_true]
          exact ⟨r, hr, by simp [heq]⟩

/-- A successful `Delete` marks the selected live rows and changes nothing
else. -/
theorem Delete_rows {α : Type} [Model α] (t t1 : Table α) (cond : α → Bool)
    (h : t.Delete cond = .ok t1) :
    t1.fault = t.fault ∧
    t1.rows = t.rows.map
      (fun r => if !Model.Deleted r && cond r then Model.setDeleted true r else r) := by
  unfold Table.Delete at h
  split at h
  · cases h
  · simp only [Except.ok.injEq] at h
    subst h
    exact ⟨rfl, rfl⟩

/-- A successful `First` returns the first live row matching the condition. -/
theorem First_ok {α : Type} [Model α] (t : Table α) (cond : α → Bool) (r : α)
    (h : t.First cond = .ok r) :
    t.rows.find? (fun r => !Model.Deleted r && cond r) = some r := by
  unfold Table.First at h
  split at h
  · cases h
  · split at h
    · rename_i hfind
      simp only [Except.ok.injEq] at h
      rw [← h, hfind]
    · cases h

/-- On a reachable store `First` returns the first live matching row. -/
theorem First_found {α : Type} [Model α] (t : Table α) (cond : α → Bool) (r : α)
    (hup : t.fault = none)
    (h : t.rows.find? (fun r => !Model.Deleted r && cond r) = some r) :
    t.First cond = .ok r := by
  unfold Table.First
  rw [hup]
  simp only [h]

/-- On a reachable store `First` reports `RecordNotFound` when no live row
matches. -/
theorem First_missing {α : Type} [Model α] (t : Table α) (cond : α → Bool)
    (hup : t.fault = none)
    (h : t.rows.find? (fun r => !Model.Deleted r && cond r) = none) :
    t.First cond = .error .RecordNotFound := by
  unfold Table.First
  rw [hup]
  simp only [h]

end Gorm

namespace Product

open Golang Apperror

/-- Different product ids have different by-id keys. -/
theorem keyByID_injective (a b : Nat) (h : keyByID a = keyByID b) : a = b :=
  Golang.fmtD_injective a b (Golang.append_left_cancel _ _ _ h)

/-- No by-id key of a product is a by-SKU key: the templates differ after
`product:`. -/
theorem keyByID_ne_keyBySKU (id : Nat) (sku : String) :
    keyByID id ≠ keyBySKU sku := by
  intro h
  have h1 := congrArg String.data h
  unfold keyByID keyBySKU at h1
  rw [String.data_append, String.data_append] at h1
  have e1 : "product:id:".data = ['p','r','o','d','u','c','t',':','i','d',':'] := rfl
  have e2 : "product:sku:".data = ['p','r','o','d','u','c','t',':','s','k','u',':'] := rfl
  rw [e1, e2] at h1
  simp at h1


/-- Appending a row with another id does not change the lookup of `id`. -/
theorem find_append_fresh (rows : List Domain.Product) (row : Domain.Product) (id : Nat)
    (h : id ≠ row.ID) :
    (rows ++ [row]).find? (fun p => !p.Deleted && p.ID == id) =
      rows.find? (fun p => !p.Deleted && p.ID == id) := by
  have : (row.ID == id) = false := by simpa using fun e => h e.symm
  simp [List.find?_append, List.find?_cons, this]

/-- Overwriting the rows of another id does not change the lookup of `id`. -/
theorem find_map_replace (rows : List Domain.Product) (v : Domain.Product) (id : Nat)
    (h : id ≠ v.ID) :
    (rows.map (fun r => if r.ID == v.ID then v else r)).find? (fun p => !p.Deleted && p.ID == id) =
      rows.find? (fun p => !p.Deleted && p.ID == id) := by
  have hv : (v.ID == id) = false := by simpa using fun e => h e.symm
  induction rows with
  | nil => rfl
  | cons r rs ih =>
    simp only [List.map_cons, List.find?_cons]
    by_cases hr : r.ID = v.ID
    · have h1 : (r.ID == v.ID) = true := by simpa using hr
      have h2 : (r.ID == id) = false := by rw [hr]; exact hv
      simp only [h1, if_true, hv, h2, Bool.and_false, ih]
    · have h1 : (r.ID == v.ID) = false := by simpa using hr
      simp only [h1, ih]
      rfl

/-- Soft-deleting the rows of another id does not change the lookup of `id`. -/
theorem find_map_mark (rows : List Domain.Product) (id0 id : Nat) (h : id ≠ id0) :
    (rows.map (fun r => if !r.Deleted && r.ID == id0 then { r with Deleted := true } else r)).find?
        (fun p => !p.Deleted && p.ID == id) =
      rows.find? (fun p => !p.Deleted && p.ID == id) := by
  induction rows with
  | nil => rfl
  | cons r rs ih =>
    simp only [List.map_cons, List.find?_cons]
    by_cases hr : (!r.Deleted && r.ID == id0) = true
    · have h2 : (r.ID == id) = false := by
        simp only [Bool.and_eq_true, beq_iff_eq] at hr
        simpa [hr.2] using fun e => h e.symm
      simp only [hr, if_true, h2, Bool.and_false, ih]
    · simp only [hr, ih]
      rfl

/-- Overwriting rows by a row of the same id keeps the primary keys. -/
theorem ids_map_replace (rows : List Domain.Product) (v : Domain.Product) :
    (rows.map (fun r => if r.ID == v.ID then v else r)).map (fun p => p.ID) =
      rows.map (fun p => p.ID) := by
  induction rows with
  | nil => rfl
  | cons r rs ih =>
    simp only [List.map_cons, ih]
    by_cases hr : r.ID = v.ID
    · simp [hr]
    · have h1 : (r.ID == v.ID) = false := by simpa using hr
      simp [h1]

/-- Soft deletion keeps the primary keys. -/
theorem ids_map_mark (rows : List Domain.Product) (id0 : Nat) :
    (rows.map (fun r => if !r.Deleted && r.ID == id0 then { r with Deleted := true } else r)).map
        (fun p => p.ID) = rows.map (fun p => p.ID) := by
  induction rows with
  | nil => rfl
  | cons r rs ih =>
    simp only [List.map_cons, ih]
    by_cases hr : (!r.Deleted && r.ID == id0) = true
    · simp only [hr, if_true]
    · simp only [hr]
      rfl

/-- Appending a row with a fresh id keeps the primary-key constraint. -/
theorem ids_append_fresh (rows : List Domain.Product) (row : Domain.Product)
    (hnd : (rows.map (fun p => p.ID)).Nodup) (hfresh : ∀ r ∈ rows, r.ID ≠ row.ID) :
    ((rows ++ [row]).map (fun p => p.ID)).Nodup := by
  rw [List.map_append, List.nodup_append]
  refine ⟨hnd, by simp, ?_⟩
  intro a ha hb
  simp only [List.map_cons, List.map_nil, List.mem_singleton] at hb
  rw [List.mem_map] at ha
  obtain ⟨r, hr, hra⟩ := ha
  exact hfresh r hr (by rw [hra, hb])

/-- Under the primary-key constraint a live row of the table is the row its
id looks up. -/
theorem find_unique (rows : List Domain.Product) (p : Domain.Product)
    (hnd : (rows.map (fun p => p.ID)).Nodup) (hp : p ∈ rows) (hlive : p.Deleted = false) :
    rows.find? (fun q => !q.Deleted && q.ID == p.ID) = some p := by
  cases hfind : rows.find? (fun q => !q.Deleted && q.ID == p.ID) with
  | none =>
    rw [List.find?_eq_none] at hfind
    have := hfind p hp
    simp [hlive] at this
  | some q =>
    have hq := List.find?_some hfind
    have hqmem := List.mem_of_find?_eq_some hfind
    simp only [Bool.and_eq_true, beq_iff_eq] at hq
    have : q = p := List.inj_on_of_nodup_map hnd hqmem hp hq.2
    rw [this]


/-- Caching, under the by-id key of `id0`, the row that `id0` looks up keeps
coherence. -/
theorem Coherent_set_id (r : repository) (id0 : Nat) (p : Domain.Product) (h : Coherent r)
    (hp : r.db.rows.find? (fun p => !p.Deleted && p.ID == id0) = some p) :
    Coherent { r with cache := (set r.cache (keyByID id0) p).2 } := by
  obtain ⟨hpk, c, hc, hup, hinv⟩ := h
  refine ⟨hpk, ?_⟩
  simp only [hc, set]
  cases hm : Marshal p with
  | none => exact ⟨c, rfl, hup, hinv⟩
  | some b =>
    refine ⟨(c.Set (keyByID id0) b).2, rfl, by rw [Redis.up_Set]; exact hup, ?_⟩
    intro id w hw
    rw [Redis.lookup_Set c hup] at hw
    by_cases hk : keyByID id = keyByID id0
    · rw [if_pos hk] at hw
      have hid := keyByID_injective _ _ hk
      subst hid
      cases hw
      exact ⟨p, hp, hm⟩
    · rw [if_neg hk] at hw
      exact hinv id w hw

/-- Writing a by-SKU key keeps coherence of the by-id keys. -/
theorem Coherent_set_sku (r : repository) (sku : String) (p : Domain.Product) (h : Coherent r) :
    Coherent { r with cache := (set r.cache (keyBySKU sku) p).2 } := by
  obtain ⟨hpk, c, hc, hup, hinv⟩ := h
  refine ⟨hpk, ?_⟩
  simp only [hc, set]
  cases hm : Marshal p with
  | none => exact ⟨c, rfl, hup, hinv⟩
  | some b =>
    refine ⟨(c.Set (keyBySKU sku) b).2, rfl, by rw [Redis.up_Set]; exact hup, ?_⟩
    intro id w hw
    rw [Redis.lookup_Set c hup, if_neg (keyByID_ne_keyBySKU id sku)] at hw
    exact hinv id w hw

/-- A store write that only affects the rows of `id0`, followed by the
deletion of the by-id key of `id0` (and of a by-SKU key), keeps coherence. -/
theorem Coherent_write (r : repository) (db1 : Gorm.Table Domain.Product) (id0 : Nat)
    (sku : String) (h : Coherent r) (hpk : PrimaryKey db1)
    (hframe : ∀ id, id ≠ id0 →
      db1.rows.find? (fun p => !p.Deleted && p.ID == id) =
        r.db.rows.find? (fun p => !p.Deleted && p.ID == id)) :
    Coherent { db := db1, cache := (del r.cache [keyByID id0, keyBySKU sku]).2 } := by
  obtain ⟨_, c, hc, hup, hinv⟩ := h
  refine ⟨hpk, ?_⟩
  simp only [hc, del, List.length_cons, List.length_nil]
  refine ⟨(c.Del [keyByID id0, keyBySKU sku]).2, by simp, by rw [Redis.up_Del]; exact hup, ?_⟩
  intro id w hw
  rw [Redis.lookup_Del c hup] at hw
  by_cases hk : keyByID id ∈ [keyByID id0, keyBySKU sku]
  · rw [if_pos hk] at hw; cases hw
  · rw [if_neg hk] at hw
    have hne : id ≠ id0 := by
      intro e; apply hk; rw [e]; simp
    rw [hframe id hne]
    exact hinv id w hw

/-- The method `GetByID` keeps coherence. -/
theorem Coherent_GetByID (r : repository) (id : Nat) (h : Coherent r) :
    Coherent (r.GetByID id).2 := by
  unfold repository.GetByID
  split
  · exact h
  · split
    · exact h
    · rename_i p hfirst
      exact Coherent_set_id r id p h (Gorm.First_ok _ _ _ hfirst)

/-- The method `GetBySKU` keeps coherence. -/
theorem Coherent_GetBySKU (r : repository) (sku : String) (h : Coherent r) :
    Coherent (r.GetBySKU sku).2 := by
  unfold repository.GetBySKU
  split
  · exact h
  · split
    · exact h
    · rename_i p hfirst
      have hfind := Gorm.First_ok _ _ _ hfirst
      have hmem := List.mem_of_find?_eq_some hfind
      have hlive : p.Deleted = false := by
        have := List.find?_some hfind
        simp only [Bool.and_eq_true] at this
        simpa [Gorm.Model.Deleted] using this.1
      have h1 := Coherent_set_id r p.ID p h (find_unique r.db.rows p h.1 hmem hlive)
      exact Coherent_set_sku _ sku p h1

/-- The method `Create` keeps coherence. -/
theorem Coherent_Create (r : repository) (p : Domain.Product) (h : Coherent r) :
    Coherent (r.Create p).2 := by
  unfold repository.Create
  split
  · exact h
  · rename_i row db1 hc
    obtain ⟨hrows, _, hfresh⟩ := Gorm.Create_rows _ _ _ _ hc
    apply Coherent_write r db1 row.ID row.SKU h
    · unfold PrimaryKey; rw [hrows]; exact ids_append_fresh _ _ h.1 hfresh
    · intro id hne; rw [hrows]; exact find_append_fresh _ _ _ hne

/-- The method `Update` keeps coherence. -/
theorem Coherent_Update (r : repository) (p : Domain.Product) (h : Coherent r) :
    Coherent (r.Update p).2 := by
  unfold repository.Update
  split
  · exact h
  · rename_i row db1 hc
    obtain ⟨_, hcase⟩ := Gorm.Save_rows _ _ _ _ hc
    rcases hcase with ⟨hrows, hfresh⟩ | hrows
    · apply Coherent_write r db1 row.ID row.SKU h
      · unfold PrimaryKey; rw [hrows]; exact ids_append_fresh _ _ h.1 hfresh
      · intro id hne; rw [hrows]; exact find_append_fresh _ _ _ hne
    · apply Coherent_write r db1 row.ID row.SKU h
      · unfold PrimaryKey; rw [hrows]
        exact (ids_map_replace r.db.rows row).symm ▸ h.1
      · intro id hne; rw [hrows]; exact find_map_replace _ _ _ hne

/-- The method `Delete` keeps coherence. -/
theorem Coherent_Delete (r : repository) (id : Nat) (h : Coherent r) :
    Coherent (r.Delete id).2 := by
  unfold repository.Delete
  split
  · exact h
  · split
    · exact h
    · rename_i p1 hfirst1 _ db1 hd
      obtain ⟨_, hrows⟩ := Gorm.Delete_rows _ _ _ hd
      apply Coherent_write r db1 id p1.SKU h
      · unfold PrimaryKey; rw [hrows]
        exact (ids_map_mark r.db.rows id).symm ▸ h.1
      · intro id1 hne; rw [hrows]; exact find_map_mark _ _ _ hne

/-- The expiry of a key keeps coherence. -/
theorem Coherent_Expire (r : repository) (key : String) (h : Coherent r) :
    Coherent { r with cache := r.cache.map (fun c => c.Expire key) } := by
  obtain ⟨hpk, c, hc, hup, hinv⟩ := h
  refine ⟨hpk, c.Expire key, by simp [hc], hup, ?_⟩
  intro id w hw
  rw [Redis.lookup_Expire] at hw
  by_cases hk : keyByID id = key
  · rw [if_pos hk] at hw; cases hw
  · rw [if_neg hk] at hw; exact hinv id w hw

/-- Every step of a history keeps coherence. -/
theorem Coherent_run (r : repository) (call : Call) (h : Coherent r) :
    Coherent (Call.run r call) := by
  cases call with
  | GetByID id => exact Coherent_GetByID r id h
  | GetBySKU sku => exact Coherent_GetBySKU r sku h
  | Create p => exact Coherent_Create r p h
  | Update p => exact Coherent_Update r p h
  | Delete id => exact Coherent_Delete r id h
  | Expire key => exact Coherent_Expire r key h
  | Connection fault => exact h

/-- Every history keeps coherence. -/
theorem Coherent_runCalls (calls : List Call) : ∀ r : repository, Coherent r →
    Coherent (runCalls r calls) := by
  induction calls with
  | nil => intro r h; exact h
  | cons call calls ih =>
    intro r h
    exact ih (Call.run r call) (Coherent_run r call h)

/-- An empty reachable cache over a table with primary keys is coherent. -/
theorem Coherent_freshCache (db : Gorm.Table Domain.Product) (hpk : PrimaryKey db) :
    Coherent (freshCache db) :=
  ⟨hpk, { up := true, kv := [] }, rfl, rfl, by intro id w hw; simp at hw⟩

/-- Decoding the document of a live product gives the product back. -/
theorem Unmarshal_Marshal (p : Domain.Product) (w : ProductJSON) (hm : Marshal p = some w)
    (hlive : p.Deleted = false) : Unmarshal w = p := by
  unfold Marshal at hm
  split at hm
  · cases hm
    cases p
    simp only [Unmarshal] at *
    simp [hlive]
  · cases hm

/-- In a coherent repository over a reachable store, `GetByID` answers what
the repository without a cache layer answers. -/
theorem GetByID_eq_withoutCache (r : repository) (id : Nat) (h : Coherent r)
    (hup : r.db.fault = none) :
    (r.GetByID id).1 = (r.withoutCache.GetByID id).1 := by
  obtain ⟨_, c, hc, hcup, hinv⟩ := h
  cases hl : c.kv.lookup (keyByID id) with
  | some w =>
    obtain ⟨p, hp, hm⟩ := hinv id w hl
    have hlive : p.Deleted = false := by
      have := List.find?_some hp
      simp only [Bool.and_eq_true] at this
      simpa using this.1
    have hfirst : r.db.First (fun q => q.ID == id) = .ok p := Gorm.First_found _ _ _ hup hp
    simp only [repository.GetByID, repository.withoutCache, getByKey, hc, Redis.Client.Get, hcup,
      if_true, hl, hfirst, Unmarshal_Marshal p w hm hlive]
  | none =>
    simp only [repository.GetByID, repository.withoutCache, getByKey, hc, Redis.Client.Get, hcup,
      if_true, hl]
    cases r.db.First (fun q => q.ID == id) <;> rfl

/-- C8.  Start from any store that satisfies its primary-key constraint and from
an empty, reachable cache, and let any history of product-repository calls
(`GetByID`, `GetBySKU`, `Create`, `Update`, `Delete`), key expiries and
connection changes run.  If the store is reachable afterwards, `GetByID id`
returns the same product with the same fields, or the same error, as the
repository without a cache layer on the same store. -/
theorem C8_GetByID_same_with_and_without_cache (db : Gorm.Table Domain.Product)
    (calls : List Call) (id : Nat) (hpk : PrimaryKey db)
    (hup : (runCalls (freshCache db) calls).db.fault = none) :
    ((runCalls (freshCache db) calls).GetByID id).1 =
      ((runCalls (freshCache db) calls).withoutCache.GetByID id).1 :=
  GetByID_eq_withoutCache _ id (Coherent_runCalls calls _ (Coherent_freshCache db hpk)) hup

/-- C8 at a concrete history: two products, a cached read of product 1, a read
by SKU, an update that renames product 1 and changes its SKU, a deletion, an
insert and an expiry; the read of product 1 afterwards is the updated row with
and without the cache. -/
theorem C8_GetByID_same_with_and_without_cache_witness :
    PrimaryKey ⟨[⟨1, "Brake pad", "front", ⟨4607182418800017408⟩, "BP-001", 1, true, false⟩,
                 ⟨2, "Oil filter", "", ⟨4611686018427387904⟩, "OF-002", 1, true, false⟩],
                2, none⟩ ∧
    ((runCalls (freshCache
        ⟨[⟨1, "Brake pad", "front", ⟨4607182418800017408⟩, "BP-001", 1, true, false⟩,
          ⟨2, "Oil filter", "", ⟨4611686018427387904⟩, "OF-002", 1, true, false⟩], 2, none⟩)
        [.GetByID 1, .GetBySKU "OF-002",
         .Update ⟨1, "Brake pad X", "front", ⟨4607182418800017408⟩, "BP-001X", 1, true, false⟩,
         .GetByID 1, .Delete 2,
         .Create ⟨0, "Chain", "", ⟨4607182418800017408⟩, "CH-003", 1, false, false⟩,
         .Expire "product:id:2"]).GetByID 1).1 =
      (some ⟨1, "Brake pad X", "front", ⟨4607182418800017408⟩, "BP-001X", 1, true, false⟩, none) ∧
    ((runCalls (freshCache
        ⟨[⟨1, "Brake pad", "front", ⟨4607182418800017408⟩, "BP-001", 1, true, false⟩,
          ⟨2, "Oil filter", "", ⟨4611686018427387904⟩, "OF-002", 1, true, false⟩], 2, none⟩)
        [.GetByID 1, .GetBySKU "OF-002",
         .Update ⟨1, "Brake pad X", "front", ⟨4607182418800017408⟩, "BP-001X", 1, true, false⟩,
         .GetByID 1, .Delete 2,
         .Create ⟨0, "Chain", "", ⟨4607182418800017408⟩, "CH-003", 1, false, false⟩,
         .Expire "product:id:2"]).GetByID 1).1 =
      ((runCalls (freshCache
        ⟨[⟨1, "Brake pad", "front", ⟨4607182418800017408⟩, "BP-001", 1, true, false⟩,
          ⟨2, "Oil filter", "", ⟨4611686018427387904⟩, "OF-002", 1, true, false⟩], 2, none⟩)
        [.GetByID 1, .GetBySKU "OF-002",
         .Update ⟨1, "Brake pad X", "front", ⟨4607182418800017408⟩, "BP-001X", 1, true, false⟩,
         .GetByID 1, .Delete 2,
         .Create ⟨0, "Chain", "", ⟨4607182418800017408⟩, "CH-003", 1, false, false⟩,
         .Expire "product:id:2"]).withoutCache.GetByID 1).1 :=
  ⟨by decide, by decide,
    C8_GetByID_same_with_and_without_cache _ _ 1 (by decide) (by decide)⟩

end Product

/-! ## Inventory: the stock pre-check and the stock adjustment -/

namespace Inventory

open Apperror Golang

/-- On the range of the machine integer the wrap is the identity. -/
theorem wrapInt_of_isInt (x : Int) (h : IsInt x) : wrapInt x = x := by
  unfold IsInt MinInt MaxInt at h
  unfold wrapInt
  omega

/-- The negation `d * -1` of the pre-check is exact for every `d` above the
smallest machine integer. -/
theorem precheck_neg_exact (d : Int) (hmin : MinInt < d) (hmax : d ≤ MaxInt) :
    wrapInt (d * -1) = -d := by
  rw [wrapInt_of_isInt]
  · ring
  · unfold IsInt MinInt MaxInt; unfold MinInt at hmin; unfold MaxInt at hmax
    constructor <;> omega

/-- The pre-check rejects every consumption larger than the quantity read, as
long as the delta is not the smallest machine integer: the answer is
`ErrInsufficientStock`, no item, and the repository state is the one left by
the read (the repository's `UpdateQuantity` is not called). -/
theorem UpdateQuantity_insufficient {σ : Type} (repo : Repository σ) (id : Nat)
    (input : UpdateQuantityInput) (s s1 : σ) (inv : Domain.Inventory)
    (hread : repo.GetByID id s = ((some inv, none), s1))
    (hneg : input.Quantity < 0) (hmin : MinInt < input.Quantity)
    (hgt : -input.Quantity > inv.Quantity) :
    UpdateQuantity repo id input s = ((none, some .ErrInsufficientStock), s1) := by
  have hw := precheck_neg_exact input.Quantity hmin (by unfold MaxInt; omega)
  simp only [UpdateQuantity, hread, hw]
  rw [if_pos ⟨hneg, hgt⟩]

/-- A delta that is non-negative, or whose negation does not exceed the
quantity read, is not rejected by the pre-check. -/
theorem precheck_pass (q d : Int) (hq : IsInt q) (hd : IsInt d)
    (hpass : 0 ≤ d ∨ -d ≤ q) : ¬ (d < 0 ∧ wrapInt (d * -1) > q) := by
  rintro ⟨hneg, hgt⟩
  rcases hpass with h | h
  · omega
  · have hw : wrapInt (d * -1) = -d := by
      apply precheck_neg_exact
      · unfold IsInt MinInt MaxInt at *; omega
      · exact hd.2
    rw [hw] at hgt
    omega

/-- After a passed pre-check and a successful repository update the service
returns the item built from the inventory it read. -/
theorem UpdateQuantity_applied {σ : Type} (repo : Repository σ) (id : Nat)
    (input : UpdateQuantityInput) (s s1 s2 : σ) (inv : Domain.Inventory)
    (hread : repo.GetByID id s = ((some inv, none), s1))
    (hq : IsInt inv.Quantity) (hd : IsInt input.Quantity)
    (hpass : 0 ≤ input.Quantity ∨ -input.Quantity ≤ inv.Quantity)
    (hupd : repo.UpdateQuantity input.ProductID input.Quantity s1 = (none, s2)) :
    UpdateQuantity repo id input s =
      ((some { ID := inv.ID, ProductID := inv.ProductID,
               Quantity := wrapInt (inv.Quantity + input.Quantity) }, none), s2) := by
  simp only [UpdateQuantity, hread]
  rw [if_neg (precheck_pass _ _ hq hd hpass)]
  simp only [hupd]

/-- After a passed pre-check a failing repository update is returned as it is. -/
theorem UpdateQuantity_update_failed {σ : Type} (repo : Repository σ) (id : Nat)
    (input : UpdateQuantityInput) (s s1 s2 : σ) (inv : Domain.Inventory) (err : Error)
    (hread : repo.GetByID id s = ((some inv, none), s1))
    (hq : IsInt inv.Quantity) (hd : IsInt input.Quantity)
    (hpass : 0 ≤ input.Quantity ∨ -input.Quantity ≤ inv.Quantity)
    (hupd : repo.UpdateQuantity input.ProductID input.Quantity s1 = (some err, s2)) :
    UpdateQuantity repo id input s = ((none, some err), s2) := by
  simp only [UpdateQuantity, hread]
  rw [if_neg (precheck_pass _ _ hq hd hpass)]
  simp only [hupd]

/-- C1, the code at the failing input.  The read returns quantity 1 (the
fixture of the service test) and delta is the smallest machine integer, so
delta < 0 and -delta > 1; the service nevertheless answers with an item and no
error, and the repository's `UpdateQuantity` has been called with that delta. -/
theorem C1_minInt_delta_reaches_update :
    MinInt < 0 ∧ -MinInt > 1 ∧
    UpdateQuantity (MockRepository (some ⟨1, 1, 1, false⟩, none) none) 1 ⟨1, MinInt⟩ ⟨[]⟩ =
      ((some ⟨1, 1, -9223372036854775807⟩, none), ⟨[(1, MinInt)]⟩) := by
  decide

/-- C2, the code at the failing input.  Every stored quantity is non-negative,
the cache layer is absent, and one service call adjusts inventory 1 (product 1,
quantity 10) by -5 while naming product 2 (quantity 0): the pre-check is made
against quantity 10, the repository applies the delta to product 2 and commits
quantity -5.  The repository method by itself commits 0 + (-1) = -1. -/
theorem C2_negative_quantity_committed :
    (∀ i ∈ [(⟨1, 1, 10, false⟩ : Domain.Inventory), ⟨2, 2, 0, false⟩], 0 ≤ i.Quantity) ∧
    UpdateQuantity NewRepository 1 ⟨2, -5⟩
        { db := ⟨[⟨1, 1, 10, false⟩, ⟨2, 2, 0, false⟩], 2, none⟩, cache := none } =
      ((some ⟨1, 1, 5⟩, none),
        { db := ⟨[⟨1, 1, 10, false⟩, ⟨2, 2, -5, false⟩], 2, none⟩, cache := none }) ∧
    repository.UpdateQuantity { db := ⟨[⟨2, 2, 0, false⟩], 2, none⟩, cache := none } 2 (-1) =
      (none, { db := ⟨[⟨2, 2, -1, false⟩], 2, none⟩, cache := none }) := by
  decide

/-- C3, the code on the scenario.  Inventory 1 of product 7 holds 5 and the
calls are -3, -3, +10.  Without a cache layer the answers are 2, then
`ErrInsufficientStock` with the stored quantity still 2, then 12.  With a
reachable cache the second call is served the entry written by the first read
(quantity 5): it answers 2 without error and the store commits -1; the third
answers 15 and the store holds 9. -/
theorem C3_scenario_with_and_without_cache :
    UpdateQuantitySeq { db := ⟨[⟨1, 7, 5, false⟩], 1, none⟩, cache := none }
        [(1, ⟨7, -3⟩), (1, ⟨7, -3⟩)] =
      ([(some ⟨1, 7, 2⟩, none), (none, some .ErrInsufficientStock)],
        { db := ⟨[⟨1, 7, 2, false⟩], 1, none⟩, cache := none }) ∧
    UpdateQuantitySeq { db := ⟨[⟨1, 7, 5, false⟩], 1, none⟩, cache := none }
        [(1, ⟨7, -3⟩), (1, ⟨7, -3⟩), (1, ⟨7, 10⟩)] =
      ([(some ⟨1, 7, 2⟩, none), (none, some .ErrInsufficientStock), (some ⟨1, 7, 12⟩, none)],
        { db := ⟨[⟨1, 7, 12, false⟩], 1, none⟩, cache := none }) ∧
    (UpdateQuantitySeq { db := ⟨[⟨1, 7, 5, false⟩], 1, none⟩, cache := some ⟨true, []⟩ }
        [(1, ⟨7, -3⟩), (1, ⟨7, -3⟩)]).1 =
      [(some ⟨1, 7, 2⟩, none), (some ⟨1, 7, 2⟩, none)] ∧
    (UpdateQuantitySeq { db := ⟨[⟨1, 7, 5, false⟩], 1, none⟩, cache := some ⟨true, []⟩ }
        [(1, ⟨7, -3⟩), (1, ⟨7, -3⟩)]).2.db.rows = [⟨1, 7, -1, false⟩] ∧
    (UpdateQuantitySeq { db := ⟨[⟨1, 7, 5, false⟩], 1, none⟩, cache := some ⟨true, []⟩ }
        [(1, ⟨7, -3⟩), (1, ⟨7, -3⟩), (1, ⟨7, 10⟩)]).1 =
      [(some ⟨1, 7, 2⟩, none), (some ⟨1, 7, 2⟩, none), (some ⟨1, 7, 15⟩, none)] ∧
    (UpdateQuantitySeq { db := ⟨[⟨1, 7, 5, false⟩], 1, none⟩, cache := some ⟨true, []⟩ }
        [(1, ⟨7, -3⟩), (1, ⟨7, -3⟩), (1, ⟨7, 10⟩)]).2.db.rows = [⟨1, 7, 9, false⟩] := by
  decide

/-- C4, the code.  The repository's `UpdateQuantity` never changes the cache,
whatever the outcome.  In particular: inventory 1 of product 7 holds 5, and
`GetByID 1` and `GetByProductID 7` have cached that row under the by-id key of
the row and the inventory key of the product.  A successful
`UpdateQuantity 7 (-3)` commits quantity 2 and leaves both entries in place,
and the next `GetByID 1` and `GetByProductID 7` answer quantity 5. -/
theorem C4_update_leaves_cache_entries :
    (∀ (r : repository) (pID : Nat) (delta : Int),
      (r.UpdateQuantity pID delta).2.cache = r.cache) ∧
    (repository.GetByProductID
        (repository.GetByID
          { db := ⟨[⟨1, 7, 5, false⟩], 1, none⟩, cache := some ⟨true, []⟩ } 1).2 7).2 =
      { db := ⟨[⟨1, 7, 5, false⟩], 1, none⟩,
        cache := some ⟨true, [(keyProductID 7, ⟨1, 7, 5⟩), (keyID 1, ⟨1, 7, 5⟩)]⟩ } ∧
    repository.UpdateQuantity
        { db := ⟨[⟨1, 7, 5, false⟩], 1, none⟩,
          cache := some ⟨true, [(keyProductID 7, ⟨1, 7, 5⟩), (keyID 1, ⟨1, 7, 5⟩)]⟩ } 7 (-3) =
      (none, { db := ⟨[⟨1, 7, 2, false⟩], 1, none⟩,
               cache := some ⟨true, [(keyProductID 7, ⟨1, 7, 5⟩), (keyID 1, ⟨1, 7, 5⟩)]⟩ }) ∧
    (repository.GetByID
        { db := ⟨[⟨1, 7, 2, false⟩], 1, none⟩,
          cache := some ⟨true, [(keyProductID 7, ⟨1, 7, 5⟩), (keyID 1, ⟨1, 7, 5⟩)]⟩ } 1).1 =
      (some ⟨1, 7, 5, false⟩, none) ∧
    (repository.GetByProductID
        { db := ⟨[⟨1, 7, 2, false⟩], 1, none⟩,
          cache := some ⟨true, [(keyProductID 7, ⟨1, 7, 5⟩), (keyID 1, ⟨1, 7, 5⟩)]⟩ } 7).1 =
      (some ⟨1, 7, 5, false⟩, none) := by
  refine ⟨?_, by decide, by decide, by decide, by decide⟩
  intro r pID delta
  unfold repository.UpdateQuantity
  split
  · rfl
  · split <;> rfl

/-- C5, the claim fails as stated.  With a read of quantity -5 and delta 3 the
pre-check passes (delta >= 0), the update succeeds and the item carries
-5 + 3 = -2, which is negative; with a read of the largest machine integer and
delta 1 the item carries the wrapped sum, the smallest machine integer. -/
theorem C5_item_quantity_can_be_negative :
    (0 : Int) ≤ 3 ∧
    UpdateQuantity (MockRepository (some ⟨1, 1, -5, false⟩, none) none) 1 ⟨1, 3⟩ ⟨[]⟩ =
      ((some ⟨1, 1, -2⟩, none), ⟨[(1, 3)]⟩) ∧
    ¬ ((0 : Int) ≤ -5 + 3) ∧
    (0 : Int) ≤ 1 ∧ 0 ≤ MaxInt ∧
    UpdateQuantity (MockRepository (some ⟨1, 1, MaxInt, false⟩, none) none) 1 ⟨1, 1⟩ ⟨[]⟩ =
      ((some ⟨1, 1, MinInt⟩, none), ⟨[(1, 1)]⟩) ∧
    MinInt < 0 := by
  decide

/-- C5 as amended.  The read returns an inventory with quantity q >= 0, the
pre-check passes (delta >= 0 or -delta <= q), and q + delta does not exceed the
largest machine integer.  If the repository's `UpdateQuantity` succeeds the
service returns the item (ID, ProductID of the inventory read, quantity
q + delta) with no error, and q + delta >= 0; if it fails, the service returns
that error unchanged and no item. -/
theorem C5_item_after_update {σ : Type} (repo : Repository σ) (id : Nat)
    (input : UpdateQuantityInput) (s s1 : σ) (inv : Domain.Inventory)
    (hread : repo.GetByID id s = ((some inv, none), s1))
    (hq0 : 0 ≤ inv.Quantity) (hq : IsInt inv.Quantity) (hd : IsInt input.Quantity)
    (hsum : inv.Quantity + input.Quantity ≤ MaxInt)
    (hpass : 0 ≤ input.Quantity ∨ -input.Quantity ≤ inv.Quantity) :
    (∀ s2, repo.UpdateQuantity input.ProductID input.Quantity s1 = (none, s2) →
      UpdateQuantity repo id input s =
        ((some { ID := inv.ID, ProductID := inv.ProductID,
                 Quantity := inv.Quantity + input.Quantity }, none), s2) ∧
      0 ≤ inv.Quantity + input.Quantity) ∧
    (∀ err s2, repo.UpdateQuantity input.ProductID input.Quantity s1 = (some err, s2) →
      UpdateQuantity repo id input s = ((none, some err), s2)) := by
  have hnonneg : 0 ≤ inv.Quantity + input.Quantity := by
    rcases hpass with h | h <;> omega
  constructor
  · intro s2 hupd
    refine ⟨?_, hnonneg⟩
    rw [UpdateQuantity_applied repo id input s s1 s2 inv hread hq hd hpass hupd,
      wrapInt_of_isInt]
    unfold IsInt MinInt
    unfold MaxInt at hsum
    constructor
    · omega
    · unfold MaxInt; exact hsum
  · intro err s2 hupd
    exact UpdateQuantity_update_failed repo id input s s1 s2 inv err hread hq hd hpass hupd

/-- C5 as amended, at an input of the service tests: the read returns
inventory 1 of product 1 with quantity 1, delta is -1, the repository update
succeeds; the item carries quantity 1 + (-1) = 0. -/
theorem C5_item_after_update_witness :
    (0 : Int) ≤ 1 ∧ IsInt 1 ∧ IsInt (-1) ∧ (1 : Int) + -1 ≤ MaxInt ∧
    ((0 : Int) ≤ -1 ∨ -(-1 : Int) ≤ 1) ∧
    UpdateQuantity (MockRepository (some ⟨1, 1, 1, false⟩, none) none) 1 ⟨1, -1⟩ ⟨[]⟩ =
        ((some ⟨1, 1, 1 + -1⟩, none), ⟨[(1, -1)]⟩) ∧
    (0 : Int) ≤ 1 + -1 :=
  ⟨by decide, by decide, by decide, by decide, by decide,
    (C5_item_after_update (MockRepository (some ⟨1, 1, 1, false⟩, none) none) 1 ⟨1, -1⟩
      ⟨[]⟩ ⟨[]⟩ ⟨1, 1, 1, false⟩ rfl (by decide) (by decide) (by decide) (by decide)
      (by decide)).1 ⟨[(1, -1)]⟩ rfl⟩

/-- C6, the code at the failing input.  Negating the smallest machine integer
wraps onto itself, which is negative and so not greater than any quantity
q >= 0.  Over the real repository with stored quantity 0 the call with that
delta is not rejected: the update is issued and the store commits -2^63. -/
theorem C6_negation_wraps_at_minInt :
    wrapInt (MinInt * -1) = MinInt ∧
    (∀ q : Int, 0 ≤ q → ¬ (MinInt < 0 ∧ wrapInt (MinInt * -1) > q)) ∧
    UpdateQuantity NewRepository 1 ⟨7, MinInt⟩
        { db := ⟨[⟨1, 7, 0, false⟩], 1, none⟩, cache := none } =
      ((some ⟨1, 7, MinInt⟩, none),
        { db := ⟨[⟨1, 7, MinInt, false⟩], 1, none⟩, cache := none }) := by
  refine ⟨by decide, ?_, by decide⟩
  intro q hq h
  have h1 : wrapInt (MinInt * -1) = MinInt := by decide
  rw [h1] at h
  unfold MinInt at h
  omega

end Inventory

/-! ## Category: reads through the cache -/

namespace Category

/-- C7, the code at the failing input.  The store holds category 1 "Wheel" and
the cache backend is reachable and empty.  The first `GetByID 1` answers the
stored row and writes its document under `category:id:1`; the second
`GetByID 1`, served from that entry, answers the zero category (id 0, empty
name).  Without a cache layer both reads answer the stored row. -/
theorem C7_cached_category_is_zero_value :
    (repository.GetByID
        { db := ⟨[⟨1, "Wheel", false⟩], 1, none⟩, cache := some ⟨true, []⟩ } 1) =
      ((some ⟨1, "Wheel", false⟩, none),
        { db := ⟨[⟨1, "Wheel", false⟩], 1, none⟩,
          cache := some ⟨true, [(keyID 1, ⟨1, "Wheel"⟩)]⟩ }) ∧
    (repository.GetByID
        { db := ⟨[⟨1, "Wheel", false⟩], 1, none⟩,
          cache := some ⟨true, [(keyID 1, ⟨1, "Wheel"⟩)]⟩ } 1).1 =
      (some ⟨0, "", false⟩, none) ∧
    (repository.GetByID
        (repository.GetByID
          { db := ⟨[⟨1, "Wheel", false⟩], 1, none⟩, cache := none } 1).2 1).1 =
      (some ⟨1, "Wheel", false⟩, none) := by
  decide

end Category

/-! ## User: creation followed by reads -/

namespace User

/-- C9, the code at the failing input.  `Create` stores the user with its
password hash and writes the user's document, which has no password member,
under `user:id:1`.  With a reachable cache the following `GetByID 1` answers
the user with an empty `Password`; without a cache layer it answers the stored
hash.  Likewise the second `GetByUsername`, served from the entry written by
the first, answers an empty `Password` where the first answered the hash. -/
theorem C9_cached_user_loses_password_hash :
    (repository.Create { db := ⟨[], 0, none⟩, cache := some ⟨true, []⟩ }
        ⟨0, "a@mail.com", "alice", "$2a$10$hash", "cashier", true, false⟩) =
      ((⟨1, "a@mail.com", "alice", "$2a$10$hash", "cashier", true, false⟩, none),
        { db := ⟨[⟨1, "a@mail.com", "alice", "$2a$10$hash", "cashier", true, false⟩], 1, none⟩,
          cache := some ⟨true, [(keyByID 1, ⟨1, "a@mail.com", "alice", "cashier", true⟩)]⟩ }) ∧
    (repository.GetByID
        (repository.Create { db := ⟨[], 0, none⟩, cache := some ⟨true, []⟩ }
          ⟨0, "a@mail.com", "alice", "$2a$10$hash", "cashier", true, false⟩).2 1).1 =
      (some ⟨1, "a@mail.com", "alice", "", "cashier", true, false⟩, none) ∧
    (repository.GetByID
        (repository.Create { db := ⟨[], 0, none⟩, cache := none }
          ⟨0, "a@mail.com", "alice", "$2a$10$hash", "cashier", true, false⟩).2 1).1 =
      (some ⟨1, "a@mail.com", "alice", "$2a$10$hash", "cashier", true, false⟩, none) ∧
    (repository.GetByUsername
        { db := ⟨[⟨1, "a@mail.com", "alice", "$2a$10$hash", "cashier", true, false⟩], 1, none⟩,
          cache := some ⟨true, []⟩ } "alice").1 =
      (some ⟨1, "a@mail.com", "alice", "$2a$10$hash", "cashier", true, false⟩, none) ∧
    (repository.GetByUsername
        (repository.GetByUsername
          { db := ⟨[⟨1, "a@mail.com", "alice", "$2a$10$hash", "cashier", true, false⟩], 1, none⟩,
            cache := some ⟨true, []⟩ } "alice").2 "alice").1 =
      (some ⟨1, "a@mail.com", "alice", "", "cashier", true, false⟩, none) := by
  decide

end User

/-! ## The four cache layers on a miss -/

namespace Redis

/-- C10, the code on a miss.  On a reachable backend holding no entry, the
category and product layers answer (nil, false, nil) for every key, while the
inventory and user layers answer (nil, false, `redis.Nil`): there the miss is
returned as a non-nil error. -/
theorem C10_miss_of_each_layer (key : String) :
    Category.getByKey (some ⟨true, []⟩) key = (none, false, none) ∧
    Product.getByKey (some ⟨true, []⟩) key = (none, false, none) ∧
    Inventory.getByKey (some ⟨true, []⟩) key = (none, false, some Error.Nil) ∧
    User.getByKey (some ⟨true, []⟩) key = (none, false, some Error.Nil) := by
  refine ⟨rfl, rfl, rfl, rfl⟩

end Redis

/-! ## Reads and writes of the four repositories under a failing or absent cache -/


namespace Inventory

open Apperror

/-- Without a cache hit for its key, `GetByID` of the inventory repository answers the
store lookup. -/
theorem inventory_GetByID_of_no_hit (r : repository) (id : Nat)
    (h : (getByKey r.cache (keyID id)).2.1 = false) :
    (r.GetByID id).1 = r.db.Fetch "repo.inventory.getbyid" (fun i => i.ID == id) := by
  unfold repository.GetByID Gorm.Table.Fetch
  split
  · rename_i heq
    rw [heq] at h
    cases h
  · split <;> simp_all

/-- Without a cache hit for its key, `GetByProductID` of the inventory repository answers the
store lookup. -/
theorem inventory_GetByProductID_of_no_hit (r : repository) (pID : Nat)
    (h : (getByKey r.cache (keyProductID pID)).2.1 = false) :
    (r.GetByProductID pID).1 =
      r.db.Fetch "repo.inventory.getByproductID" (fun i => i.ProductID == pID) := by
  unfold repository.GetByProductID Gorm.Table.Fetch
  split
  · rename_i heq
    rw [heq] at h
    cases h
  · split <;> simp_all

end Inventory

namespace Category

open Apperror

/-- Without a cache hit for its key, `GetByID` of the category repository answers the
store lookup. -/
theorem category_GetByID_of_no_hit (r : repository) (id : Nat)
    (h : (getByKey r.cache (keyID id)).2.1 = false) :
    (r.GetByID id).1 = r.db.Fetch "repo.category.getByID" (fun c => c.ID == id) := by
  unfold repository.GetByID Gorm.Table.Fetch
  split
  · rename_i heq
    rw [heq] at h
    cases h
  · split <;> simp_all

/-- Without a cache hit for its key, `GetByName` of the category repository answers the
store lookup. -/
theorem category_GetByName_of_no_hit (r : repository) (name : String)
    (h : (getByKey r.cache (keyName name)).2.1 = false) :
    (r.GetByName name).1 = r.db.Fetch "repo.category.getbyname" (fun c => c.Name == name) := by
  unfold repository.GetByName Gorm.Table.Fetch
  split
  · rename_i heq
    rw [heq] at h
    cases h
  · split <;> simp_all

end Category

namespace Product

open Apperror

/-- Without a cache hit for its key, `GetByID` of the product repository answers the
store lookup. -/
theorem product_GetByID_of_no_hit (r : repository) (id : Nat)
    (h : (getByKey r.cache (keyByID id)).2.1 = false) :
    (r.GetByID id).1 = r.db.Fetch "repo.product.getByID" (fun p => p.ID == id) := by
  unfold repository.GetByID Gorm.Table.Fetch
  split
  · rename_i heq
    rw [heq] at h
    cases h
  · split <;> simp_all

/-- Without a cache hit for its key, `GetBySKU` of the product repository answers the
store lookup. -/
theorem product_GetBySKU_of_no_hit (r : repository) (sku : String)
    (h : (getByKey r.cache (keyBySKU sku)).2.1 = false) :
    (r.GetBySKU sku).1 = r.db.Fetch "repo.product.getBySKU" (fun p => p.SKU == sku) := by
  unfold repository.GetBySKU Gorm.Table.Fetch
  split
  · rename_i heq
    rw [heq] at h
    cases h
  · split <;> simp_all

end Product

namespace User

open Apperror

/-- Without a cache hit for its key, `GetByID` of the user repository answers the
store lookup. -/
theorem user_GetByID_of_no_hit (r : repository) (id : Nat)
    (h : (getByKey r.cache (keyByID id)).2.1 = false) :
    (r.GetByID id).1 = r.db.Fetch "repo.user.getbyid" (fun u => u.ID == id) := by
  unfold repository.GetByID Gorm.Table.Fetch
  split
  · rename_i heq
    rw [heq] at h
    cases h
  · split <;> simp_all

/-- Without a cache hit for its key, `GetByUsername` of the user repository answers the
store lookup. -/
theorem user_GetByUsername_of_no_hit (r : repository) (username : String)
    (h : (getByKey r.cache (keyByUsername username)).2.1 = false) :
    (r.GetByUsername username).1 =
      r.db.Fetch "repo.user.getbyusername" (fun u => u.Username == username) := by
  unfold repository.GetByUsername Gorm.Table.Fetch
  split
  · rename_i heq
    rw [heq] at h
    cases h
  · split <;> simp_all

/-- Without a cache hit for its key, `GetByEmail` of the user repository answers the
store lookup. -/
theorem user_GetByEmail_of_no_hit (r : repository) (email : String)
    (h : (getByKey r.cache (keyByEmail email)).2.1 = false) :
    (r.GetByEmail email).1 = r.db.Fetch "repo.user.getbyemail" (fun u => u.Email == email) := by
  unfold repository.GetByEmail Gorm.Table.Fetch
  split
  · rename_i heq
    rw [heq] at h
    cases h
  · split <;> simp_all

end User

namespace Redis

/-- C11.  Take any state of the four repositories and, for each read method, a
key for which the cache layer does not report a hit (`getByKey` answers
`ok = false`: the layer is absent, the backend fails, or the key is absent;
population, which only follows such an answer, may fail or not).  Then every
read (`GetByID`, `GetByProductID`, `GetByName`, `GetBySKU`, `GetByUsername`,
`GetByEmail`) answers exactly what the store lookup answers: the row, or the
store error mapped by `MapDBError`.  Moreover `newCache` yields the nil layer
without a client or with a TTL `<= 0`; on the nil layer `getByKey` answers
(nil, false, nil) and `set` and `del` answer nil; and on an unreachable backend
`getByKey` answers `ok = false`. -/
theorem C11_reads_answer_the_store_lookup
    (ri : Inventory.repository) (rc : Category.repository) (rp : Product.repository)
    (ru : User.repository) (id pID : Nat) (name sku username email : String)
    (h1 : (Inventory.getByKey ri.cache (Inventory.keyID id)).2.1 = false)
    (h2 : (Inventory.getByKey ri.cache (Inventory.keyProductID pID)).2.1 = false)
    (h3 : (Category.getByKey rc.cache (Category.keyID id)).2.1 = false)
    (h4 : (Category.getByKey rc.cache (Category.keyName name)).2.1 = false)
    (h5 : (Product.getByKey rp.cache (Product.keyByID id)).2.1 = false)
    (h6 : (Product.getByKey rp.cache (Product.keyBySKU sku)).2.1 = false)
    (h7 : (User.getByKey ru.cache (User.keyByID id)).2.1 = false)
    (h8 : (User.getByKey ru.cache (User.keyByUsername username)).2.1 = false)
    (h9 : (User.getByKey ru.cache (User.keyByEmail email)).2.1 = false) :
    ((ri.GetByID id).1 = ri.db.Fetch "repo.inventory.getbyid" (fun i => i.ID == id) ∧
     (ri.GetByProductID pID).1 =
        ri.db.Fetch "repo.inventory.getByproductID" (fun i => i.ProductID == pID) ∧
     (rc.GetByID id).1 = rc.db.Fetch "repo.category.getByID" (fun c => c.ID == id) ∧
     (rc.GetByName name).1 =
        rc.db.Fetch "repo.category.getbyname" (fun c => c.Name == name) ∧
     (rp.GetByID id).1 = rp.db.Fetch "repo.product.getByID" (fun p => p.ID == id) ∧
     (rp.GetBySKU sku).1 = rp.db.Fetch "repo.product.getBySKU" (fun p => p.SKU == sku) ∧
     (ru.GetByID id).1 = ru.db.Fetch "repo.user.getbyid" (fun u => u.ID == id) ∧
     (ru.GetByUsername username).1 =
        ru.db.Fetch "repo.user.getbyusername" (fun u => u.Username == username) ∧
     (ru.GetByEmail email).1 =
        ru.db.Fetch "repo.user.getbyemail" (fun u => u.Email == email)) ∧
    (∀ ttl : Int, Inventory.newCache none ttl = none ∧ Category.newCache none ttl = none ∧
      Product.newCache none ttl = none ∧ User.newCache none ttl = none) ∧
    (∀ (ttl : Int) (ci : Client Inventory.InventoryJSON) (cc : Client Category.CategoryJSON)
        (cp : Client Product.ProductJSON) (cu : Client User.UserJSON), ttl ≤ 0 →
      Inventory.newCache (some ci) ttl = none ∧ Category.newCache (some cc) ttl = none ∧
      Product.newCache (some cp) ttl = none ∧ User.newCache (some cu) ttl = none) ∧
    (∀ key : String,
      Inventory.getByKey none key = (none, false, none) ∧
      Category.getByKey none key = (none, false, none) ∧
      Product.getByKey none key = (none, false, none) ∧
      User.getByKey none key = (none, false, none)) ∧
    (∀ (key : String) (i : Domain.Inventory) (c : Domain.Category) (p : Domain.Product)
        (u : Domain.User),
      (Inventory.set none key i).1 = none ∧ (Inventory.del none key).1 = none ∧
      (Category.set none key c).1 = none ∧ (Category.del none [key]).1 = none ∧
      (Product.set none key p).1 = none ∧ (Product.del none [key]).1 = none ∧
      (User.set none key u).1 = none ∧ (User.del none [key]).1 = none) ∧
    (∀ (key : String) (kvi : List (String × Inventory.InventoryJSON))
        (kvc : List (String × Category.CategoryJSON))
        (kvp : List (String × Product.ProductJSON)) (kvu : List (String × User.UserJSON)),
      (Inventory.getByKey (some ⟨false, kvi⟩) key).2.1 = false ∧
      (Category.getByKey (some ⟨false, kvc⟩) key).2.1 = false ∧
      (Product.getByKey (some ⟨false, kvp⟩) key).2.1 = false ∧
      (User.getByKey (some ⟨false, kvu⟩) key).2.1 = false) := by
  refine ⟨⟨Inventory.inventory_GetByID_of_no_hit ri id h1,
    Inventory.inventory_GetByProductID_of_no_hit ri pID h2,
    Category.category_GetByID_of_no_hit rc id h3,
    Category.category_GetByName_of_no_hit rc name h4,
    Product.product_GetByID_of_no_hit rp id h5,
    Product.product_GetBySKU_of_no_hit rp sku h6,
    User.user_GetByID_of_no_hit ru id h7,
    User.user_GetByUsername_of_no_hit ru username h8,
    User.user_GetByEmail_of_no_hit ru email h9⟩, ?_, ?_, ?_, ?_, ?_⟩
  · intro ttl; exact ⟨rfl, rfl, rfl, rfl⟩
  · intro ttl ci cc cp cu h
    simp [Inventory.newCache, Category.newCache, Product.newCache, User.newCache, h]
  · intro key; exact ⟨rfl, rfl, rfl, rfl⟩
  · intro key i c p u; exact ⟨rfl, rfl, rfl, rfl, rfl, rfl, rfl, rfl⟩
  · intro key kvi kvc kvp kvu
    simp [Inventory.getByKey, Category.getByKey, Product.getByKey, User.getByKey, Client.Get]

/-- C11 at concrete repositories: an inventory repository without a cache
layer, a category repository whose backend is unreachable although it holds an
entry for the key, a product repository with a reachable empty cache and a row
whose price is NaN (so that population fails), and a user repository without a
layer.  The reads answer the stored rows, and `NotFound` for the absent
user. -/
theorem C11_reads_answer_the_store_lookup_witness :
    (Inventory.getByKey none (Inventory.keyID 1)).2.1 = false ∧
    (Category.getByKey (some ⟨false, [(Category.keyID 1, ⟨1, "Wheel"⟩)]⟩)
        (Category.keyID 1)).2.1 = false ∧
    (Product.getByKey (some ⟨true, []⟩) (Product.keyByID 1)).2.1 = false ∧
    (Inventory.repository.GetByID ⟨⟨[⟨1, 7, 5, false⟩], 1, none⟩, none⟩ 1).1 =
      (some ⟨1, 7, 5, false⟩, none) ∧
    (Category.repository.GetByID
        ⟨⟨[⟨1, "Wheel", false⟩], 1, none⟩, some ⟨false, [(Category.keyID 1, ⟨1, "Wheel"⟩)]⟩⟩
        1).1 = (some ⟨1, "Wheel", false⟩, none) ∧
    (Product.repository.GetByID
        ⟨⟨[⟨1, "Pad", "", ⟨9221120237041090560⟩, "BP-001", 1, true, false⟩], 1, none⟩,
          some ⟨true, []⟩⟩ 1) =
      ((some ⟨1, "Pad", "", ⟨9221120237041090560⟩, "BP-001", 1, true, false⟩, none),
        ⟨⟨[⟨1, "Pad", "", ⟨9221120237041090560⟩, "BP-001", 1, true, false⟩], 1, none⟩,
          some ⟨true, []⟩⟩) ∧
    (User.repository.GetByEmail ⟨⟨[], 0, none⟩, none⟩ "a@mail.com").1 =
      (none, some (.Wrapf "repo.user.getbyemail" .ErrNotFound)) ∧
    ((Inventory.repository.GetByID ⟨⟨[⟨1, 7, 5, false⟩], 1, none⟩, none⟩ 1).1 =
      (Gorm.Table.Fetch ⟨[(⟨1, 7, 5, false⟩ : Domain.Inventory)], 1, none⟩
        "repo.inventory.getbyid" (fun i => i.ID == 1))) :=
  ⟨by decide, by decide, by decide, by decide, by decide, by decide, by decide,
    (C11_reads_answer_the_store_lookup
      ⟨⟨[⟨1, 7, 5, false⟩], 1, none⟩, none⟩
      ⟨⟨[⟨1, "Wheel", false⟩], 1, none⟩, some ⟨false, [(Category.keyID 1, ⟨1, "Wheel"⟩)]⟩⟩
      ⟨⟨[⟨1, "Pad", "", ⟨9221120237041090560⟩, "BP-001", 1, true, false⟩], 1, none⟩,
        some ⟨true, []⟩⟩
      ⟨⟨[], 0, none⟩, none⟩ 1 7 "Wheel" "BP-001" "alice" "a@mail.com"
      (by decide) (by decide) (by decide) (by decide) (by decide) (by decide) (by decide)
      (by decide) (by decide)).1.1⟩

end Redis


namespace Category

open Apperror

/-- The method `Create` of the category repository: a failing store statement is
returned mapped and leaves the repository unchanged; a successful one gives
success. -/
theorem category_Create_store_first (r : repository) (x : Domain.Category) :
    (∀ e, r.db.Create x = .error e →
      r.Create x = ((x, MapDBError "repo.category.create" (some e)), r)) ∧
    (∀ row db1, r.db.Create x = .ok (row, db1) →
      (r.Create x).1 = (row, none) ∧ (r.Create x).2.db = db1) := by
  constructor
  · intro e h; simp only [repository.Create, h]
  · intro row db1 h; simp only [repository.Create, h, and_self]

/-- The method `Update` of the category repository: a failing store statement is
returned mapped and leaves the repository unchanged; a successful one gives
success. -/
theorem category_Update_store_first (r : repository) (x : Domain.Category) :
    (∀ e, r.db.Save x = .error e →
      r.Update x = ((x, MapDBError "repo.category.update" (some e)), r)) ∧
    (∀ row db1, r.db.Save x = .ok (row, db1) →
      (r.Update x).1 = (row, none) ∧ (r.Update x).2.db = db1) := by
  constructor
  · intro e h; simp only [repository.Update, h]
  · intro row db1 h; simp only [repository.Update, h, and_self]

/-- The method `Delete` of the category repository: its store statement fails
for every repository and every id, the error is returned mapped (an
`InternalServer`), and the repository, cache included, is unchanged. -/
theorem category_Delete_store_first (r : repository) (id : Nat) :
    r.db.DeleteByValue (fun c => c.ID == id) = .error Gorm.ErrInvalidValue ∧
    r.Delete id = (MapDBError "repo.category.delete" (some Gorm.ErrInvalidValue), r) ∧
    r.Delete id = (some (.Wrapf "repo.category.delete" .ErrInternalServer), r) :=
  ⟨rfl, rfl, rfl⟩

end Category

namespace Product

open Apperror

/-- The method `Create` of the product repository: a failing store statement is
returned mapped and leaves the repository unchanged; a successful one gives
success. -/
theorem product_Create_store_first (r : repository) (x : Domain.Product) :
    (∀ e, r.db.Create x = .error e →
      r.Create x = ((x, MapDBError "repo.product.create" (some e)), r)) ∧
    (∀ row db1, r.db.Create x = .ok (row, db1) →
      (r.Create x).1 = (row, none) ∧ (r.Create x).2.db = db1) := by
  constructor
  · intro e h; simp only [repository.Create, h]
  · intro row db1 h; simp only [repository.Create, h, and_self]

/-- The method `Update` of the product repository: a failing store statement is
returned mapped and leaves the repository unchanged; a successful one gives
success. -/
theorem product_Update_store_first (r : repository) (x : Domain.Product) :
    (∀ e, r.db.Save x = .error e →
      r.Update x = ((x, MapDBError "repo.product.update" (some e)), r)) ∧
    (∀ row db1, r.db.Save x = .ok (row, db1) →
      (r.Update x).1 = (row, none) ∧ (r.Update x).2.db = db1) := by
  constructor
  · intro e h; simp only [repository.Update, h]
  · intro row db1 h; simp only [repository.Update, h, and_self]

/-- The method `Delete` of the product repository: a failing store statement is
returned mapped and leaves the repository unchanged; a successful one gives
success. -/
theorem product_Delete_store_first (r : repository) (id : Nat) :
    (∀ e, r.db.First (fun p => p.ID == id) = .error e →
      r.Delete id = (MapDBError "repo.product.delete.getByID" (some e), r)) ∧
    (∀ p e, r.db.First (fun p => p.ID == id) = .ok p →
      r.db.Delete (fun q => q.ID == id) = .error e →
      r.Delete id = (MapDBError "repo.product.delete" (some e), r)) ∧
    (∀ p db1, r.db.First (fun p => p.ID == id) = .ok p →
      r.db.Delete (fun q => q.ID == id) = .ok db1 →
      (r.Delete id).1 = none ∧ (r.Delete id).2.db = db1) := by
  refine ⟨?_, ?_, ?_⟩
  · intro e h; simp only [repository.Delete, h]
  · intro p e h1 h2; simp only [repository.Delete, h1, h2]
  · intro p db1 h1 h2; simp only [repository.Delete, h1, h2, and_self]

end Product

namespace Inventory

open Apperror

/-- The method `Create` of the inventory repository: a failing store statement is
returned mapped and leaves the repository unchanged; a successful one gives
success. -/
theorem inventory_Create_store_first (r : repository) (x : Domain.Inventory) :
    (∀ e, r.db.Create x = .error e →
      r.Create x = ((none, MapDBError "repo.inventory.create" (some e)), r)) ∧
    (∀ row db1, r.db.Create x = .ok (row, db1) →
      (r.Create x).1 = (some row, none) ∧ (r.Create x).2.db = db1) := by
  constructor
  · intro e h; simp only [repository.Create, h]
  · intro row db1 h; simp only [repository.Create, h, and_self]

/-- The method `Delete` of the inventory repository: a failing store statement is
returned mapped and leaves the repository unchanged; a successful one gives
success. -/
theorem inventory_Delete_store_first (r : repository) (pID : Nat) :
    (∀ e, r.db.Delete (fun i => i.ProductID == pID) = .error e →
      r.Delete pID = (MapDBError "repo.inventory.delete" (some e), r)) ∧
    (∀ db1, r.db.Delete (fun i => i.ProductID == pID) = .ok db1 →
      (r.Delete pID).1 = none ∧ (r.Delete pID).2.db = db1) := by
  constructor
  · intro e h; simp only [repository.Delete, h]
  · intro db1 h; simp only [repository.Delete, h, and_self]

end Inventory

namespace User

open Apperror

/-- The method `Create` of the user repository: a failing store statement is
returned mapped and leaves the repository unchanged; a successful one gives
success. -/
theorem user_Create_store_first (r : repository) (x : Domain.User) :
    (∀ e, r.db.Create x = .error e →
      r.Create x = ((x, MapDBError "repo.user.create" (some e)), r)) ∧
    (∀ row db1, r.db.Create x = .ok (row, db1) →
      (r.Create x).1 = (row, none) ∧ (r.Create x).2.db = db1) := by
  constructor
  · intro e h; simp only [repository.Create, h]
  · intro row db1 h; simp only [repository.Create, h, and_self]

/-- The method `Update` of the user repository: a failing store statement is
returned mapped and leaves the repository unchanged; a successful one gives
success. -/
theorem user_Update_store_first (r : repository) (x : Domain.User) :
    (∀ e, r.db.Save x = .error e →
      r.Update x = ((x, MapDBError "repo.user.update" (some e)), r)) ∧
    (∀ row db1, r.db.Save x = .ok (row, db1) →
      (r.Update x).1 = (row, none) ∧ (r.Update x).2.db = db1) := by
  constructor
  · intro e h; simp only [repository.Update, h]
  · intro row db1 h; simp only [repository.Update, h, and_self]

/-- The method `Delete` of the user repository: a failing store statement is
returned mapped and leaves the repository unchanged; a successful one gives
success. -/
theorem user_Delete_store_first (r : repository) (id : Nat) :
    (∀ e, r.db.Delete (fun u => u.ID == id) = .error e →
      r.Delete id = (MapDBError "repo.user.delte" (some e), r)) ∧
    (∀ db1, r.db.Delete (fun u => u.ID == id) = .ok db1 →
      (r.Delete id).1 = none ∧ (r.Delete id).2.db = db1) := by
  constructor
  · intro e h; simp only [repository.Delete, h]
  · intro db1 h; simp only [repository.Delete, h, and_self]

end User

namespace Gorm

open Apperror

/-- C12.  For every state of the four repositories (whatever the cache layer:
absent, reachable, or failing every command) and every argument, each of
`Create`, `Update` and `Delete` does the store write first.  If the store
statement fails, the call returns the store error mapped by `MapDBError` and
the repository, cache included, is unchanged (no key is deleted or written).  If
the store statement succeeds, the call returns no error, whatever the cache
operation that follows answers, and the store is the one the statement
produced.  The store statement of the category `Delete` fails for every
repository and every id (the model is passed by value): the call returns the
mapped error, an `InternalServer`, and the repository is unchanged. -/
theorem C12_store_first_write_path
    (rc : Category.repository) (rp : Product.repository) (ri : Inventory.repository)
    (ru : User.repository) (c : Domain.Category) (p : Domain.Product)
    (i : Domain.Inventory) (u : Domain.User) (id : Nat) :
    ((∀ e, rc.db.Create c = .error e →
        rc.Create c = ((c, MapDBError "repo.category.create" (some e)), rc)) ∧
      (∀ row db1, rc.db.Create c = .ok (row, db1) →
        (rc.Create c).1 = (row, none) ∧ (rc.Create c).2.db = db1)) ∧
    ((∀ e, rc.db.Save c = .error e →
        rc.Update c = ((c, MapDBError "repo.category.update" (some e)), rc)) ∧
      (∀ row db1, rc.db.Save c = .ok (row, db1) →
        (rc.Update c).1 = (row, none) ∧ (rc.Update c).2.db = db1)) ∧
    (rc.db.DeleteByValue (fun x => x.ID == id) = .error ErrInvalidValue ∧
      rc.Delete id = (MapDBError "repo.category.delete" (some ErrInvalidValue), rc) ∧
      rc.Delete id = (some (.Wrapf "repo.category.delete" .ErrInternalServer), rc)) ∧
    ((∀ e, rp.db.Create p = .error e →
        rp.Create p = ((p, MapDBError "repo.product.create" (some e)), rp)) ∧
      (∀ row db1, rp.db.Create p = .ok (row, db1) →
        (rp.Create p).1 = (row, none) ∧ (rp.Create p).2.db = db1)) ∧
    ((∀ e, rp.db.Save p = .error e →
        rp.Update p = ((p, MapDBError "repo.product.update" (some e)), rp)) ∧
      (∀ row db1, rp.db.Save p = .ok (row, db1) →
        (rp.Update p).1 = (row, none) ∧ (rp.Update p).2.db = db1)) ∧
    ((∀ e, rp.db.First (fun x => x.ID == id) = .error e →
        rp.Delete id = (MapDBError "repo.product.delete.getByID" (some e), rp)) ∧
      (∀ x e, rp.db.First (fun x => x.ID == id) = .ok x →
        rp.db.Delete (fun q => q.ID == id) = .error e →
        rp.Delete id = (MapDBError "repo.product.delete" (some e), rp)) ∧
      (∀ x db1, rp.db.First (fun x => x.ID == id) = .ok x →
        rp.db.Delete (fun q => q.ID == id) = .ok db1 →
        (rp.Delete id).1 = none ∧ (rp.Delete id).2.db = db1)) ∧
    ((∀ e, ri.db.Create i = .error e →
        ri.Create i = ((none, MapDBError "repo.inventory.create" (some e)), ri)) ∧
      (∀ row db1, ri.db.Create i = .ok (row, db1) →
        (ri.Create i).1 = (some row, none) ∧ (ri.Create i).2.db = db1)) ∧
    ((∀ e, ri.db.Delete (fun x => x.ProductID == id) = .error e →
        ri.Delete id = (MapDBError "repo.inventory.delete" (some e), ri)) ∧
      (∀ db1, ri.db.Delete (fun x => x.ProductID == id) = .ok db1 →
        (ri.Delete id).1 = none ∧ (ri.Delete id).2.db = db1)) ∧
    ((∀ e, ru.db.Create u = .error e →
        ru.Create u = ((u, MapDBError "repo.user.create" (some e)), ru)) ∧
      (∀ row db1, ru.db.Create u = .ok (row, db1) →
        (ru.Create u).1 = (row, none) ∧ (ru.Create u).2.db = db1)) ∧
    ((∀ e, ru.db.Save u = .error e →
        ru.Update u = ((u, MapDBError "repo.user.update" (some e)), ru)) ∧
      (∀ row db1, ru.db.Save u = .ok (row, db1) →
        (ru.Update u).1 = (row, none) ∧ (ru.Update u).2.db = db1)) ∧
    ((∀ e, ru.db.Delete (fun x => x.ID == id) = .error e →
        ru.Delete id = (MapDBError "repo.user.delte" (some e), ru)) ∧
      (∀ db1, ru.db.Delete (fun x => x.ID == id) = .ok db1 →
        (ru.Delete id).1 = none ∧ (ru.Delete id).2.db = db1)) :=
  ⟨Category.category_Create_store_first rc c, Category.category_Update_store_first rc c,
    Category.category_Delete_store_first rc id, Product.product_Create_store_first rp p,
    Product.product_Update_store_first rp p, Product.product_Delete_store_first rp id,
    Inventory.inventory_Create_store_first ri i, Inventory.inventory_Delete_store_first ri id,
    User.user_Create_store_first ru u, User.user_Update_store_first ru u,
    User.user_Delete_store_first ru id⟩

/-- C12 at concrete repositories.  A product whose SKU is taken is rejected by
the store (SQLSTATE 23505): `Create` returns the mapped `Conflict` and the
repository keeps its cache entry.  A user is inserted while the cache backend is
unreachable: `Create` returns no error and the row is stored.  The `Delete` of
category 1 returns the mapped error; the row stays live and the cache entry of
the category stays. -/
theorem C12_store_first_write_path_witness :
    Product.repository.Create
        ⟨⟨[⟨1, "Pad", "", ⟨4607182418800017408⟩, "BP-001", 1, true, false⟩], 1, none⟩,
          some ⟨true, [(Product.keyBySKU "BP-001",
            ⟨1, "Pad", "", ⟨4607182418800017408⟩, "BP-001", 1, true⟩)]⟩⟩
        ⟨0, "Pad 2", "", ⟨4607182418800017408⟩, "BP-001", 1, true, false⟩ =
      ((⟨0, "Pad 2", "", ⟨4607182418800017408⟩, "BP-001", 1, true, false⟩,
          some (.Wrapf "repo.product.create" .ErrConflict)),
        ⟨⟨[⟨1, "Pad", "", ⟨4607182418800017408⟩, "BP-001", 1, true, false⟩], 1, none⟩,
          some ⟨true, [(Product.keyBySKU "BP-001",
            ⟨1, "Pad", "", ⟨4607182418800017408⟩, "BP-001", 1, true⟩)]⟩⟩) ∧
    (User.repository.Create ⟨⟨[], 0, none⟩, some ⟨false, []⟩⟩
        ⟨0, "a@mail.com", "alice", "$2a$10$hash", "cashier", true, false⟩).1 =
      (⟨1, "a@mail.com", "alice", "$2a$10$hash", "cashier", true, false⟩, none) ∧
    (User.repository.Create ⟨⟨[], 0, none⟩, some ⟨false, []⟩⟩
        ⟨0, "a@mail.com", "alice", "$2a$10$hash", "cashier", true, false⟩).2.db =
      ⟨[⟨1, "a@mail.com", "alice", "$2a$10$hash", "cashier", true, false⟩], 1, none⟩ ∧
    Category.repository.Delete
        ⟨⟨[⟨1, "Wheel", false⟩], 1, none⟩, some ⟨true, [(Category.keyID 1, ⟨1, "Wheel"⟩)]⟩⟩ 1 =
      (some (.Wrapf "repo.category.delete" .ErrInternalServer),
        ⟨⟨[⟨1, "Wheel", false⟩], 1, none⟩,
          some ⟨true, [(Category.keyID 1, ⟨1, "Wheel"⟩)]⟩⟩) :=
  ⟨(C12_store_first_write_path ⟨⟨[], 0, none⟩, none⟩
      ⟨⟨[⟨1, "Pad", "", ⟨4607182418800017408⟩, "BP-001", 1, true, false⟩], 1, none⟩,
        some ⟨true, [(Product.keyBySKU "BP-001",
          ⟨1, "Pad", "", ⟨4607182418800017408⟩, "BP-001", 1, true⟩)]⟩⟩
      ⟨⟨[], 0, none⟩, none⟩ ⟨⟨[], 0, none⟩, some ⟨false, []⟩⟩
      ⟨0, "", false⟩ ⟨0, "Pad 2", "", ⟨4607182418800017408⟩, "BP-001", 1, true, false⟩
      ⟨0, 0, 0, false⟩ ⟨0, "a@mail.com", "alice", "$2a$10$hash", "cashier", true, false⟩
      1).2.2.2.1.1 (.Pg "23505") rfl,
    ((C12_store_first_write_path ⟨⟨[], 0, none⟩, none⟩
      ⟨⟨[], 0, none⟩, none⟩
      ⟨⟨[], 0, none⟩, none⟩ ⟨⟨[], 0, none⟩, some ⟨false, []⟩⟩
      ⟨0, "", false⟩ ⟨0, "", "", ⟨0⟩, "", 0, true, false⟩
      ⟨0, 0, 0, false⟩ ⟨0, "a@mail.com", "alice", "$2a$10$hash", "cashier", true, false⟩
      1).2.2.2.2.2.2.2.2.1.2
      ⟨1, "a@mail.com", "alice", "$2a$10$hash", "cashier", true, false⟩
      ⟨[⟨1, "a@mail.com", "alice", "$2a$10$hash", "cashier", true, false⟩], 1, none⟩ rfl).1,
    ((C12_store_first_write_path ⟨⟨[], 0, none⟩, none⟩
      ⟨⟨[], 0, none⟩, none⟩
      ⟨⟨[], 0, none⟩, none⟩ ⟨⟨[], 0, none⟩, some ⟨false, []⟩⟩
      ⟨0, "", false⟩ ⟨0, "", "", ⟨0⟩, "", 0, true, false⟩
      ⟨0, 0, 0, false⟩ ⟨0, "a@mail.com", "alice", "$2a$10$hash", "cashier", true, false⟩
      1).2.2.2.2.2.2.2.2.1.2
      ⟨1, "a@mail.com", "alice", "$2a$10$hash", "cashier", true, false⟩
      ⟨[⟨1, "a@mail.com", "alice", "$2a$10$hash", "cashier", true, false⟩], 1, none⟩ rfl).2,
    (C12_store_first_write_path
      ⟨⟨[⟨1, "Wheel", false⟩], 1, none⟩, some ⟨true, [(Category.keyID 1, ⟨1, "Wheel"⟩)]⟩⟩
      ⟨⟨[], 0, none⟩, none⟩
      ⟨⟨[], 0, none⟩, none⟩ ⟨⟨[], 0, none⟩, none⟩
      ⟨0, "", false⟩ ⟨0, "", "", ⟨0⟩, "", 0, true, false⟩
      ⟨0, 0, 0, false⟩ ⟨0, "a@mail.com", "alice", "$2a$10$hash", "cashier", true, false⟩
      1).2.2.1.2.2⟩

end Gorm

/-! ## Invalidation of alternate keys and key namespaces -/

namespace Product

/-- C13, the code at the failing input.  Product 1 has SKU OLD-1 and
`GetBySKU "OLD-1"` has cached it.  `Update` to SKU NEW-1 succeeds and deletes
the by-id key and the by-SKU key of the new SKU; the entry `product:sku:OLD-1`
stays, and the next `GetBySKU "OLD-1"` answers the pre-update row, where the
store alone answers `NotFound`.  Likewise for a category renamed from Wheel to
Tyre: `Update` deletes `category:id:1` only and the entry
`category:name:Wheel` stays and serves the next `GetByName "Wheel"`. -/
theorem C13_old_alternate_key_stays_cached :
    (repository.Update
        (repository.GetBySKU
          (freshCache ⟨[⟨1, "Pad", "", ⟨4607182418800017408⟩, "OLD-1", 1, true, false⟩], 1,
            none⟩) "OLD-1").2
        ⟨1, "Pad", "", ⟨4607182418800017408⟩, "NEW-1", 1, true, false⟩) =
      ((⟨1, "Pad", "", ⟨4607182418800017408⟩, "NEW-1", 1, true, false⟩, none),
        ⟨⟨[⟨1, "Pad", "", ⟨4607182418800017408⟩, "NEW-1", 1, true, false⟩], 1, none⟩,
          some ⟨true, [(keyBySKU "OLD-1",
            ⟨1, "Pad", "", ⟨4607182418800017408⟩, "OLD-1", 1, true⟩)]⟩⟩) ∧
    (repository.GetBySKU
        ⟨⟨[⟨1, "Pad", "", ⟨4607182418800017408⟩, "NEW-1", 1, true, false⟩], 1, none⟩,
          some ⟨true, [(keyBySKU "OLD-1",
            ⟨1, "Pad", "", ⟨4607182418800017408⟩, "OLD-1", 1, true⟩)]⟩⟩ "OLD-1").1 =
      (some ⟨1, "Pad", "", ⟨4607182418800017408⟩, "OLD-1", 1, true, false⟩, none) ∧
    (repository.GetBySKU
        ⟨⟨[⟨1, "Pad", "", ⟨4607182418800017408⟩, "NEW-1", 1, true, false⟩], 1, none⟩,
          none⟩ "OLD-1").1 =
      (none, some (.Wrapf "repo.product.getBySKU" .ErrNotFound)) ∧
    (Category.repository.Update
        (Category.repository.GetByName
          ⟨⟨[⟨1, "Wheel", false⟩], 1, none⟩, some ⟨true, []⟩⟩ "Wheel").2
        ⟨1, "Tyre", false⟩) =
      ((⟨1, "Tyre", false⟩, none),
        ⟨⟨[⟨1, "Tyre", false⟩], 1, none⟩,
          some ⟨true, [(Category.keyName "Wheel", ⟨1, "Wheel"⟩)]⟩⟩) ∧
    (Category.getByKey (some ⟨true, [(Category.keyName "Wheel", ⟨1, "Wheel"⟩)]⟩)
        (Category.keyName "Wheel")).2.1 = true := by
  decide

end Product

namespace Inventory

open Apperror Golang

/-- C14, the code.  The two key functions render the same template, so
`keyID a` equals `keyProductID a` for every id.  With inventory 1 of product 2
(quantity 5) and inventory 2 of product 1 (quantity 9) in the store,
`GetByProductID 2` caches inventory 1 under `inventory:product_id:2`, and the
following `GetByID 2` is served that entry: it answers the inventory whose id
is 1, while the row with id 2 has product 1 and quantity 9. -/
theorem C14_the_two_keys_coincide :
    (∀ a : Nat, keyID a = keyProductID a) ∧
    (repository.GetByProductID
        ⟨⟨[⟨1, 2, 5, false⟩, ⟨2, 1, 9, false⟩], 2, none⟩, some ⟨true, []⟩⟩ 2) =
      ((some ⟨1, 2, 5, false⟩, none),
        ⟨⟨[⟨1, 2, 5, false⟩, ⟨2, 1, 9, false⟩], 2, none⟩,
          some ⟨true, [(keyID 2, ⟨1, 2, 5⟩)]⟩⟩) ∧
    (repository.GetByID
        ⟨⟨[⟨1, 2, 5, false⟩, ⟨2, 1, 9, false⟩], 2, none⟩,
          some ⟨true, [(keyID 2, ⟨1, 2, 5⟩)]⟩⟩ 2).1 =
      (some ⟨1, 2, 5, false⟩, none) ∧
    (repository.GetByID
        ⟨⟨[⟨1, 2, 5, false⟩, ⟨2, 1, 9, false⟩], 2, none⟩, none⟩ 2).1 =
      (some ⟨2, 1, 9, false⟩, none) := by
  refine ⟨fun _ => rfl, by decide, by decide, by decide⟩

end Inventory

/-! ## Errors across the layers -/

namespace Apperror

/-- Every store error is returned wrapped with the operation name. -/
theorem MapDBError_wraps (op : String) (e : DBError) :
    ∃ k, MapDBError op (some e) = some (.Wrapf op k) := by
  cases e with
  | RecordNotFound => exact ⟨.ErrNotFound, by simp [MapDBError]⟩
  | Canceled => exact ⟨.Store .Canceled, by simp [MapDBError]⟩
  | DeadlineExceeded => exact ⟨.Store .DeadlineExceeded, by simp [MapDBError]⟩
  | Other msg => exact ⟨.ErrInternalServer, by simp [MapDBError]⟩
  | Pg code =>
    by_cases h1 : code = "23505"
    · exact ⟨.ErrConflict, by simp [MapDBError, h1]⟩
    · by_cases h2 : code = "23503" ∨ code = "23514"
      · exact ⟨.ErrInvalidInput, by simp [MapDBError, h1, h2]⟩
      · exact ⟨.ErrInternalServer, by simp [MapDBError, h1, h2]⟩

/-- C15, the claim fails as stated.  An expired deadline is returned as
`fmt.Errorf("%s: %w", op, err)`: the result wraps `context.DeadlineExceeded`
itself and matches neither `InternalServer` nor any other of the four kinds;
the same holds for a cancelled context. -/
theorem C15_context_errors_pass_through :
    MapDBError "repo.product.getByID" (some .DeadlineExceeded) =
      some (.Wrapf "repo.product.getByID" (.Store .DeadlineExceeded)) ∧
    Is (.Wrapf "repo.product.getByID" (.Store .DeadlineExceeded)) .ErrInternalServer = false ∧
    Is (.Wrapf "repo.product.getByID" (.Store .DeadlineExceeded)) .ErrNotFound = false ∧
    Is (.Wrapf "repo.product.getByID" (.Store .DeadlineExceeded)) .ErrConflict = false ∧
    Is (.Wrapf "repo.product.getByID" (.Store .DeadlineExceeded)) .ErrInvalidInput = false ∧
    MapDBError "repo.product.getByID" (some .Canceled) =
      some (.Wrapf "repo.product.getByID" (.Store .Canceled)) ∧
    Is (.Wrapf "repo.product.getByID" (.Store .Canceled)) .ErrInternalServer = false := by
  decide

/-- C15 as amended.  `MapDBError op err` is nil iff `err` is nil.
Record-not-found gives `NotFound`, SQLSTATE 23505 gives `Conflict`, 23503 and
23514 give `InvalidInput`, every other SQLSTATE and every other store failure
gives `InternalServer`, each wrapped with `op`; such a result matches
(`errors.Is`) exactly one of the four kinds, the one named.  A cancelled or
expired context is returned wrapped with `op` as it is: it matches the context
error and none of the four kinds. -/
theorem C15_MapDBError_taxonomy (op : String) :
    (∀ err, MapDBError op err = none ↔ err = none) ∧
    MapDBError op (some .RecordNotFound) = some (.Wrapf op .ErrNotFound) ∧
    MapDBError op (some (.Pg "23505")) = some (.Wrapf op .ErrConflict) ∧
    MapDBError op (some (.Pg "23503")) = some (.Wrapf op .ErrInvalidInput) ∧
    MapDBError op (some (.Pg "23514")) = some (.Wrapf op .ErrInvalidInput) ∧
    (∀ code, code ≠ "23505" → code ≠ "23503" → code ≠ "23514" →
      MapDBError op (some (.Pg code)) = some (.Wrapf op .ErrInternalServer)) ∧
    (∀ msg, MapDBError op (some (.Other msg)) = some (.Wrapf op .ErrInternalServer)) ∧
    MapDBError op (some .Canceled) = some (.Wrapf op (.Store .Canceled)) ∧
    MapDBError op (some .DeadlineExceeded) = some (.Wrapf op (.Store .DeadlineExceeded)) ∧
    (∀ k ∈ [Error.ErrNotFound, .ErrConflict, .ErrInvalidInput, .ErrInternalServer],
      ∀ k1 ∈ [Error.ErrNotFound, .ErrConflict, .ErrInvalidInput, .ErrInternalServer],
        (Is (.Wrapf op k) k1 = true ↔ k1 = k)) ∧
    (∀ e, e = DBError.Canceled ∨ e = DBError.DeadlineExceeded →
      Is (.Wrapf op (.Store e)) (.Store e) = true ∧
      ∀ k1 ∈ [Error.ErrNotFound, .ErrConflict, .ErrInvalidInput, .ErrInternalServer],
        Is (.Wrapf op (.Store e)) k1 = false) := by
  refine ⟨?_, by simp [MapDBError], by simp [MapDBError], by simp [MapDBError],
    by simp [MapDBError], ?_, by simp [MapDBError], by simp [MapDBError],
    by simp [MapDBError], ?_, ?_⟩
  · intro err
    constructor
    · intro h
      cases err with
      | none => rfl
      | some e =>
        obtain ⟨k, hk⟩ := MapDBError_wraps op e
        rw [hk] at h
        cases h
    · intro h; subst h; rfl
  · intro code h1 h2 h3
    simp [MapDBError, h1, h2, h3]
  · intro k hk k1 hk1
    simp only [List.mem_cons, List.mem_singleton, List.not_mem_nil, or_false] at hk hk1
    rcases hk with rfl | rfl | rfl | rfl <;> rcases hk1 with rfl | rfl | rfl | rfl <;>
      simp [Is]
  · intro e he
    rcases he with rfl | rfl
    · refine ⟨by simp [Is], ?_⟩
      intro k1 hk1
      simp only [List.mem_cons, List.mem_singleton, List.not_mem_nil, or_false] at hk1
      rcases hk1 with rfl | rfl | rfl | rfl <;> simp [Is]
    · refine ⟨by simp [Is], ?_⟩
      intro k1 hk1
      simp only [List.mem_cons, List.mem_singleton, List.not_mem_nil, or_false] at hk1
      rcases hk1 with rfl | rfl | rfl | rfl <;> simp [Is]

end Apperror


namespace Product

open Apperror Golang

/-- C16, the code at the failing input.  The store connection is down, so the
repository's `GetByID` answers (nil, `InternalServer` wrapped with the operation
name).  Both services test the nil row before the error: the inventory
service's `UpdateQuantity` and the product service's `UpdateProduct` answer
`ErrNotFound`, although the rows exist; `GetInventoryByID` of the same service
passes the error on unchanged. -/
theorem C16_store_failure_reported_as_not_found :
    (Inventory.NewRepository.GetByID 1
        ⟨⟨[⟨1, 7, 5, false⟩], 1, some (.Other "connection refused")⟩, none⟩).1 =
      (none, some (.Wrapf "repo.inventory.getbyid" .ErrInternalServer)) ∧
    (Inventory.UpdateQuantity Inventory.NewRepository 1 ⟨7, 1⟩
        ⟨⟨[⟨1, 7, 5, false⟩], 1, some (.Other "connection refused")⟩, none⟩).1 =
      (none, some .ErrNotFound) ∧
    (Inventory.GetInventoryByID Inventory.NewRepository 1
        ⟨⟨[⟨1, 7, 5, false⟩], 1, some (.Other "connection refused")⟩, none⟩).1 =
      (none, some (.Wrapf "repo.inventory.getbyid" .ErrInternalServer)) ∧
    (NewRepository.GetByID 1
        ⟨⟨[⟨1, "Pad", "", ⟨4607182418800017408⟩, "BP-001", 1, true, false⟩], 1,
          some (.Other "connection refused")⟩, none⟩).1 =
      (none, some (.Wrapf "repo.product.getByID" .ErrInternalServer)) ∧
    ((NewService NewRepository Category.NewRepository Inventory.NewRepository).UpdateProduct 1
        ⟨some "Pad X", none, none, none, none⟩
        ⟨⟨⟨[⟨1, "Pad", "", ⟨4607182418800017408⟩, "BP-001", 1, true, false⟩], 1,
            some (.Other "connection refused")⟩, none⟩,
          ⟨⟨[⟨1, "Wheel", false⟩], 1, none⟩, none⟩,
          ⟨⟨[⟨1, 1, 0, false⟩], 1, none⟩, none⟩⟩).1 =
      (none, some .ErrNotFound) ∧
    (∀ (err : Error), (Inventory.UpdateQuantity
        (Inventory.MockRepository (none, some err) none) 1 ⟨1, 1⟩ ⟨[]⟩).1 =
      (none, some .ErrNotFound)) := by
  refine ⟨by decide, by decide, by decide, by decide, by decide, fun _ => rfl⟩

end Product

namespace Inventory

open Apperror Golang

/-- C17, the code at the failing input.  The inventories table has no row with
id 99.  The repository answers `ErrNotFound` wrapped by `MapDBError`, the
service passes it on, and the handler, which compares with `==`, answers
status 500 with code INTERNAL_ERROR.  Status 404 is answered only when the
service error is the bare `ErrNotFound` (as the mock of the handler test
returns it); every wrapped `ErrNotFound` is answered with 500. -/
theorem C17_missing_row_answers_500 :
    (GetInventoryByID NewRepository 99 ⟨⟨[⟨1, 7, 5, false⟩], 1, none⟩, none⟩).1 =
      (none, some (.Wrapf "repo.inventory.getbyid" .ErrNotFound)) ∧
    Is (.Wrapf "repo.inventory.getbyid" .ErrNotFound) .ErrNotFound = true ∧
    (Handler.GetInventoryByID (NewService NewRepository) "99"
        ⟨⟨[⟨1, 7, 5, false⟩], 1, none⟩, none⟩).1 =
      Response.Error 500 "INTERNAL_ERROR" "internal server occured" ∧
    (Handler.GetInventoryByID (NewService NewRepository) "99"
        ⟨⟨[⟨1, 7, 5, false⟩], 1, none⟩, some ⟨true, []⟩⟩).1 =
      Response.Error 500 "INTERNAL_ERROR" "internal server occured" ∧
    (Handler.GetInventoryByID (NewService (MockRepository (none, some .ErrNotFound) none))
        "99" ⟨[]⟩).1 = Response.Error 404 "NOT_FOUND" "inventory not found" ∧
    (∀ (op : String), (Handler.GetInventoryByID
        (NewService (MockRepository (none, some (.Wrapf op .ErrNotFound)) none))
        "99" ⟨[]⟩).1 = Response.Error 500 "INTERNAL_ERROR" "internal server occured") := by
  refine ⟨by decide, by decide, by decide, by decide, by decide, fun _ => rfl⟩

end Inventory

/-! ## Product creation -/

namespace Product

open Apperror Golang Utils

/-- C19, the code at the failing input.  Product 1 with SKU ABC-1 is stored,
category 999 does not exist, and the input SKU is " abc-1 ", whose normalised
form is ABC-1.  The service looks up the SKU as given, finds nothing, goes on
to the category and answers `NotFound`, not `Conflict`.  With the input SKU
"ABC-1" and otherwise the same input it answers `ErrConflict`.  With an
existing category the insert of " abc-1 " is rejected by the unique index of
the store and the answer is `Conflict` wrapped by `MapDBError`; no row is
created in either case. -/
theorem C19_case_variant_sku_not_looked_up :
    ValidateAndNormalizeSKU " abc-1 " = ("ABC-1", none) ∧
    ((NewService NewRepository Category.NewRepository Inventory.NewRepository).CreateProduct
        ⟨"Test", "Desc", ⟨4607182418800017408⟩, " abc-1 ", 999⟩
        ⟨⟨⟨[⟨1, "Pad", "", ⟨4607182418800017408⟩, "ABC-1", 1, true, false⟩], 1, none⟩, none⟩,
          ⟨⟨[⟨1, "Wheel", false⟩], 1, none⟩, none⟩,
          ⟨⟨[⟨1, 1, 0, false⟩], 1, none⟩, none⟩⟩).1 =
      (none, some (.Wrapf "repo.category.getByID" .ErrNotFound)) ∧
    Is (.Wrapf "repo.category.getByID" .ErrNotFound) .ErrConflict = false ∧
    ((NewService NewRepository Category.NewRepository Inventory.NewRepository).CreateProduct
        ⟨"Test", "Desc", ⟨4607182418800017408⟩, "ABC-1", 999⟩
        ⟨⟨⟨[⟨1, "Pad", "", ⟨4607182418800017408⟩, "ABC-1", 1, true, false⟩], 1, none⟩, none⟩,
          ⟨⟨[⟨1, "Wheel", false⟩], 1, none⟩, none⟩,
          ⟨⟨[⟨1, 1, 0, false⟩], 1, none⟩, none⟩⟩).1 =
      (none, some .ErrConflict) ∧
    ((NewService NewRepository Category.NewRepository Inventory.NewRepository).CreateProduct
        ⟨"Test", "Desc", ⟨4607182418800017408⟩, " abc-1 ", 1⟩
        ⟨⟨⟨[⟨1, "Pad", "", ⟨4607182418800017408⟩, "ABC-1", 1, true, false⟩], 1, none⟩, none⟩,
          ⟨⟨[⟨1, "Wheel", false⟩], 1, none⟩, none⟩,
          ⟨⟨[⟨1, 1, 0, false⟩], 1, none⟩, none⟩⟩) =
      ((none, some (.Wrapf "repo.product.create" .ErrConflict)),
        ⟨⟨⟨[⟨1, "Pad", "", ⟨4607182418800017408⟩, "ABC-1", 1, true, false⟩], 1, none⟩, none⟩,
          ⟨⟨[⟨1, "Wheel", false⟩], 1, none⟩, none⟩,
          ⟨⟨[⟨1, 1, 0, false⟩], 1, none⟩, none⟩⟩) := by
  decide

end Product

namespace Utils

open Apperror Golang

/-- An accepted SKU is the trimmed, upper-cased input. -/
theorem ValidateAndNormalizeSKU_of_ok (rawSKU : String)
    (h : (ValidateAndNormalizeSKU rawSKU).2 = none) :
    ValidateAndNormalizeSKU rawSKU = (ToUpper (TrimSpace rawSKU), none) := by
  unfold ValidateAndNormalizeSKU at h ⊢
  split
  · rename_i h1; simp [h1] at h
  · rename_i h1
    split
    · rename_i h2; simp [h1, h2] at h
    · rename_i h2
      split
      · rename_i h3; simp [h1, h2, h3] at h
      · rfl

end Utils

namespace Product

open Apperror Golang Utils

/-- C18.  The input passes `sanitizeCreate` and the SKU validation, the
repository finds no product for the input SKU (nil product, and a nil or
`NotFound` error), and the category repository returns the category without
error.  Then the product handed to the repository's `Create` has the
whitespace-normalised name and description, the trimmed upper-cased SKU, the
given price and category id and `IsActive = true`; the inventory handed to the
inventory repository's `Create` has the id of the created product and quantity
0; and when both succeed the call returns, with no error, the item built from
the created product, the category and the created inventory. -/
theorem C18_CreateProduct_builds_product_and_inventory {σp σc σi : Type}
    (i : service σp σc σi) (inp : CreateInput)
    (w : Stores σp σc σi) (err0 : Option Error) (category : Domain.Category)
    (product : Domain.Product) (inv : Domain.Inventory)
    (p1 p2 : σp) (c1 : σc) (i1 : σi)
    (hvalid : sanitizeCreate inp = none)
    (hsku : (ValidateAndNormalizeSKU inp.SKU).2 = none)
    (hunused : i.productRepo.GetBySKU inp.SKU w.product = ((none, err0), p1))
    (hnotfound : failsOtherThan err0 .ErrNotFound = false)
    (hcategory : i.categoryRepo.GetByID inp.CategoryID w.category =
      ((some category, none), c1))
    (hcreate : i.productRepo.Create
        { ID := 0, Name := SanitizeString inp.Name,
          Description := SanitizeString inp.Description, Price := inp.Price,
          SKU := ToUpper (TrimSpace inp.SKU), CategoryID := inp.CategoryID, IsActive := true,
          Deleted := false } p1 = ((product, none), p2))
    (hinventory : i.inventoryRepo.Create
        { ID := 0, ProductID := product.ID, Quantity := 0, Deleted := false } w.inventory =
          ((some inv, none), i1)) :
    i.CreateProduct inp w =
      ((some
          { ID := product.ID, Name := product.Name, Description := product.Description,
            SKU := "", Price := product.Price, IsActive := product.IsActive, CategoryID := 0,
            Category := { ID := category.ID, Name := category.Name },
            Inventory := { ID := inv.ID, ProductID := inv.ProductID,
                           Quantity := inv.Quantity } }, none),
        { product := p2, category := c1, inventory := i1 }) := by
  have hs := ValidateAndNormalizeSKU_of_ok inp.SKU hsku
  simp only [service.CreateProduct, hvalid, hs, hunused, hnotfound, hcategory, hcreate,
    hinventory]
  simp [toItem]

/-- C18 over the real repositories: empty products and inventories tables,
category 1 "Wheel", no cache layers.  The stored product is
(1, "Brake pad", "front axle", price, "BP-001", category 1, active), exactly one
inventory row (1, product 1, quantity 0) is stored, and the item carries
product 1 "Brake pad", category 1 "Wheel" and that inventory. -/
theorem C18_CreateProduct_builds_product_and_inventory_witness :
    sanitizeCreate ⟨"  Brake   pad ", " front  axle", ⟨4607182418800017408⟩, " bp-001 ", 1⟩ =
      none ∧
    ValidateAndNormalizeSKU " bp-001 " = ("BP-001", none) ∧
    SanitizeString "  Brake   pad " = "Brake pad" ∧
    (NewService NewRepository Category.NewRepository Inventory.NewRepository).CreateProduct
        ⟨"  Brake   pad ", " front  axle", ⟨4607182418800017408⟩, " bp-001 ", 1⟩
        ⟨⟨⟨[], 0, none⟩, none⟩, ⟨⟨[⟨1, "Wheel", false⟩], 1, none⟩, none⟩,
          ⟨⟨[], 0, none⟩, none⟩⟩ =
      ((some ⟨1, "Brake pad", "front axle", "", ⟨4607182418800017408⟩, true, 0,
          ⟨1, "Wheel"⟩, ⟨1, 1, 0⟩⟩, none),
        ⟨⟨⟨[⟨1, "Brake pad", "front axle", ⟨4607182418800017408⟩, "BP-001", 1, true, false⟩],
            1, none⟩, none⟩,
          ⟨⟨[⟨1, "Wheel", false⟩], 1, none⟩, none⟩,
          ⟨⟨[⟨1, 1, 0, false⟩], 1, none⟩, none⟩⟩) :=
  ⟨by decide, by decide, by decide,
    C18_CreateProduct_builds_product_and_inventory
      (NewService NewRepository Category.NewRepository Inventory.NewRepository)
      ⟨"  Brake   pad ", " front  axle", ⟨4607182418800017408⟩, " bp-001 ", 1⟩
      ⟨⟨⟨[], 0, none⟩, none⟩, ⟨⟨[⟨1, "Wheel", false⟩], 1, none⟩, none⟩, ⟨⟨[], 0, none⟩, none⟩⟩
      (some (.Wrapf "repo.product.getBySKU" .ErrNotFound)) ⟨1, "Wheel", false⟩
      ⟨1, "Brake pad", "front axle", ⟨4607182418800017408⟩, "BP-001", 1, true, false⟩
      ⟨1, 1, 0, false⟩
      ⟨⟨[], 0, none⟩, none⟩
      ⟨⟨[⟨1, "Brake pad", "front axle", ⟨4607182418800017408⟩, "BP-001", 1, true, false⟩],
        1, none⟩, none⟩
      ⟨⟨[⟨1, "Wheel", false⟩], 1, none⟩, none⟩
      ⟨⟨[⟨1, 1, 0, false⟩], 1, none⟩, none⟩
      (by decide) (by decide) (by decide) (by decide) (by decide) (by decide) (by decide)⟩

end Product

namespace Product

open Apperror Golang Utils

/-- After the product insert, a failing inventory insert ends the call with that
error; the repository states are the ones the calls made so far returned. -/
theorem CreateProduct_inventory_failure {σp σc σi : Type} (i : service σp σc σi)
    (inp : CreateInput) (w : Stores σp σc σi) (err0 : Option Error)
    (category : Option Domain.Category) (product : Domain.Product)
    (inv : Option Domain.Inventory) (err : Error) (p1 p2 : σp) (c1 : σc) (i1 : σi)
    (hvalid : sanitizeCreate inp = none)
    (hsku : (ValidateAndNormalizeSKU inp.SKU).2 = none)
    (hunused : i.productRepo.GetBySKU inp.SKU w.product = ((none, err0), p1))
    (hnotfound : failsOtherThan err0 .ErrNotFound = false)
    (hcategory : i.categoryRepo.GetByID inp.CategoryID w.category = ((category, none), c1))
    (hcreate : i.productRepo.Create
        { ID := 0, Name := SanitizeString inp.Name,
          Description := SanitizeString inp.Description, Price := inp.Price,
          SKU := ToUpper (TrimSpace inp.SKU), CategoryID := inp.CategoryID, IsActive := true,
          Deleted := false } p1 = ((product, none), p2))
    (hinventory : i.inventoryRepo.Create
        { ID := 0, ProductID := product.ID, Quantity := 0, Deleted := false } w.inventory =
          ((inv, some err), i1)) :
    i.CreateProduct inp w =
      ((none, some err), { product := p2, category := c1, inventory := i1 }) := by
  have hs := ValidateAndNormalizeSKU_of_ok inp.SKU hsku
  simp only [service.CreateProduct, hvalid, hs, hunused, hnotfound, hcategory, hcreate,
    hinventory]
  simp

/-- C20.  Over the real repositories: the input passes the checks, the lookup
of the input SKU finds no product, the category read succeeds, the product
insert succeeds in the store with row `row`, and the inventory insert fails in
the store with `e`.  Then `CreateProduct` returns no item and the inventory
error (`e` mapped by `MapDBError`), the products table is the one the insert
produced and contains `row`, and the inventory repository is unchanged: the
product stays without an inventory row, nothing is rolled back. -/
theorem C20_product_row_stays_without_inventory
    (inp : CreateInput)
    (w : Stores Product.repository Category.repository Inventory.repository)
    (category : Option Domain.Category) (c1 : Category.repository)
    (row : Domain.Product) (db1 : Gorm.Table Domain.Product) (e : DBError)
    (hvalid : sanitizeCreate inp = none)
    (hsku : (ValidateAndNormalizeSKU inp.SKU).2 = none)
    (hunused : (w.product.GetBySKU inp.SKU).1.1 = none)
    (hnotfound : failsOtherThan (w.product.GetBySKU inp.SKU).1.2 .ErrNotFound = false)
    (hcategory : w.category.GetByID inp.CategoryID = ((category, none), c1))
    (hcreate : (w.product.GetBySKU inp.SKU).2.db.Create
        { ID := 0, Name := SanitizeString inp.Name,
          Description := SanitizeString inp.Description, Price := inp.Price,
          SKU := ToUpper (TrimSpace inp.SKU), CategoryID := inp.CategoryID, IsActive := true,
          Deleted := false } = .ok (row, db1))
    (hinventory : w.inventory.db.Create
        { ID := 0, ProductID := row.ID, Quantity := 0, Deleted := false } = .error e) :
    ((NewService NewRepository Category.NewRepository Inventory.NewRepository).CreateProduct
        inp w).1 = (none, MapDBError "repo.inventory.create" (some e)) ∧
    ((NewService NewRepository Category.NewRepository Inventory.NewRepository).CreateProduct
        inp w).2.product.db = db1 ∧
    row ∈ db1.rows ∧
    ((NewService NewRepository Category.NewRepository Inventory.NewRepository).CreateProduct
        inp w).2.inventory = w.inventory := by
  obtain ⟨k, herr1⟩ := MapDBError_wraps "repo.inventory.create" e
  have hget : NewRepository.GetBySKU inp.SKU w.product =
      ((none, (w.product.GetBySKU inp.SKU).1.2), (w.product.GetBySKU inp.SKU).2) := by
    show w.product.GetBySKU inp.SKU = _
    rw [← hunused]
  have hc : NewRepository.Create
      { ID := 0, Name := SanitizeString inp.Name,
        Description := SanitizeString inp.Description, Price := inp.Price,
        SKU := ToUpper (TrimSpace inp.SKU), CategoryID := inp.CategoryID, IsActive := true,
        Deleted := false } (w.product.GetBySKU inp.SKU).2 =
      ((row, none), { db := db1, cache := (del (w.product.GetBySKU inp.SKU).2.cache
        [keyByID row.ID, keyBySKU row.SKU]).2 }) := by
    show repository.Create _ _ = _
    simp only [repository.Create, hcreate]
  have hi : Inventory.NewRepository.Create
      { ID := 0, ProductID := row.ID, Quantity := 0, Deleted := false } w.inventory =
      ((none, some (.Wrapf "repo.inventory.create" k)), w.inventory) := by
    show Inventory.repository.Create _ _ = _
    simp only [Inventory.repository.Create, hinventory, herr1]
  have hmain := CreateProduct_inventory_failure
    (NewService NewRepository Category.NewRepository Inventory.NewRepository) inp w _ category
    row none (.Wrapf "repo.inventory.create" k) _ _ c1 w.inventory hvalid hsku hget hnotfound hcategory hc hi
  rw [hmain, herr1]
  refine ⟨rfl, rfl, ?_, rfl⟩
  have := (Gorm.Create_rows _ _ _ _ hcreate).1
  rw [this]
  simp

/-- C20 at a concrete input: the connection of the inventories table is lost
after the product insert.  The call returns the wrapped `InternalServer` error,
the products table holds the new product 1 and the inventories table holds no
row. -/
theorem C20_product_row_stays_without_inventory_witness :
    sanitizeCreate ⟨"Brake pad", "front", ⟨4607182418800017408⟩, "bp-001", 1⟩ = none ∧
    (ValidateAndNormalizeSKU "bp-001").2 = none ∧
    (repository.GetBySKU ⟨⟨[], 0, none⟩, none⟩ "bp-001").1.1 = none ∧
    (NewService NewRepository Category.NewRepository Inventory.NewRepository).CreateProduct
        ⟨"Brake pad", "front", ⟨4607182418800017408⟩, "bp-001", 1⟩
        ⟨⟨⟨[], 0, none⟩, none⟩, ⟨⟨[⟨1, "Wheel", false⟩], 1, none⟩, none⟩,
          ⟨⟨[], 0, some (.Other "connection reset")⟩, none⟩⟩ =
      ((none, some (.Wrapf "repo.inventory.create" .ErrInternalServer)),
        ⟨⟨⟨[⟨1, "Brake pad", "front", ⟨4607182418800017408⟩, "BP-001", 1, true, false⟩], 1,
            none⟩, none⟩,
          ⟨⟨[⟨1, "Wheel", false⟩], 1, none⟩, none⟩,
          ⟨⟨[], 0, some (.Other "connection reset")⟩, none⟩⟩) ∧
    ((NewService NewRepository Category.NewRepository Inventory.NewRepository).CreateProduct
        ⟨"Brake pad", "front", ⟨4607182418800017408⟩, "bp-001", 1⟩
        ⟨⟨⟨[], 0, none⟩, none⟩, ⟨⟨[⟨1, "Wheel", false⟩], 1, none⟩, none⟩,
          ⟨⟨[], 0, some (.Other "connection reset")⟩, none⟩⟩).2.inventory =
      ⟨⟨[], 0, some (.Other "connection reset")⟩, none⟩ :=
  ⟨by decide, by decide, by decide, by decide,
    (C20_product_row_stays_without_inventory
      ⟨"Brake pad", "front", ⟨4607182418800017408⟩, "bp-001", 1⟩
      ⟨⟨⟨[], 0, none⟩, none⟩, ⟨⟨[⟨1, "Wheel", false⟩], 1, none⟩, none⟩,
        ⟨⟨[], 0, some (.Other "connection reset")⟩, none⟩⟩
      (some ⟨1, "Wheel", false⟩) ⟨⟨[⟨1, "Wheel", false⟩], 1, none⟩, none⟩
      ⟨1, "Brake pad", "front", ⟨4607182418800017408⟩, "BP-001", 1, true, false⟩
      ⟨[⟨1, "Brake pad", "front", ⟨4607182418800017408⟩, "BP-001", 1, true, false⟩], 1, none⟩
      (.Other "connection reset")
      (by decide) (by decide) (by decide) (by decide) (by decide) rfl rfl).2.2.2⟩

end Product

/-! ## The product read model -/

namespace Product

open Apperror Golang Utils

/-- C21.  `GetProductDetail` reads the product by id, then the category by the
`CategoryID` of the product read, then the inventory by the product id.  A
failing read ends the call with the error of that read and a nil item, and the
repositories of the later reads are left as they were.  When the three reads
succeed the item carries the id, name, description, price and activity flag of
the product, the id and name of the category, and the id, product id and
quantity of the inventory. -/
theorem C21_GetProductDetail_reads_in_order {σp σc σi : Type} (i : service σp σc σi)
    (productID : Nat) (w : Stores σp σc σi) :
    (∀ x err p1, i.productRepo.GetByID productID w.product = ((x, some err), p1) →
      i.GetProductDetail productID w =
        ((none, some err), { product := p1, category := w.category, inventory := w.inventory })) ∧
    (∀ product p1 x err c1,
      i.productRepo.GetByID productID w.product = ((some product, none), p1) →
      i.categoryRepo.GetByID product.CategoryID w.category = ((x, some err), c1) →
      i.GetProductDetail productID w =
        ((none, some err), { product := p1, category := c1, inventory := w.inventory })) ∧
    (∀ product p1 category c1 x err i1,
      i.productRepo.GetByID productID w.product = ((some product, none), p1) →
      i.categoryRepo.GetByID product.CategoryID w.category = ((category, none), c1) →
      i.inventoryRepo.GetByProductID productID w.inventory = ((x, some err), i1) →
      i.GetProductDetail productID w =
        ((none, some err), { product := p1, category := c1, inventory := i1 })) ∧
    (∀ product p1 category c1 inventory i1,
      i.productRepo.GetByID productID w.product = ((some product, none), p1) →
      i.categoryRepo.GetByID product.CategoryID w.category = ((some category, none), c1) →
      i.inventoryRepo.GetByProductID productID w.inventory = ((some inventory, none), i1) →
      i.GetProductDetail productID w =
        ((some { ID := product.ID, Name := product.Name, Description := product.Description,
                 SKU := "", Price := product.Price, IsActive := product.IsActive,
                 CategoryID := 0,
                 Category := { ID := category.ID, Name := category.Name },
                 Inventory := { ID := inventory.ID, ProductID := inventory.ProductID,
                                Quantity := inventory.Quantity } }, none),
          { product := p1, category := c1, inventory := i1 })) := by
  refine ⟨?_, ?_, ?_, ?_⟩
  · intro x err p1 h
    simp [service.GetProductDetail, h]
  · intro product p1 x err c1 h1 h2
    simp [service.GetProductDetail, h1, h2]
  · intro product p1 category c1 x err i1 h1 h2 h3
    simp [service.GetProductDetail, h1, h2, h3]
  · intro product p1 category c1 inventory i1 h1 h2 h3
    simp [service.GetProductDetail, h1, h2, h3, toItem]

/-- C21 at the repositories of the code base: product 1 of category 3 with an
inventory of 5 pieces is read through empty caches; and with no category 3 in
the store the call ends with the error of the category read, the inventory
repository untouched. -/
theorem C21_GetProductDetail_reads_in_order_witness :
    (NewService NewRepository Category.NewRepository Inventory.NewRepository).GetProductDetail 1
        { product := ⟨⟨[⟨1, "Pad", "front", ⟨4607182418800017408⟩, "BP-001", 3, true, false⟩],
                        1, none⟩, some ⟨true, []⟩⟩,
          category := ⟨⟨[⟨3, "Brakes", false⟩], 3, none⟩, some ⟨true, []⟩⟩,
          inventory := ⟨⟨[⟨7, 1, 5, false⟩], 7, none⟩, some ⟨true, []⟩⟩ } =
      ((some { ID := 1, Name := "Pad", Description := "front", SKU := "",
               Price := ⟨4607182418800017408⟩, IsActive := true, CategoryID := 0,
               Category := { ID := 3, Name := "Brakes" },
               Inventory := { ID := 7, ProductID := 1, Quantity := 5 } }, none),
        { product := ⟨⟨[⟨1, "Pad", "front", ⟨4607182418800017408⟩, "BP-001", 3, true, false⟩],
                        1, none⟩,
                      some ⟨true, [(keyByID 1,
                        ⟨1, "Pad", "front", ⟨4607182418800017408⟩, "BP-001", 3, true⟩)]⟩⟩,
          category := ⟨⟨[⟨3, "Brakes", false⟩], 3, none⟩,
                       some ⟨true, [(Category.keyID 3, ⟨3, "Brakes"⟩)]⟩⟩,
          inventory := ⟨⟨[⟨7, 1, 5, false⟩], 7, none⟩,
                        some ⟨true, [(Inventory.keyID 1, ⟨7, 1, 5⟩)]⟩⟩ }) ∧
    (NewService NewRepository Category.NewRepository Inventory.NewRepository).GetProductDetail 1
        { product := ⟨⟨[⟨1, "Pad", "front", ⟨4607182418800017408⟩, "BP-001", 3, true, false⟩],
                        1, none⟩, none⟩,
          category := ⟨⟨[], 0, none⟩, none⟩,
          inventory := ⟨⟨[⟨7, 1, 5, false⟩], 7, none⟩, none⟩ } =
      ((none, some (.Wrapf "repo.category.getByID" .ErrNotFound)),
        { product := ⟨⟨[⟨1, "Pad", "front", ⟨4607182418800017408⟩, "BP-001", 3, true, false⟩],
                        1, none⟩, none⟩,
          category := ⟨⟨[], 0, none⟩, none⟩,
          inventory := ⟨⟨[⟨7, 1, 5, false⟩], 7, none⟩, none⟩ }) :=
  ⟨(C21_GetProductDetail_reads_in_order
      (NewService NewRepository Category.NewRepository Inventory.NewRepository) 1
      { product := ⟨⟨[⟨1, "Pad", "front", ⟨4607182418800017408⟩, "BP-001", 3, true, false⟩],
                      1, none⟩, some ⟨true, []⟩⟩,
        category := ⟨⟨[⟨3, "Brakes", false⟩], 3, none⟩, some ⟨true, []⟩⟩,
        inventory := ⟨⟨[⟨7, 1, 5, false⟩], 7, none⟩, some ⟨true, []⟩⟩ }).2.2.2
      ⟨1, "Pad", "front", ⟨4607182418800017408⟩, "BP-001", 3, true, false⟩ _
      ⟨3, "Brakes", false⟩ _ ⟨7, 1, 5, false⟩ _ (by decide) (by decide) (by decide),
   (C21_GetProductDetail_reads_in_order
      (NewService NewRepository Category.NewRepository Inventory.NewRepository) 1
      { product := ⟨⟨[⟨1, "Pad", "front", ⟨4607182418800017408⟩, "BP-001", 3, true, false⟩],
                      1, none⟩, none⟩,
        category := ⟨⟨[], 0, none⟩, none⟩,
        inventory := ⟨⟨[⟨7, 1, 5, false⟩], 7, none⟩, none⟩ }).2.1
      ⟨1, "Pad", "front", ⟨4607182418800017408⟩, "BP-001", 3, true, false⟩ _ none _ _
      (by decide) (by decide)⟩

end Product

/-! ## Category names -/

namespace Category

open Apperror Golang Utils

/-- C22, the code at the failing input.  Over the repository of the code base
with a reachable cache and an empty store: `CreateCategory` of `Wheel` returns
id 1; a second one returns `ErrConflict`, inserts nothing and leaves the entry
`category:name:Wheel` in the cache; `UpdateCategory` renames category 1 to
`Tyre` and deletes the id key only; a third `CreateCategory` of `Wheel`, a
name no row of the store carries any more, is answered from the cache entry
with `ErrConflict` and inserts nothing.  Without a cache the same last call
creates category 2.  An empty name is refused with `ErrInvalidInput` by every
repository, which is left untouched. -/
theorem C22_stale_name_entry_blocks_create :
    CreateCategory NewRepository { Name := "Wheel" } ⟨⟨[], 0, none⟩, some ⟨true, []⟩⟩ =
      ((some { ID := 1, Name := "Wheel" }, none),
        ⟨⟨[⟨1, "Wheel", false⟩], 1, none⟩, some ⟨true, []⟩⟩) ∧
    CreateCategory NewRepository { Name := "Wheel" }
        ⟨⟨[⟨1, "Wheel", false⟩], 1, none⟩, some ⟨true, []⟩⟩ =
      ((none, some .ErrConflict),
        ⟨⟨[⟨1, "Wheel", false⟩], 1, none⟩,
          some ⟨true, [("category:name:Wheel", ⟨1, "Wheel"⟩)]⟩⟩) ∧
    UpdateCategory NewRepository 1 { Name := "Tyre" }
        ⟨⟨[⟨1, "Wheel", false⟩], 1, none⟩,
          some ⟨true, [("category:name:Wheel", ⟨1, "Wheel"⟩)]⟩⟩ =
      ((some { ID := 1, Name := "Tyre" }, none),
        ⟨⟨[⟨1, "Tyre", false⟩], 1, none⟩,
          some ⟨true, [("category:name:Wheel", ⟨1, "Wheel"⟩)]⟩⟩) ∧
    CreateCategory NewRepository { Name := "Wheel" }
        ⟨⟨[⟨1, "Tyre", false⟩], 1, none⟩,
          some ⟨true, [("category:name:Wheel", ⟨1, "Wheel"⟩)]⟩⟩ =
      ((none, some .ErrConflict),
        ⟨⟨[⟨1, "Tyre", false⟩], 1, none⟩,
          some ⟨true, [("category:name:Wheel", ⟨1, "Wheel"⟩)]⟩⟩) ∧
    CreateCategory NewRepository { Name := "Wheel" } ⟨⟨[⟨1, "Tyre", false⟩], 1, none⟩, none⟩ =
      ((some { ID := 2, Name := "Wheel" }, none),
        ⟨⟨[⟨1, "Tyre", false⟩, ⟨2, "Wheel", false⟩], 2, none⟩, none⟩) ∧
    (∀ (σ : Type) (i : Repository σ) (s : σ),
      CreateCategory i { Name := "" } s = ((none, some .ErrInvalidInput), s)) := by
  refine ⟨by decide, by decide, by decide, by decide, by decide, ?_⟩
  intro σ i s
  simp [CreateCategory]

end Category

/-! ## Normalisation of the SKU -/

namespace Golang

theorem IsSpace_iff_code (c : Char) :
    IsSpace c = true ↔
      c.toNat ∈ [9, 10, 11, 12, 13, 32, 133, 160, 5760, 8192, 8193, 8194, 8195, 8196, 8197,
        8198, 8199, 8200, 8201, 8202, 8232, 8233, 8239, 8287, 12288] := by
  simp only [IsSpace, Bool.or_eq_true, Bool.and_eq_true, decide_eq_true_eq, beq_iff_eq,
    List.mem_cons, List.mem_singleton, List.not_mem_nil, or_false]
  omega

theorem dropWhile_append_of_all {α : Type} (p : α → Bool) (pre l : List α)
    (h : ∀ c ∈ pre, p c = true) : (pre ++ l).dropWhile p = l.dropWhile p := by
  induction pre with
  | nil => rfl
  | cons a pre ih =>
    have ha : p a = true := h a (List.mem_cons_self a pre)
    simp only [List.cons_append, List.dropWhile_cons, ha, if_true]
    exact ih (fun c hc => h c (List.mem_cons_of_mem a hc))

theorem dropWhile_append_of_exists {α : Type} (p : α → Bool) (l post : List α)
    (h : ∃ c ∈ l, p c = false) : (l ++ post).dropWhile p = l.dropWhile p ++ post := by
  induction l with
  | nil => obtain ⟨c, hc, _⟩ := h; cases hc
  | cons a l ih =>
    cases ha : p a with
    | false => simp [List.dropWhile_cons, ha]
    | true =>
      simp only [List.cons_append, List.dropWhile_cons, ha, if_true]
      apply ih
      obtain ⟨c, hc, hpc⟩ := h
      rcases List.mem_cons.mp hc with rfl | hc1
      · rw [ha] at hpc; cases hpc
      · exact ⟨c, hc1, hpc⟩

theorem dropWhile_of_all {α : Type} (p : α → Bool) (l : List α) (h : ∀ c ∈ l, p c = true) :
    l.dropWhile p = [] := by
  induction l with
  | nil => rfl
  | cons a l ih =>
    simp only [List.dropWhile_cons, h a (List.mem_cons_self a l), if_true]
    exact ih (fun c hc => h c (List.mem_cons_of_mem a hc))

theorem dropWhile_of_none {α : Type} (p : α → Bool) (l : List α) (h : ∀ c ∈ l, p c = false) :
    l.dropWhile p = l := by
  cases l with
  | nil => rfl
  | cons a l => simp [List.dropWhile_cons, h a (List.mem_cons_self a l)]

/-- White space around a text does not change what `TrimSpace` returns. -/
theorem TrimSpace_surrounded (pre l post : List Char) (hpre : ∀ c ∈ pre, IsSpace c = true)
    (hpost : ∀ c ∈ post, IsSpace c = true) :
    TrimSpace (String.mk (pre ++ l ++ post)) = TrimSpace (String.mk l) := by
  unfold TrimSpace
  simp only [List.append_assoc]
  rw [dropWhile_append_of_all IsSpace pre (l ++ post) hpre]
  by_cases hl : ∃ c ∈ l, IsSpace c = false
  · rw [dropWhile_append_of_exists IsSpace l post hl, List.reverse_append,
      dropWhile_append_of_all IsSpace post.reverse _
        (fun c hc => hpost c (List.mem_reverse.mp hc))]
  · have hall : ∀ c ∈ l, IsSpace c = true := by
      intro c hc
      cases hs : IsSpace c with
      | true => rfl
      | false => exact absurd ⟨c, hc, hs⟩ hl
    have h1 : (l ++ post).dropWhile IsSpace = [] :=
      dropWhile_of_all IsSpace _ (fun c hc => by
        rcases List.mem_append.mp hc with h | h
        · exact hall c h
        · exact hpost c h)
    rw [h1, dropWhile_of_all IsSpace l hall]

/-- A text without white space is returned by `TrimSpace` as it is. -/
theorem TrimSpace_of_none (l : List Char) (h : ∀ c ∈ l, IsSpace c = false) :
    TrimSpace (String.mk l) = String.mk l := by
  unfold TrimSpace
  simp only
  rw [dropWhile_of_none IsSpace l h,
    dropWhile_of_none IsSpace l.reverse (fun c hc => h c (List.mem_reverse.mp hc)),
    List.reverse_reverse]

end Golang

namespace Utils

open Apperror Golang

theorem utf8Size_of_isSKUChar (c : Char) (h : isSKUChar c = true) : c.utf8Size = 1 := by
  have h1 : c.toNat ≤ 127 := by
    simp only [isSKUChar, Bool.or_eq_true, Bool.and_eq_true, decide_eq_true_eq, beq_iff_eq] at h
    omega
  have h2 : c.val ≤ 127 := by
    rw [UInt32.le_def]
    exact h1
  simp [Char.utf8Size, h2]

theorem utf8Len_of_isSKUChar (l : List Char) (h : l.all isSKUChar = true) :
    String.utf8Len l = l.length := by
  induction l with
  | nil => rfl
  | cons c cs ih =>
    simp only [List.all_cons, Bool.and_eq_true] at h
    simp [String.utf8Len_cons, ih h.2, utf8Size_of_isSKUChar c h.1]

theorem utf8ByteSize_of_isSKUChar (s : String) (h : s.data.all isSKUChar = true) :
    s.utf8ByteSize = s.length := by
  have h1 : s.utf8ByteSize = String.utf8Len s.data := rfl
  rw [h1, utf8Len_of_isSKUChar s.data h]
  rfl

theorem isSKUChar_iff_mem (c : Char) :
    isSKUChar c = true ↔ c ∈ "ABCDEFGHIJKLMNOPQRSTUVWXYZ0123456789-".data := by
  constructor
  · intro h
    simp only [isSKUChar, Bool.or_eq_true, Bool.and_eq_true, decide_eq_true_eq, beq_iff_eq] at h
    have hc : c = Char.ofNat c.toNat := by simp
    have hr : c.toNat = 45 ∨ (48 ≤ c.toNat ∧ c.toNat ≤ 57) ∨ (65 ≤ c.toNat ∧ c.toNat ≤ 90) := by
      omega
    rcases hr with h0 | ⟨h1, h2⟩ | ⟨h1, h2⟩
    · rw [hc, h0]; decide
    · rw [hc]; interval_cases c.toNat <;> decide
    · rw [hc]; interval_cases c.toNat <;> decide
  · intro h
    simp only [List.mem_cons, List.mem_singleton, List.not_mem_nil, or_false] at h
    rcases h with h | h | h | h | h | h | h | h | h | h | h | h | h | h | h | h | h | h | h | h |
      h | h | h | h | h | h | h | h | h | h | h | h | h | h | h | h | h <;> subst h <;> decide

/-- The verdict of `ValidateAndNormalizeSKU` in terms of the trimmed and
upper-cased input: accepted exactly when it has between 3 and 50 characters of
the set, returned as it is when accepted, and answered with the empty string
and `ErrInvalidSKU` otherwise. -/
theorem ValidateAndNormalizeSKU_accepts_iff (rawSKU : String) :
    ((ValidateAndNormalizeSKU rawSKU).2 = none ↔
      (3 ≤ (ToUpper (TrimSpace rawSKU)).length ∧ (ToUpper (TrimSpace rawSKU)).length ≤ 50 ∧
        ∀ c ∈ (ToUpper (TrimSpace rawSKU)).data,
          c ∈ "ABCDEFGHIJKLMNOPQRSTUVWXYZ0123456789-".data)) ∧
    ((ValidateAndNormalizeSKU rawSKU).2 = none →
      (ValidateAndNormalizeSKU rawSKU).1 = ToUpper (TrimSpace rawSKU)) ∧
    ((ValidateAndNormalizeSKU rawSKU).2 ≠ none →
      ValidateAndNormalizeSKU rawSKU = ("", some .ErrInvalidSKU)) := by
  have hall : (ToUpper (TrimSpace rawSKU)).data.all isSKUChar = true ↔
      ∀ c ∈ (ToUpper (TrimSpace rawSKU)).data,
        c ∈ "ABCDEFGHIJKLMNOPQRSTUVWXYZ0123456789-".data := by
    rw [List.all_eq_true]
    exact forall₂_congr (fun c _ => isSKUChar_iff_mem c)
  refine ⟨?_, ?_, ?_⟩
  · constructor
    · intro h
      unfold ValidateAndNormalizeSKU at h
      split at h
      · cases h
      · split at h
        · cases h
        · split at h
          · cases h
          · rename_i h1 h2 h3
            simp only [SKUValidationRegex, Bool.not_and, Bool.not_not, Bool.or_eq_true,
              Bool.not_eq_true, not_or] at h3
            have h4 : (ToUpper (TrimSpace rawSKU)).data.all isSKUChar = true := by
              cases hb : (ToUpper (TrimSpace rawSKU)).data.all isSKUChar with
              | true => rfl
              | false => simp [hb] at h3
            rw [utf8ByteSize_of_isSKUChar _ h4] at h2
            exact ⟨by omega, by omega, hall.mp h4⟩
    · rintro ⟨h1, h2, h3⟩
      have h4 := hall.mpr h3
      have h5 := utf8ByteSize_of_isSKUChar _ h4
      have h6 : ToUpper (TrimSpace rawSKU) ≠ "" := by
        intro h
        rw [h] at h1
        simp at h1
      have h7 : (ToUpper (TrimSpace rawSKU)).data.isEmpty = false := by
        cases hd : (ToUpper (TrimSpace rawSKU)).data with
        | nil =>
          exfalso
          have : (ToUpper (TrimSpace rawSKU)).length = 0 := by simp [String.length, hd]
          omega
        | cons a l => rfl
      unfold ValidateAndNormalizeSKU
      rw [if_neg h6, if_neg (by omega)]
      simp [SKUValidationRegex, h4, h7]
  · intro h
    unfold ValidateAndNormalizeSKU at h ⊢
    split
    · rename_i h1; rw [if_pos h1] at h; cases h
    · split
      · rename_i h1 h2; rw [if_neg h1, if_pos h2] at h; cases h
      · split
        · rename_i h1 h2 h3; rw [if_neg h1, if_neg h2, if_pos h3] at h; cases h
        · rfl
  · intro h
    unfold ValidateAndNormalizeSKU at h ⊢
    split
    · rfl
    · split
      · rfl
      · split
        · rfl
        · rename_i h1 h2 h3
          rw [if_neg h1, if_neg h2, if_neg h3] at h
          exact absurd rfl h

/-- The letters, digits and the hyphen under `ToUpperRune`: a small letter goes
to the capital letter 32 code points below, every other one stays; none of
them is white space and every image is in the set of the SKU. -/
theorem ToUpperRune_on_letters_digits_hyphen :
    ∀ c ∈ "ABCDEFGHIJKLMNOPQRSTUVWXYZabcdefghijklmnopqrstuvwxyz0123456789-".data,
      ToUpperRune c =
          (if c ∈ "abcdefghijklmnopqrstuvwxyz".data then Char.ofNat (c.toNat - 32) else c) ∧
        IsSpace c = false ∧ isSKUChar (ToUpperRune c) = true := by
  decide

/-- C23.  `ValidateAndNormalizeSKU` succeeds exactly when the trimmed and
upper-cased input has between 3 and 50 characters, all of them among `A`-`Z`,
`0`-`9` and `-`; on success it returns that trimmed upper-cased string, and in
every other case the empty string with `ErrInvalidSKU`.  Trimming and
upper-casing are pinned: white space (the code points listed) before and after
an input changes nothing in the result; an input of 3 to 50 letters, digits and
hyphens is accepted and returned with every small letter replaced by its
capital and every other character as it is; and the function is evaluated on
inputs with blanks, tabs, line ends and Unicode spaces around them, with small
letters, with the dotless i (which Go upper-cases to `I`), at the lengths 50
and 51, too short after trimming, with an inner blank and with characters
outside the set. -/
theorem C23_ValidateAndNormalizeSKU_accepts_exactly (rawSKU : String) :
    ((ValidateAndNormalizeSKU rawSKU).2 = none ↔
      (3 ≤ (ToUpper (TrimSpace rawSKU)).length ∧ (ToUpper (TrimSpace rawSKU)).length ≤ 50 ∧
        ∀ c ∈ (ToUpper (TrimSpace rawSKU)).data,
          c ∈ "ABCDEFGHIJKLMNOPQRSTUVWXYZ0123456789-".data)) ∧
    ((ValidateAndNormalizeSKU rawSKU).2 = none →
      (ValidateAndNormalizeSKU rawSKU).1 = ToUpper (TrimSpace rawSKU)) ∧
    ((ValidateAndNormalizeSKU rawSKU).2 ≠ none →
      ValidateAndNormalizeSKU rawSKU = ("", some .ErrInvalidSKU)) ∧
    (∀ pre post : List Char,
      (∀ c ∈ pre ++ post, c.toNat ∈ [9, 10, 11, 12, 13, 32, 133, 160, 5760, 8192, 8193, 8194,
        8195, 8196, 8197, 8198, 8199, 8200, 8201, 8202, 8232, 8233, 8239, 8287, 12288]) →
      ValidateAndNormalizeSKU (String.mk (pre ++ rawSKU.data ++ post)) =
        ValidateAndNormalizeSKU rawSKU) ∧
    ((∀ c ∈ rawSKU.data,
        c ∈ "ABCDEFGHIJKLMNOPQRSTUVWXYZabcdefghijklmnopqrstuvwxyz0123456789-".data) →
      3 ≤ rawSKU.length → rawSKU.length ≤ 50 →
      ValidateAndNormalizeSKU rawSKU =
        (String.mk (rawSKU.data.map (fun c =>
          if c ∈ "abcdefghijklmnopqrstuvwxyz".data then Char.ofNat (c.toNat - 32) else c)),
          none)) ∧
    ValidateAndNormalizeSKU " abc-1 " = ("ABC-1", none) ∧
    ValidateAndNormalizeSKU "\tbp-001\r\n" = ("BP-001", none) ∧
    ValidateAndNormalizeSKU "\u00a0Sku-9z\u3000" = ("SKU-9Z", none) ∧
    ValidateAndNormalizeSKU "SKU" = ("SKU", none) ∧
    ValidateAndNormalizeSKU "sku-\u0131d" = ("SKU-ID", none) ∧
    ValidateAndNormalizeSKU (String.mk (List.replicate 50 'a')) =
      (String.mk (List.replicate 50 'A'), none) ∧
    ValidateAndNormalizeSKU (String.mk (List.replicate 51 'a')) = ("", some .ErrInvalidSKU) ∧
    ValidateAndNormalizeSKU " ab " = ("", some .ErrInvalidSKU) ∧
    ValidateAndNormalizeSKU "ab c" = ("", some .ErrInvalidSKU) ∧
    ValidateAndNormalizeSKU "*Sku" = ("", some .ErrInvalidSKU) ∧
    ValidateAndNormalizeSKU "abc_1" = ("", some .ErrInvalidSKU) ∧
    ValidateAndNormalizeSKU "   " = ("", some .ErrInvalidSKU) := by
  have base := ValidateAndNormalizeSKU_accepts_iff
  refine ⟨(base rawSKU).1, (base rawSKU).2.1, (base rawSKU).2.2, ?_, ?_, by decide, by decide,
    by decide, by decide, by decide, by decide, by decide, by decide, by decide, by decide,
    by decide, by decide⟩
  · intro pre post h
    have hT : TrimSpace (String.mk (pre ++ rawSKU.data ++ post)) = TrimSpace rawSKU :=
      TrimSpace_surrounded pre rawSKU.data post
        (fun c hc => (IsSpace_iff_code c).mpr (h c (List.mem_append_left post hc)))
        (fun c hc => (IsSpace_iff_code c).mpr (h c (List.mem_append_right pre hc)))
    unfold ValidateAndNormalizeSKU
    rw [hT]
  · intro h h3 h50
    have hT : TrimSpace rawSKU = rawSKU :=
      TrimSpace_of_none rawSKU.data (fun c hc => (ToUpperRune_on_letters_digits_hyphen c (h c hc)).2.1)
    have hU : ToUpper rawSKU = String.mk (rawSKU.data.map (fun c =>
        if c ∈ "abcdefghijklmnopqrstuvwxyz".data then Char.ofNat (c.toNat - 32) else c)) := by
      unfold ToUpper
      congr 1
      exact List.map_congr_left
        (fun c hc => (ToUpperRune_on_letters_digits_hyphen c (h c hc)).1)
    have hok : (ValidateAndNormalizeSKU rawSKU).2 = none := by
      rw [(base rawSKU).1, hT]
      have hlen : (ToUpper rawSKU).length = rawSKU.length :=
        List.length_map rawSKU.data ToUpperRune
      rw [hlen]
      refine ⟨h3, h50, ?_⟩
      · intro c hc
        simp only [ToUpper, List.mem_map] at hc
        obtain ⟨a, ha, rfl⟩ := hc
        exact (isSKUChar_iff_mem _).mp (ToUpperRune_on_letters_digits_hyphen a (h a ha)).2.2
    have h1 := (base rawSKU).2.1 hok
    rw [hT, hU] at h1
    exact Prod.ext h1 hok

end Utils

/-! ## Listing of categories -/

namespace Category

open Apperror Golang Utils

/-- C24, the code at the failing input, for every database server `srv`.  The
store holds the categories `Wheel` and `Brake`.  `List` with the search text
`Wheel` and the sort text `name ASC` counts 2 and selects both rows: no
condition is part of the statement, and the order requested from the server is
`created_at DESC`; when the server rejects that order the call fails.  With
an empty search text the statement carries the condition `name =  ILIKE  `
with the argument `%%`, and the call fails when the server rejects it; when
the server reads it as a predicate the rows are not ordered.  In general the
result is the same for any two search texts that are not empty and any two
sort texts that are not empty, and the total and the error do not depend on
the limit and the offset. -/
theorem C24_list_inverts_search_and_sort (srv : Gorm.Server Domain.Category) :
    (∀ arrange, srv.OrderBy "created_at DESC" = .ok arrange →
      (repository.List ⟨⟨[⟨1, "Wheel", false⟩, ⟨2, "Brake", false⟩], 2, none⟩, none⟩ srv
          { Search := "Wheel", Limit := 10, Offset := 0, «Sort» := "name ASC" }).1 =
        ((arrange [⟨1, "Wheel", false⟩, ⟨2, "Brake", false⟩]).take 10, 2, none)) ∧
    (∀ e, srv.OrderBy "created_at DESC" = .error e →
      (repository.List ⟨⟨[⟨1, "Wheel", false⟩, ⟨2, "Brake", false⟩], 2, none⟩, none⟩ srv
          { Search := "Wheel", Limit := 10, Offset := 0, «Sort» := "name ASC" }).1 =
        ([], 0, MapDBError "repo.category.list" (some e))) ∧
    (∀ e, srv.Cond "name =  ILIKE  " ["%%"] = .error e →
      (repository.List ⟨⟨[⟨1, "Wheel", false⟩, ⟨2, "Brake", false⟩], 2, none⟩, none⟩ srv
          { Search := "", Limit := 10, Offset := 0, «Sort» := "" }).1 =
        ([], 0, MapDBError "repo.category.list.count" (some e))) ∧
    (∀ p, srv.Cond "name =  ILIKE  " ["%%"] = .ok p →
      (repository.List ⟨⟨[⟨1, "Wheel", false⟩, ⟨2, "Brake", false⟩], 2, none⟩, none⟩ srv
          { Search := "", Limit := 10, Offset := 0, «Sort» := "" }).1 =
        ((([⟨1, "Wheel", false⟩, ⟨2, "Brake", false⟩] : List Domain.Category).filter p).take 10,
          (((([⟨1, "Wheel", false⟩, ⟨2, "Brake", false⟩] :
            List Domain.Category).filter p).length : Nat) : Int),
          none)) ∧
    (∀ (r : repository) (q : ListQuery) (search sort : String),
      q.Search ≠ "" → search ≠ "" → q.«Sort» ≠ "" → sort ≠ "" →
      repository.List r srv { q with Search := search, «Sort» := sort } =
        repository.List r srv q) ∧
    (∀ (r : repository) (q : ListQuery) (limit offset : Int),
      (repository.List r srv { q with Limit := limit, Offset := offset }).1.2 =
        (repository.List r srv q).1.2) := by
  have hj : ",".intercalate ["created_at DESC"] = "created_at DESC" := by decide
  refine ⟨?_, ?_, ?_, ?_, ?_, ?_⟩
  · intro arrange h
    simp [repository.List, Gorm.Table.Count, Gorm.Table.Find, Gorm.Table.Arrange, Gorm.Table.Select,
      Gorm.Server.Filter, Gorm.Statement.Model, Gorm.Statement.Order,
      Gorm.Statement.Limit, Gorm.Statement.Page, hj, h, Gorm.Model.Deleted]
  · intro e h
    simp [repository.List, Gorm.Table.Count, Gorm.Table.Find, Gorm.Table.Arrange, Gorm.Table.Select,
      Gorm.Server.Filter, Gorm.Statement.Model, Gorm.Statement.Order,
      Gorm.Statement.Limit, Gorm.Statement.Page, hj, h, Gorm.Model.Deleted]
  · intro e h
    simp [repository.List, Gorm.Table.Count, Gorm.Table.Select,
      Gorm.Server.Filter, Gorm.Statement.Model, Gorm.Statement.Where, h]
  · intro p h
    simp [repository.List, Gorm.Table.Count, Gorm.Table.Find, Gorm.Table.Arrange, Gorm.Table.Select,
      Gorm.Server.Filter, Gorm.Statement.Model, Gorm.Statement.Where,
      Gorm.Statement.Order, Gorm.Statement.Limit, Gorm.Statement.Page, h,
      Gorm.Model.Deleted]
    have hf : List.filter (fun r : Domain.Category => !r.Deleted && p r)
        [⟨1, "Wheel", false⟩, ⟨2, "Brake", false⟩] =
        List.filter p [⟨1, "Wheel", false⟩, ⟨2, "Brake", false⟩] := by
      simp [List.filter_cons]
    rw [hf]
    exact ⟨rfl, rfl⟩
  · intro r q search sort h1 h2 h3 h4
    unfold repository.List
    simp only [if_neg h1, if_neg h2, if_neg h3, if_neg h4]
  · intro r q limit offset
    have hA : ∀ tx : Gorm.Statement,
        r.db.Arrange srv
            (if limit ≠ 0 then (if offset ≠ 0 then tx.Offset offset else tx).Limit limit
              else (if offset ≠ 0 then tx.Offset offset else tx)) =
          r.db.Arrange srv
            (if q.Limit ≠ 0 then (if q.Offset ≠ 0 then tx.Offset q.Offset else tx).Limit q.Limit
              else (if q.Offset ≠ 0 then tx.Offset q.Offset else tx)) := by
      intro tx
      split_ifs <;> rfl
    dsimp only [repository.List]
    cases hc : r.db.Count srv
        (if q.Search = "" then
          Gorm.Statement.Model.Where "name =  ILIKE  " ["%" ++ q.Search ++ "%"]
        else Gorm.Statement.Model) with
    | error e => rfl
    | ok total =>
      dsimp only
      simp only [Gorm.Table.Find, hA]
      generalize r.db.Arrange srv _ = a
      cases a <;> rfl

end Category

/-! ## Product update -/

namespace Product

open Apperror Golang Utils

end Product

/-! ## Login -/

namespace Auth

open Apperror Golang

/-- C26.  `Login` fails in this order, each time with a nil user and an empty
token: `ErrInvalidInput` when the trimmed username or the trimmed password is
empty, the repository untouched; the error of `GetByUsername` on the trimmed
username, as it is; `ErrUserForbidden` when the user read is not active,
whatever the password; `ErrUnauthorized` when the hasher rejects the password
against the hash of the user read; `ErrInternalServer` when the issuer fails.
Otherwise it returns the token of the issuer and the user read with an empty
`Password`. -/
theorem C26_Login_failure_order {σ τ : Type} (i : service σ τ) (inp : LoginInput)
    (s : σ × τ) :
    (TrimSpace inp.Username = "" ∨ TrimSpace inp.Password = "" →
      i.Login inp s = ((none, "", some .ErrInvalidInput), s)) ∧
    (TrimSpace inp.Username ≠ "" → TrimSpace inp.Password ≠ "" →
      (∀ x err s1,
        i.authRepo.GetByUsername (TrimSpace inp.Username) s.1 = ((x, some err), s1) →
        i.Login inp s = ((none, "", some err), (s1, s.2))) ∧
      (∀ user s1,
        i.authRepo.GetByUsername (TrimSpace inp.Username) s.1 = ((some user, none), s1) →
        (user.IsActive = false →
          i.Login inp s = ((none, "", some .ErrUserForbidden), (s1, s.2))) ∧
        (user.IsActive = true →
          (∀ msg, i.hash.CompareHashAndPassword inp.Password user.Password = some msg →
            i.Login inp s = ((none, "", some .ErrUnauthorized), (s1, s.2))) ∧
          (i.hash.CompareHashAndPassword inp.Password user.Password = none →
            (∀ token jwtID msg t1,
              i.tokens.GenerateToken user.ID user.Username user.Role s.2 =
                ((token, jwtID, some msg), t1) →
              i.Login inp s = ((none, "", some .ErrInternalServer), (s1, t1))) ∧
            (∀ token jwtID t1,
              i.tokens.GenerateToken user.ID user.Username user.Role s.2 =
                ((token, jwtID, none), t1) →
              i.Login inp s =
                ((some { ID := user.ID, Email := user.Email, Username := user.Username,
                         Password := "", Role := user.Role, IsActive := user.IsActive,
                         Deleted := user.Deleted }, token, none), (s1, t1))))))) := by
  refine ⟨?_, ?_⟩
  · intro h
    simp [service.Login, sanitizeLogin, h]
  · intro hu hp
    have hs : sanitizeLogin inp = none := by simp [sanitizeLogin, hu, hp]
    refine ⟨?_, ?_⟩
    · intro x err s1 h
      simp [service.Login, hs, h]
    · intro user s1 h
      refine ⟨?_, ?_⟩
      · intro ha
        simp [service.Login, hs, h, ha]
      · intro ha
        refine ⟨?_, ?_⟩
        · intro msg hc
          simp [service.Login, hs, h, ha, hc]
        · intro hc
          refine ⟨?_, ?_⟩
          · intro token jwtID msg t1 hg
            simp [service.Login, hs, h, ha, hc, hg]
          · intro token jwtID t1 hg
            simp [service.Login, hs, h, ha, hc, hg]

/-- C26 at the user repository of the code base without a cache, with a hasher
that accepts the password `P@ssword1234` for the hash `$2a$12$h` and an issuer
that numbers its tokens: the active user `alice` logs in with surrounding
blanks around the name, and a blank password is refused before any read. -/
theorem C26_Login_failure_order_witness :
    (NewService UserRepository
        { GenerateToken := fun _ username _ (n : Nat) =>
            ((username ++ "." ++ fmtD n, "jti", none), n + 1) }
        { HashPassword := fun _ => ("$2a$12$h", none),
          CompareHashAndPassword := fun password hashed =>
            if password = "P@ssword1234" ∧ hashed = "$2a$12$h" then none
            else some "mismatch" }
        "").Login { Username := " alice ", Password := "P@ssword1234" }
        (⟨⟨[⟨1, "a@mail.com", "alice", "$2a$12$h", "cashier", true, false⟩], 1, none⟩, none⟩,
          4) =
      ((some ⟨1, "a@mail.com", "alice", "", "cashier", true, false⟩, "alice.4", none),
        (⟨⟨[⟨1, "a@mail.com", "alice", "$2a$12$h", "cashier", true, false⟩], 1, none⟩, none⟩,
          5)) ∧
    (NewService UserRepository
        { GenerateToken := fun _ username _ (n : Nat) =>
            ((username ++ "." ++ fmtD n, "jti", none), n + 1) }
        { HashPassword := fun _ => ("$2a$12$h", none),
          CompareHashAndPassword := fun password hashed =>
            if password = "P@ssword1234" ∧ hashed = "$2a$12$h" then none
            else some "mismatch" }
        "").Login { Username := "alice", Password := "  " }
        (⟨⟨[⟨1, "a@mail.com", "alice", "$2a$12$h", "cashier", true, false⟩], 1, none⟩, none⟩,
          4) =
      ((none, "", some .ErrInvalidInput),
        (⟨⟨[⟨1, "a@mail.com", "alice", "$2a$12$h", "cashier", true, false⟩], 1, none⟩, none⟩,
          4)) :=
  ⟨(((((C26_Login_failure_order
      (NewService UserRepository
        { GenerateToken := fun _ username _ (n : Nat) =>
            ((username ++ "." ++ fmtD n, "jti", none), n + 1) }
        { HashPassword := fun _ => ("$2a$12$h", none),
          CompareHashAndPassword := fun password hashed =>
            if password = "P@ssword1234" ∧ hashed = "$2a$12$h" then none
            else some "mismatch" }
        "") { Username := " alice ", Password := "P@ssword1234" }
      (⟨⟨[⟨1, "a@mail.com", "alice", "$2a$12$h", "cashier", true, false⟩], 1, none⟩, none⟩,
        4)).2 (by decide) (by decide)).2
      ⟨1, "a@mail.com", "alice", "$2a$12$h", "cashier", true, false⟩ _ (by decide)).2
      (by decide)).2 (by decide)).2 "alice.4" "jti" 5 (by decide),
   (C26_Login_failure_order
      (NewService UserRepository
        { GenerateToken := fun _ username _ (n : Nat) =>
            ((username ++ "." ++ fmtD n, "jti", none), n + 1) }
        { HashPassword := fun _ => ("$2a$12$h", none),
          CompareHashAndPassword := fun password hashed =>
            if password = "P@ssword1234" ∧ hashed = "$2a$12$h" then none
            else some "mismatch" }
        "") { Username := "alice", Password := "  " }
      (⟨⟨[⟨1, "a@mail.com", "alice", "$2a$12$h", "cashier", true, false⟩], 1, none⟩, none⟩,
        4)).1 (Or.inr (by decide))⟩

end Auth

/-! ## Pagination -/

namespace Utils

/-- C27.  `NormalizePagination limit offset` returns a limit between 1 and 100
and an offset that is not negative: the limit is 10 when the given one is
below 1, 100 when it is above 100 and the given one otherwise, and the offset
is 0 when the given one is negative and the given one otherwise.  Normalising
twice is normalising once.  The `List` of the category service and the one of
the inventory service call the repository once, with these two values and with
the search text and the sort text of the caller, whatever the repository
answers. -/
theorem C27_NormalizePagination_and_the_lists (limit offset : Int) :
    (1 ≤ (NormalizePagination limit offset).1 ∧ (NormalizePagination limit offset).1 ≤ 100 ∧
      0 ≤ (NormalizePagination limit offset).2) ∧
    (NormalizePagination limit offset).1 =
      (if limit < 1 then 10 else if limit > 100 then 100 else limit) ∧
    (NormalizePagination limit offset).2 = (if offset < 0 then 0 else offset) ∧
    NormalizePagination (NormalizePagination limit offset).1 (NormalizePagination limit offset).2 =
      NormalizePagination limit offset ∧
    (∀ (a : List Domain.Category × Int × Option Apperror.Error) (search sort : String),
      (Category.service.List (fun q calls => (a, calls ++ [q]))
          { Search := search, Limit := limit, Offset := offset, «Sort» := sort } []).2 =
        [{ Search := search, Limit := (NormalizePagination limit offset).1,
           Offset := (NormalizePagination limit offset).2, «Sort» := sort }]) ∧
    (∀ (a : List Domain.Inventory × Int × Option Apperror.Error) (sort : String),
      (Inventory.service.List (fun q calls => (a, calls ++ [q]))
          { Limit := limit, Offset := offset, «Sort» := sort } []).2 =
        [{ Limit := (NormalizePagination limit offset).1,
           Offset := (NormalizePagination limit offset).2, «Sort» := sort }]) := by
  refine ⟨?_, ?_, ?_, ?_, ?_, ?_⟩
  · simp only [NormalizePagination, defaultLimit, maxLimit]
    split_ifs <;> omega
  · simp only [NormalizePagination, defaultLimit, maxLimit]
    split_ifs <;> omega
  · simp only [NormalizePagination]
  · simp only [NormalizePagination, defaultLimit, maxLimit]
    split_ifs <;> first | rfl | (exfalso; omega)
  · rintro ⟨rows, total, _ | err⟩ search sort <;> simp [Category.service.List]
  · rintro ⟨rows, total, _ | err⟩ sort <;> simp [Inventory.service.List]

end Utils

/-! ## The row the stock adjustment reaches -/

namespace Inventory

open Apperror Golang

/-- C28, the code at the failing input.  The store holds inventory 1 of
product 10 with 100 pieces and inventory 2 of product 20 with 3 pieces.
`UpdateQuantity 1` with `ProductID` 20 and `Quantity` -2 reads and checks
inventory 1 and returns an item for inventory 1 of product 10 with 98 pieces,
but the row written is inventory 2, now at 1 piece, and inventory 1 still holds
100.  With `Quantity` -50 the check passes against the 100 pieces of inventory
1 and inventory 2 is left at -47. -/
theorem C28_update_reaches_another_row :
    UpdateQuantity NewRepository 1 { ProductID := 20, Quantity := -2 }
        ⟨⟨[⟨1, 10, 100, false⟩, ⟨2, 20, 3, false⟩], 2, none⟩, none⟩ =
      ((some { ID := 1, ProductID := 10, Quantity := 98 }, none),
        ⟨⟨[⟨1, 10, 100, false⟩, ⟨2, 20, 1, false⟩], 2, none⟩, none⟩) ∧
    UpdateQuantity NewRepository 1 { ProductID := 20, Quantity := -50 }
        ⟨⟨[⟨1, 10, 100, false⟩, ⟨2, 20, 3, false⟩], 2, none⟩, none⟩ =
      ((some { ID := 1, ProductID := 10, Quantity := 50 }, none),
        ⟨⟨[⟨1, 10, 100, false⟩, ⟨2, 20, -47, false⟩], 2, none⟩, none⟩) ∧
    UpdateQuantity NewRepository 1 { ProductID := 10, Quantity := -2 }
        ⟨⟨[⟨1, 10, 100, false⟩, ⟨2, 20, 3, false⟩], 2, none⟩, none⟩ =
      ((some { ID := 1, ProductID := 10, Quantity := 98 }, none),
        ⟨⟨[⟨1, 10, 98, false⟩, ⟨2, 20, 3, false⟩], 2, none⟩, none⟩) := by
  decide

end Inventory

/-! ## The identifying fields of the product read model -/

namespace Product

open Apperror Golang Utils

/-- C29, the code at the failing input.  `toItem` assigns neither `SKU` nor
`CategoryID`: for every product, category and inventory the item has the empty
SKU and the category id 0.  Product 1 with SKU `BP-001` in category 3 is read
by `GetProductDetail` over the repositories of the code base, and the handler
answers 200 with the SKU empty and the category id 0; the item of
`UpdateProduct` and the item of `CreateProduct` have the same two values. -/
theorem C29_item_has_no_sku_and_no_category_id :
    (∀ p c inv, (toItem p c inv).SKU = "" ∧ (toItem p c inv).CategoryID = 0) ∧
    (Handler.GetProductDetail
        (NewService NewRepository Category.NewRepository Inventory.NewRepository).Service "1"
        { product := ⟨⟨[⟨1, "Pad", "front", ⟨4607182418800017408⟩, "BP-001", 3, true, false⟩],
                        1, none⟩, none⟩,
          category := ⟨⟨[⟨3, "Brakes", false⟩], 3, none⟩, none⟩,
          inventory := ⟨⟨[⟨7, 1, 5, false⟩], 7, none⟩, none⟩ }).1 =
      Response.OK { ID := 1, Name := "Pad", Description := "front", SKU := "",
                    Price := ⟨4607182418800017408⟩, CategoryID := 0,
                    Category := { ID := 3, Name := "Brakes" },
                    Inventory := { ID := 7, ProductID := 1, Quantity := 5 } } ∧
    ((NewService NewRepository Category.NewRepository Inventory.NewRepository).UpdateProduct 1
        { Name := some "Pad 2", Description := none, SKU := none, Price := none,
          CategoryID := some 3 }
        { product := ⟨⟨[⟨1, "Pad", "front", ⟨4607182418800017408⟩, "BP-001", 3, true, false⟩],
                        1, none⟩, none⟩,
          category := ⟨⟨[⟨3, "Brakes", false⟩], 3, none⟩, none⟩,
          inventory := ⟨⟨[⟨7, 1, 5, false⟩], 7, none⟩, none⟩ }).1 =
      (some { ID := 1, Name := "Pad 2", Description := "front", SKU := "",
              Price := ⟨4607182418800017408⟩, IsActive := true, CategoryID := 0,
              Category := { ID := 3, Name := "Brakes" },
              Inventory := { ID := 7, ProductID := 1, Quantity := 5 } }, none) ∧
    ((NewService NewRepository Category.NewRepository Inventory.NewRepository).CreateProduct
        { Name := "Disc", Description := "rear", Price := ⟨4607182418800017408⟩,
          SKU := "BD-002", CategoryID := 3 }
        { product := ⟨⟨[⟨1, "Pad", "front", ⟨4607182418800017408⟩, "BP-001", 3, true, false⟩],
                        1, none⟩, none⟩,
          category := ⟨⟨[⟨3, "Brakes", false⟩], 3, none⟩, none⟩,
          inventory := ⟨⟨[⟨7, 1, 5, false⟩], 7, none⟩, none⟩ }).1 =
      (some { ID := 2, Name := "Disc", Description := "rear", SKU := "",
              Price := ⟨4607182418800017408⟩, IsActive := true, CategoryID := 0,
              Category := { ID := 3, Name := "Brakes" },
              Inventory := { ID := 8, ProductID := 2, Quantity := 0 } }, none) := by
  refine ⟨fun p c inv => ⟨rfl, rfl⟩, ?_, ?_, ?_⟩ <;> decide

end Product

/-! ## Tokens -/

namespace Jwtx

open Golang

/-- The library accepts a generated token under a parser that admits HS256:
with the options of `ValidateToken` but `HS256` as the valid method, a token of
`GenerateToken` parses from its issue until its expiry, and the parsed claims
are the signed ones, which carry the user id, the username, the role and the
token id. -/
theorem generated_token_parses_under_HS256 (j : jwtManager) (userID : Nat)
    (username role : String) (now later : Int) (entropy : List Nat)
    (hl : 0 ≤ j.leeway) (h1 : now ≤ later)
    (h2 : later < (now + j.exp) / 1000000000 * 1000000000 + j.leeway) :
    ∃ claims : Claims,
      (j.GenerateToken userID username role now (some entropy)).1 =
        Jwt.SignedStringHS256 claims j.sectectKey ∧
      claims.UserID = userID ∧ claims.Username = username ∧ claims.Role = role ∧
      claims.RegisteredClaims.ID =
        (j.GenerateToken userID username role now (some entropy)).2.1 ∧
      Jwt.Parser.ParseWithClaims
          { validMethods := some ["HS256"], leeway := j.leeway, expectedIss := j.iss,
            expectedAud := j.aud }
          (fun c => c.RegisteredClaims)
          (j.GenerateToken userID username role now (some entropy)).1 j.sectectKey later =
        .ok { Method := "HS256", Claims := claims,
              Signature := .HMAC "HS256" j.sectectKey claims, Valid := true } := by
  have hnbf : ¬ later < (now - j.leeway) / 1000000000 * 1000000000 - j.leeway := by
    have := Int.ediv_mul_le (now - j.leeway) (show (1000000000 : Int) ≠ 0 by norm_num)
    omega
  have hv : Jwt.Parser.Validate
      { validMethods := some ["HS256"], leeway := j.leeway, expectedIss := j.iss,
        expectedAud := j.aud }
      { ID := (randomJTI 16 (some entropy)).1, Issuer := j.iss, Subject := "",
        IssuedAt := Jwt.NewNumericDate now,
        NotBefore := Jwt.NewNumericDate (now - j.leeway),
        ExpiresAt := Jwt.NewNumericDate (now + j.exp),
        Audience := if j.aud ≠ "" then [j.aud] else [] } later = [] := by
    simp only [Jwt.Parser.Validate, Jwt.NewNumericDate, if_pos h2, if_neg hnbf,
      List.nil_append, List.append_eq_nil]
    constructor
    · by_cases ha : j.aud = "" <;> simp [ha]
    · by_cases hi : j.iss = "" <;> simp [hi]
  refine ⟨{ UserID := userID, Username := username, Role := role,
            RegisteredClaims :=
              { ID := (randomJTI 16 (some entropy)).1, Issuer := j.iss, Subject := "",
                IssuedAt := Jwt.NewNumericDate now,
                NotBefore := Jwt.NewNumericDate (now - j.leeway),
                ExpiresAt := Jwt.NewNumericDate (now + j.exp),
                Audience := if j.aud ≠ "" then [j.aud] else [] } },
          rfl, rfl, rfl, rfl, rfl, ?_⟩
  simp only [jwtManager.GenerateToken, randomJTI, Jwt.SignedStringHS256,
    Jwt.Parser.ParseWithClaims]
  rw [if_neg (by decide), if_neg (by decide), if_neg (by simp)]
  simp only [Jwt.Verify, true_or, if_true]
  simp only [randomJTI] at hv
  rw [hv]

/-- C30, the code for every manager and every input.  `GenerateToken` signs
with HS256 and does not fail when the random source delivers; `ValidateToken`
of the same manager admits the method ES256 only, so the parser stops at the
method of the token with `ErrTokenSignatureInvalid` and the token is answered
with `ErrInvalidToken` and no claims, at every time.  No token at all is
accepted by `ValidateToken`: a token that names ES256 fails on the key, which
is a byte string. -/
theorem C30_generated_token_is_rejected (j : jwtManager) (userID : Nat)
    (username role : String) (now later : Int) (entropy : List Nat) :
    (j.GenerateToken userID username role now (some entropy)).2.2 = none ∧
    Jwt.Parser.ParseWithClaims j.opts (fun c => c.RegisteredClaims)
        (j.GenerateToken userID username role now (some entropy)).1 j.sectectKey later =
      .error [.ErrTokenSignatureInvalid] ∧
    j.ValidateToken (j.GenerateToken userID username role now (some entropy)).1 later =
      (none, some .ErrInvalidToken) ∧
    (∀ token t, j.ValidateToken token t = (none, some .ErrInvalidToken)) := by
  have hall : ∀ token t, j.ValidateToken token t = (none, some .ErrInvalidToken) := by
    intro token t
    cases token with
    | Text s =>
      by_cases hs : TrimSpace s = ""
      · simp [jwtManager.ValidateToken, hs]
      · simp [jwtManager.ValidateToken, hs, Jwt.Parser.ParseWithClaims]
    | Signed alg claims signature =>
      by_cases h1 : alg ∈ Jwt.signingMethods
      · by_cases h2 : alg = "ES256"
        · subst h2
          by_cases h3 : signature = .Undecodable
          · simp [jwtManager.ValidateToken, Jwt.Parser.ParseWithClaims, jwtManager.opts, h1, h3]
          · simp [jwtManager.ValidateToken, Jwt.Parser.ParseWithClaims, jwtManager.opts, h1, h3,
              Jwt.Verify]
        · simp [jwtManager.ValidateToken, Jwt.Parser.ParseWithClaims, jwtManager.opts, h1, h2]
      · simp [jwtManager.ValidateToken, Jwt.Parser.ParseWithClaims, h1]
  refine ⟨rfl, ?_, hall _ _, hall⟩
  simp only [jwtManager.GenerateToken, randomJTI, Jwt.SignedStringHS256,
    Jwt.Parser.ParseWithClaims, jwtManager.opts]
  rw [if_neg (by decide), if_pos (by decide)]

end Jwtx
